import Mathlib

/-!
# LoRaWAN Class B: end-device beacon / ping-slot controller and network scheduler

Shallow embedding of `model/end-device-lora-mac.{h,cc}`,
`model/network-scheduler.{h,cc}`, `model/network-status.cc`,
`model/gateway-lora-mac.cc`, `model/class-b/bcn-payload.{h,cc}`,
`model/class-b/hop-count-tag.cc` and `model/class-b/end-device-class-b-app.{h,cc}`.

Conventions of the embedding

* C++ unsigned integers are `Nat` with an explicit `% 2^w` wherever a value is
  stored into a `w`-bit object.
* ns-3 `Time` is a signed number of nanoseconds (the default resolution); a
  constant written `Seconds (x)` with a decimal `x` has its nominal value
  (`Seconds (2.12)` is 2120 ms, `Seconds (0.03)` is 30 ms).
* `Simulator::Schedule (delay, &f, args)` executed at instant `now` is recorded
  as a `ScheduledEvent` carrying the absolute instant `now + delay` and the
  member function together with its arguments.
* Undefined behaviour of the C++ code (integer division by zero, conversion of
  an out-of-range floating value, a failed `NS_ASSERT`) is the result `none`.
* The block cipher (`ns3/aes.h`), `LoraDeviceAddress::Serialize` and the object
  representation of a `uint32_t` are collaborators outside the embedded
  sources; they are fields of `Host`.
* `Time::GetSeconds` returns a `double`. At an instant that is a whole number of
  seconds the `double` is that number; at any other instant its value is the
  field of `ClockHost`, a collaborator outside the embedded sources.
-/

namespace LoraClassB

/-! ## Time -/

/-- The ns-3 `Time` type: signed nanoseconds. -/
abbrev Time := Int

/-- Source `Seconds (s)` for a whole number of seconds. -/
def Seconds (s : Int) : Time := s * 1000000000

/-- Source `MilliSeconds (ms)`; `Seconds (0.03)` is `MilliSeconds 30`. -/
def MilliSeconds (ms : Int) : Time := ms * 1000000

/-- Source `Minutes (m)`. -/
def Minutes (m : Int) : Time := m * 60000000000

/-- The expression `(uint32_t) (t.GetSeconds ())` for an instant `t` that is a whole
number of seconds, which the `double` holds exactly: that number when it lies
in `[0, 2^32)`; reduced modulo `2^32` beyond that. -/
def Time.GetSecondsUInt32 (t : Time) : Nat := (t / 1000000000).toNat % 2 ^ 32

/-- A `LoraDeviceAddress`, identified with the 32-bit value of `Get ()`. -/
abbrev LoraDeviceAddress := Nat

/-- The `double` arithmetic of `ns3::Time::GetSeconds`, which belongs to the ns-3 core
and not to the embedded sources. The value of a finite `double` is a rational
number. -/
structure ClockHost where
  /-- The value of `t.GetSeconds ()`. -/
  GetSeconds : Time → ℚ

/-- What is relied on about `Time::GetSeconds`: it does not decrease with the
instant, it is exact at a whole number of seconds up to `2^32`, and it is off
by less than a microsecond below `2^32` seconds (the spacing of the `double`
values there is below half a microsecond): an instant at least 1000 ns before a
whole second reads below that second. -/
def ClockHost.Faithful (clock : ClockHost) : Prop :=
  (∀ t u : Time, t ≤ u → clock.GetSeconds t ≤ clock.GetSeconds u) ∧
  (∀ s : Nat, s ≤ 2 ^ 32 → clock.GetSeconds (Seconds (s : Int)) = (s : ℚ)) ∧
  (∀ (t : Time) (s : Nat), s ≤ 2 ^ 32 → t + 1000 ≤ Seconds (s : Int) →
    clock.GetSeconds t < (s : ℚ))

/-- The expression `static_cast<uint32_t> (t.GetSeconds ())` at any instant `t`: the
`double` is truncated towards zero; the conversion is undefined when the
truncated value is not a value of `uint32_t`. -/
def ClockHost.GetSecondsUInt32 (clock : ClockHost) (t : Time) : Option Nat :=
  if -1 < clock.GetSeconds t ∧ clock.GetSeconds t < 2 ^ 32 then
    some ⌊clock.GetSeconds t⌋.toNat
  else none

/-- A clock host whose `double` holds every instant exactly. -/
def exactClock : ClockHost where
  GetSeconds := fun t => (t : ℚ) / 1000000000

/-- Collaborators that are not part of the embedded sources. -/
structure Host where
  /-- The bytes `((uint8_t *) &x)[0..3]` of a `uint32_t` object. -/
  uint32Bytes : Nat → List Nat
  /-- The four bytes written by `LoraDeviceAddress::Serialize`. -/
  addressSerialize : LoraDeviceAddress → List Nat
  /-- The calls `aes.SetKey (key, 16); aes.Encrypt (block, 16)`: the content of `block` afterwards. -/
  aesEncrypt : List Nat → List Nat → List Nat

/-- Reading `buf[i]` of a `uint8_t` buffer whose unwritten cells are zero. -/
def byteAt (buf : List Nat) (i : Nat) : Nat := buf.getD i 0 % 256

/-- The array `key[16] = {0}`. -/
def zeroKey : List Nat := List.replicate 16 0

/-- The array `rand[16]` after the eight assignments `rand[0..3] = beaconTime[0..3]`,
`rand[4..7] = devAddr[0..3]`; the other cells keep their initial zero. -/
def randBlock (beaconTime devAddr : List Nat) : List Nat :=
  [byteAt beaconTime 0, byteAt beaconTime 1, byteAt beaconTime 2, byteAt beaconTime 3,
   byteAt devAddr 0, byteAt devAddr 1, byteAt devAddr 2, byteAt devAddr 3,
   0, 0, 0, 0, 0, 0, 0, 0]

/-- The value `rand[0] + rand[1]*256` read after the encryption in place. -/
def randWord (host : Host) (bcnPayload : Nat) (address : LoraDeviceAddress) : Nat :=
  let rand := host.aesEncrypt zeroKey
    (randBlock (host.uint32Bytes bcnPayload) (host.addressSerialize address))
  byteAt rand 0 + byteAt rand 1 * 256

/-! ## End-device state -/

/-- Source `EndDeviceLoraMac::MacState`. -/
inductive MacState
  | MAC_TX
  | MAC_RX1
  | MAC_RX2
  | MAC_BEACON_GUARD
  | MAC_RX_BEACON_GUARD
  | MAC_PING_SLOT_BEACON_GUARD
  | MAC_BEACON_RESERVED
  | MAC_PING_SLOT
  | MAC_IDLE
  deriving DecidableEq, Repr

/-- Source `EndDeviceLoraMac::DeviceClass`. -/
inductive DeviceClass
  | CLASS_A
  | CLASS_B
  | CLASS_C
  deriving DecidableEq, Repr

/-- Source `EndDeviceLoraMac::BeaconState`. -/
inductive BeaconState
  | BEACON_UNLOCKED
  | BEACON_SEARCH
  | BEACON_LOCKED
  | BEACONLESS
  deriving DecidableEq, Repr

/-- Source `EndDeviceLoraPhy::State` as far as the MAC inspects it. -/
inductive PhyState
  | SLEEP
  | STANDBY
  | TX
  | RX
  deriving DecidableEq, Repr

/-- A packet as far as the Class B code inspects it: the direction bit of the MAC
header, the address and the ACK bit of the frame header, the hop count tag
(0 when the packet carries none) and the payload. -/
structure Packet where
  isUplink : Bool := false
  address : LoraDeviceAddress := 0
  hopCount : Nat := 0
  payload : List Nat := []
  ack : Bool := false
  deriving DecidableEq, Repr

/-- The member functions of `EndDeviceLoraMac` handed to `Simulator::Schedule`. -/
inductive MacEvent
  | StartBeaconGuard
  | EndBeaconGuard
  | StartBeaconReserved
  | CloseBeaconReceiveWindow
  | EndBeaconReserved
  | OpenPingSlotReceiveWindow (slotIndex : Nat)
  | ClosePingSlotRecieveWindow
  | DoSend (packet : Packet)
  | OpenFirstReceiveWindow
  | CloseFirstReceiveWindow
  | OpenSecondReceiveWindow
  | CloseSecondReceiveWindow
  deriving DecidableEq, Repr

/-- One `Simulator::Schedule` call of the end device: absolute instant and callee. -/
structure ScheduledEvent where
  time : Time
  callee : MacEvent
  deriving DecidableEq, Repr

/-- An `EventId`; `none` is the void `EventId ()`. -/
abbrev EventId := Option ScheduledEvent

/-- Source `EndDeviceLoraMac::ServiceType`. -/
inductive ServiceType
  | UNICAST
  | MULTICAST
  deriving DecidableEq, Repr

/-- Callbacks and trace sources fired by the end-device MAC. A packet handed to
a callback is given by its payload. -/
inductive MacCallback
  | beaconLost
  | beaconLocked
  | missedBeaconTraced (mcAddress ucAddress : LoraDeviceAddress) (count : Nat)
  | currentConsecutiveBeaconsMissedTraced (mcAddress ucAddress : LoraDeviceAddress) (count : Nat)
  | totalSuccessfulBeaconPacketsTraced (mcAddress ucAddress : LoraDeviceAddress) (count : Nat)
  | classBDownlink (serviceType : ServiceType) (payload : List Nat) (pingIndex : Nat)
  | receivedPingPacket (mcAddress ucAddress : LoraDeviceAddress) (payload : List Nat)
      (slotIndex : Nat)
  | receivedPacket (payload : List Nat)
  | requiredTx (transmissions : Nat) (success : Bool)
  deriving DecidableEq, Repr

/-- The struct `EndDeviceLoraMac::LoraRetxParameters`, the two members that steer the
receive paths. -/
structure LoraRetxParameters where
  waitingAck : Bool := false
  retxLeft : Nat := 8
  deriving DecidableEq, Repr

/-- The struct `EndDeviceLoraMac::BeaconInfo`, its mutable members. -/
structure BeaconInfo where
  endBeaconGuardEvent : EventId := none
  endBeaconReservedEvent : EventId := none
  nextBeaconGuardEvent : EventId := none
  gwBcnTime : Time := Seconds 0
  deviceBcnTime : Time := Seconds 0
  deriving DecidableEq, Repr

/-- Source `BeaconInfo::minimalBeaconLessOperationTime = Minutes (128)`, never assigned. -/
def BeaconInfo.minimalBeaconLessOperationTime : Time := Minutes 128
/-- Source `BeaconInfo::beaconPeriod = Seconds (128)`, never assigned. -/
def BeaconInfo.beaconPeriod : Time := Seconds 128
/-- Source `BeaconInfo::beaconReserved = Seconds (2.12)`, never assigned. -/
def BeaconInfo.beaconReserved : Time := MilliSeconds 2120
/-- Source `BeaconInfo::beaconGuard = Seconds (3.0)`, never assigned. -/
def BeaconInfo.beaconGuard : Time := Seconds 3
/-- Source `BeaconInfo::beaconWindow = Seconds (122.88)`, never assigned. -/
def BeaconInfo.beaconWindow : Time := MilliSeconds 122880
/-- Source `BeaconInfo::tBeaconDelay = Seconds (0.015)`, never assigned. -/
def BeaconInfo.tBeaconDelay : Time := MilliSeconds 15

/-- The struct `EndDeviceLoraMac::PingSlotInfo`, its mutable members. -/
structure PingSlotInfo where
  pendingPingSlotEvents : List EventId := []
  pingSlotPeriodicity : Nat := 0
  pingNb : Nat := 128
  pingPeriod : Nat := 32
  pingOffset : Nat := 31
  deriving DecidableEq, Repr

/-- Source `PingSlotInfo::slotLen = Seconds (0.03)`, never assigned. -/
def PingSlotInfo.slotLen : Time := MilliSeconds 30

/-- The struct `EndDeviceLoraMac::ClassBReceiveWindowInfo` (the two frequencies,
of type `double`, are left out). -/
structure ClassBReceiveWindowInfo where
  beaconReceiveWindowDataRate : Nat := 3
  pingSlotReceiveWindowDataRate : Nat := 3
  beaconReceiveWindowDurationInSymbols : Nat := 8
  pingReceiveWindowDurationInSymbols : Nat := 8
  deriving DecidableEq, Repr

/-- Source `ClassBReceiveWindowInfo::maxBeaconReceiveWindowDurationInSymbols`, never assigned. -/
def ClassBReceiveWindowInfo.maxBeaconReceiveWindowDurationInSymbols : Nat := 255
/-- Source `ClassBReceiveWindowInfo::maxPingReceiveWindowDurationInSymbols`, never assigned. -/
def ClassBReceiveWindowInfo.maxPingReceiveWindowDurationInSymbols : Nat := 30
/-- Source `ClassBReceiveWindowInfo::symbolToExpantionFactor`, never assigned. -/
def ClassBReceiveWindowInfo.symbolToExpantionFactor : Nat := 2

/-- The Class B part of the object state of `EndDeviceLoraMac`. -/
structure EndDeviceLoraMac where
  m_address : LoraDeviceAddress := 0
  m_mcAddress : LoraDeviceAddress := 1
  m_macState : MacState := MacState.MAC_IDLE
  m_deviceClass : DeviceClass := DeviceClass.CLASS_A
  m_beaconState : BeaconState := BeaconState.BEACON_UNLOCKED
  m_slotIndexLastOpened : Nat := 255
  m_totalSuccessfulBeaconPackets : Nat := 0
  m_missedBeaconCount : Nat := 0
  m_maximumConsecutiveBeaconsMissed : Nat := 0
  m_currentConsecutiveBeaconsMissed : Nat := 0
  m_attemptToClassB : Nat := 0
  m_enableMulticast : Bool := false
  m_beaconLostCallbackSet : Bool := false
  m_beaconLockedCallbackSet : Bool := false
  m_relayActivated : Bool := false
  m_packetToRelay : List Packet := []
  m_closeSecondWindow : EventId := none
  m_beaconInfo : BeaconInfo := {}
  m_pingSlotInfo : PingSlotInfo := {}
  m_classBReceiveWindowInfo : ClassBReceiveWindowInfo := {}
  m_classBDownlinkCallbackSet : Bool := false
  maxHop : Nat := 2
  m_failedPings : Nat := 0
  m_maxNumbTx : Nat := 8
  m_retxParams : LoraRetxParameters := {}
  m_closeFirstWindow : EventId := none
  m_secondReceiveWindow : EventId := none
  deriving DecidableEq, Repr

namespace EndDeviceLoraMac

/-- The constructor `EndDeviceLoraMac::EndDeviceLoraMac ()`: the member
initialisers, then `pendingPingSlotEvents.resize (128)` with every entry void. -/
def new : EndDeviceLoraMac :=
  { m_pingSlotInfo := { pendingPingSlotEvents := List.replicate 128 none } }

/-- Source `EndDeviceLoraMac::IsMulticastEnabled`. -/
def IsMulticastEnabled (m : EndDeviceLoraMac) : Bool := m.m_enableMulticast

/-- Source `EndDeviceLoraMac::GetDeviceAddress`. -/
def GetDeviceAddress (m : EndDeviceLoraMac) : LoraDeviceAddress := m.m_address

/-- Source `EndDeviceLoraMac::GetMulticastDeviceAddress`. -/
def GetMulticastDeviceAddress (m : EndDeviceLoraMac) : LoraDeviceAddress := m.m_mcAddress

/-- Source `EndDeviceLoraMac::GetPingSlotPeriodicity`. -/
def GetPingSlotPeriodicity (m : EndDeviceLoraMac) : Nat := m.m_pingSlotInfo.pingSlotPeriodicity

/-- Source `EndDeviceLoraMac::GetPingNb`. -/
def GetPingNb (m : EndDeviceLoraMac) : Nat := m.m_pingSlotInfo.pingNb

/-- Source `EndDeviceLoraMac::GetPingPeriod`. -/
def GetPingPeriod (m : EndDeviceLoraMac) : Nat := m.m_pingSlotInfo.pingPeriod

/-- Source `EndDeviceLoraMac::GetPingSlotReceiveWindowDataRate`. -/
def GetPingSlotReceiveWindowDataRate (m : EndDeviceLoraMac) : Nat :=
  m.m_classBReceiveWindowInfo.pingSlotReceiveWindowDataRate

/-- Source `EndDeviceLoraMac::SetPingSlotReceiveWindowDataRate (uint8_t pingSlotDr)`. -/
def SetPingSlotReceiveWindowDataRate (m : EndDeviceLoraMac) (pingSlotDr : Nat) :
    EndDeviceLoraMac :=
  { m with m_classBReceiveWindowInfo := { m.m_classBReceiveWindowInfo with
      pingSlotReceiveWindowDataRate := pingSlotDr % 256 } }

/-- Source `EndDeviceLoraMac::SetBeaconReceiveWindowDataRate (uint8_t beaconDr)`. -/
def SetBeaconReceiveWindowDataRate (m : EndDeviceLoraMac) (beaconDr : Nat) : EndDeviceLoraMac :=
  { m with m_classBReceiveWindowInfo := { m.m_classBReceiveWindowInfo with
      beaconReceiveWindowDataRate := beaconDr % 256 } }

/-- Source `EndDeviceLoraMac::GetBeaconRecieveWindowDataRate`: the body returns
`m_classBReceiveWindowInfo.pingSlotReceiveWindowDataRate`. -/
def GetBeaconRecieveWindowDataRate (m : EndDeviceLoraMac) : Nat :=
  m.m_classBReceiveWindowInfo.pingSlotReceiveWindowDataRate

/-- Source `EndDeviceLoraMac::SetDeviceAddress (LoraDeviceAddress address)`. -/
def SetDeviceAddress (m : EndDeviceLoraMac) (address : LoraDeviceAddress) : EndDeviceLoraMac :=
  { m with m_address := address }

/-- Source `EndDeviceLoraMac::SetMulticastDeviceAddress (LoraDeviceAddress address)`:
address 1 is only logged; an address equal to `m_address` fails the
`NS_ASSERT_MSG`. -/
def SetMulticastDeviceAddress (m : EndDeviceLoraMac) (address : LoraDeviceAddress) :
    Option EndDeviceLoraMac :=
  if address = 1 then some m
  else if address = m.m_address then none
  else some { m with m_mcAddress := address }

/-- Source `EndDeviceLoraMac::EnableMulticast`. -/
def EnableMulticast (m : EndDeviceLoraMac) : EndDeviceLoraMac :=
  if m.m_mcAddress = 1 then m else { m with m_enableMulticast := true }

/-- Source `EndDeviceLoraMac::DisableMulticast`. -/
def DisableMulticast (m : EndDeviceLoraMac) : EndDeviceLoraMac :=
  { m with m_enableMulticast := false }

/-- The conversion `(uint8_t) std::pow (2, 7 - periodicity)` for a `uint8_t`
periodicity: `2^(7-periodicity)` up to 7, and a value in `(0,1)`, truncated to 0, above. -/
def powTwoSevenMinus (periodicity : Nat) : Nat :=
  if periodicity ≤ 7 then 2 ^ (7 - periodicity) else 0

/-- The least `k` with `n ≤ 2^k`, for `1 ≤ n ≤ 256`: the ceiling of `std::log2 (n)`. -/
def ceilLog2 (n : Nat) : Nat :=
  ((List.range 8).find? (fun k => decide (n ≤ 2 ^ k))).getD 8

/-- The conversion `(uint8_t) (7 - std::log2 (n))` for a `uint8_t` value `n`:
for `n = 0` the operand is infinite and the conversion undefined; for `n ≥ 1`
the operand lies in `(-1, 7]` and is truncated towards zero. -/
def sevenMinusLog2 (n : Nat) : Option Nat :=
  if n = 0 then none else some (7 - ceilLog2 n)

/-- Source `EndDeviceLoraMac::SetPingSlotPeriodicity (uint8_t periodicity)`. The guard
`periodicity < 8 || periodicity >= 0` holds for every argument. -/
def SetPingSlotPeriodicity (m : EndDeviceLoraMac) (arg : Nat) : Option EndDeviceLoraMac :=
  let periodicity := arg % 256
  if periodicity < 8 ∨ periodicity ≥ 0 then
    let pingNb := powTwoSevenMinus periodicity % 256
    if pingNb = 0 then none
    else some { m with m_pingSlotInfo := { m.m_pingSlotInfo with
      pingSlotPeriodicity := periodicity
      pingNb := pingNb
      pingPeriod := 4096 / pingNb } }
  else some m

/-- Source `EndDeviceLoraMac::SetPingNb (uint8_t pingNb)`. The guard
`pingNb <= 128 || pingNb >= 1` holds for every argument. -/
def SetPingNb (m : EndDeviceLoraMac) (arg : Nat) : Option EndDeviceLoraMac :=
  let pingNb := arg % 256
  if pingNb ≤ 128 ∨ pingNb ≥ 1 then
    match sevenMinusLog2 pingNb with
    | none => none
    | some periodicity =>
      if pingNb = 0 then none
      else some { m with m_pingSlotInfo := { m.m_pingSlotInfo with
        pingNb := pingNb
        pingSlotPeriodicity := periodicity % 256
        pingPeriod := 4096 / pingNb } }
  else some m

/-- Source `EndDeviceLoraMac::SetPingPeriod (uint pingPeriod)`. The guard
`pingPeriod <= 4096 || pingPeriod >= 32` holds for every argument. -/
def SetPingPeriod (m : EndDeviceLoraMac) (arg : Nat) : Option EndDeviceLoraMac :=
  let pingPeriod := arg % 2 ^ 32
  if pingPeriod ≤ 4096 ∨ pingPeriod ≥ 32 then
    if pingPeriod = 0 then none
    else
      let pingNb := (4096 / pingPeriod) % 256
      match sevenMinusLog2 pingNb with
      | none => none
      | some periodicity =>
        some { m with m_pingSlotInfo := { m.m_pingSlotInfo with
          pingPeriod := pingPeriod
          pingNb := pingNb
          pingSlotPeriodicity := periodicity % 256 } }
  else some m

/-- Source `EndDeviceLoraMac::SetMacState (MacState macState)`: the transition is
carried out when the switch on the current state allows it and is otherwise
only logged. -/
def SetMacState (m : EndDeviceLoraMac) (macState : MacState) : EndDeviceLoraMac :=
  match m.m_macState with
  | MacState.MAC_TX =>
    if macState = MacState.MAC_IDLE then { m with m_macState := macState } else m
  | MacState.MAC_RX1 =>
    if macState = MacState.MAC_IDLE then { m with m_macState := macState }
    else if macState = MacState.MAC_RX_BEACON_GUARD then { m with m_macState := macState }
    else m
  | MacState.MAC_RX2 =>
    if macState = MacState.MAC_IDLE then { m with m_macState := macState }
    else if macState = MacState.MAC_RX_BEACON_GUARD then { m with m_macState := macState }
    else m
  | MacState.MAC_RX_BEACON_GUARD =>
    if macState = MacState.MAC_BEACON_GUARD then { m with m_macState := macState } else m
  | MacState.MAC_BEACON_GUARD =>
    if macState = MacState.MAC_BEACON_RESERVED then { m with m_macState := macState } else m
  | MacState.MAC_BEACON_RESERVED =>
    if macState = MacState.MAC_IDLE then { m with m_macState := macState } else m
  | MacState.MAC_PING_SLOT =>
    if macState = MacState.MAC_IDLE then { m with m_macState := macState }
    else if macState = MacState.MAC_PING_SLOT_BEACON_GUARD then { m with m_macState := macState }
    else m
  | MacState.MAC_PING_SLOT_BEACON_GUARD =>
    if macState = MacState.MAC_BEACON_GUARD then { m with m_macState := macState } else m
  | MacState.MAC_IDLE =>
    if macState = MacState.MAC_BEACON_RESERVED ∨ macState = MacState.MAC_PING_SLOT_BEACON_GUARD ∨
        macState = MacState.MAC_RX_BEACON_GUARD then m
    else { m with m_macState := macState }

/-- The address serialised by `SchedulePingSlots`: the multicast address when
multicast is enabled, the unicast address otherwise. -/
def effectiveAddress (m : EndDeviceLoraMac) : LoraDeviceAddress :=
  if m.IsMulticastEnabled then m.m_mcAddress else m.m_address

/-- The delay `(pingOffset + slotIndex*pingPeriod) * slotLen` of `SchedulePingSlots`:
the product is evaluated in `unsigned int`, the sum in `uint64_t`. -/
def slotTime (pingOffset pingPeriod slotIndex : Nat) : Time :=
  (((pingOffset + (slotIndex * pingPeriod) % 2 ^ 32) % 2 ^ 64 : Nat) : Int) * PingSlotInfo.slotLen

/-- The range-for loop of `SchedulePingSlots` over `pendingPingSlotEvents`: one
`Simulator::Schedule` per element of the vector, `slotIndex` being a `uint8_t`
counter incremented after each one. -/
def pingSlotLoop (now : Time) (pingOffset pingPeriod : Nat) :
    List EventId → Nat → List ScheduledEvent
  | [], _ => []
  | _ :: rest, slotIndex =>
    { time := now + slotTime pingOffset pingPeriod slotIndex,
      callee := MacEvent.OpenPingSlotReceiveWindow slotIndex } ::
      pingSlotLoop now pingOffset pingPeriod rest ((slotIndex + 1) % 256)

/-- Source `EndDeviceLoraMac::SchedulePingSlots` run at instant `now`: the new state and
the events handed to the simulator, in program order. -/
def SchedulePingSlots (host : Host) (now : Time) (m : EndDeviceLoraMac) :
    Option (EndDeviceLoraMac × List ScheduledEvent) :=
  let bcnPayload := m.m_beaconInfo.deviceBcnTime.GetSecondsUInt32
  let address := if m.IsMulticastEnabled then m.m_mcAddress else m.m_address
  if m.m_pingSlotInfo.pingPeriod = 0 then none
  else
    let pingOffset := randWord host bcnPayload address % m.m_pingSlotInfo.pingPeriod
    let events := pingSlotLoop now pingOffset m.m_pingSlotInfo.pingPeriod
      m.m_pingSlotInfo.pendingPingSlotEvents 0
    some ({ m with m_pingSlotInfo := { m.m_pingSlotInfo with
              pingOffset := pingOffset
              pendingPingSlotEvents := events.map some } }, events)

/-- Source `EndDeviceLoraMac::StartBeaconReserved` run at instant `now`. The receive
window length `Seconds (beaconReceiveWindowDurationInSymbols * tSym)` is a
floating-point quantity of the physical layer and is the argument `rxWindow`. -/
def StartBeaconReserved (now : Time) (rxWindow : Time) (m : EndDeviceLoraMac) :
    Option (EndDeviceLoraMac × List ScheduledEvent) :=
  if m.m_macState ≠ MacState.MAC_BEACON_GUARD then none
  else
    let m1 := m.SetMacState MacState.MAC_BEACON_RESERVED
    let closeWindow : ScheduledEvent :=
      { time := now + rxWindow, callee := MacEvent.CloseBeaconReceiveWindow }
    let endReserved : ScheduledEvent :=
      { time := now + BeaconInfo.beaconReserved, callee := MacEvent.EndBeaconReserved }
    some ({ m1 with m_beaconInfo := { m1.m_beaconInfo with
              endBeaconReservedEvent := some endReserved } }, [closeWindow, endReserved])

/-- Source `EndDeviceLoraMac::EndBeaconReserved` run at instant `now` with the radio in
state `phy`: new state, scheduled events and fired callbacks. -/
def EndBeaconReserved (host : Host) (now : Time) (phy : PhyState) (m : EndDeviceLoraMac) :
    Option (EndDeviceLoraMac × List ScheduledEvent × List MacCallback) :=
  if m.m_macState ≠ MacState.MAC_BEACON_RESERVED then none
  else
    let m1 := m.SetMacState MacState.MAC_IDLE
    if m1.m_beaconState = BeaconState.BEACON_UNLOCKED then some (m1, [], [])
    else if m1.m_beaconState = BeaconState.BEACON_LOCKED ∨
        m1.m_beaconState = BeaconState.BEACONLESS then
      if phy = PhyState.RX then some (m1, [], [])
      else
        let (m2, cbs) :=
          if m1.m_beaconState = BeaconState.BEACON_LOCKED then
            let m1a :=
              if m1.m_currentConsecutiveBeaconsMissed > m1.m_maximumConsecutiveBeaconsMissed then
                { m1 with m_maximumConsecutiveBeaconsMissed := m1.m_currentConsecutiveBeaconsMissed }
              else m1
            ({ m1a with m_currentConsecutiveBeaconsMissed := 0 },
              [MacCallback.currentConsecutiveBeaconsMissedTraced
                m1a.GetMulticastDeviceAddress m1a.GetDeviceAddress 0])
          else (m1, [])
        match m2.m_deviceClass with
        | DeviceClass.CLASS_C => some (m2, [], cbs)
        | _ =>
          let m3 := { m2 with m_deviceClass := DeviceClass.CLASS_B }
          match SchedulePingSlots host now m3 with
          | none => none
          | some (m4, pings) =>
            let guard : ScheduledEvent :=
              { time := now + BeaconInfo.beaconWindow, callee := MacEvent.StartBeaconGuard }
            some ({ m4 with m_beaconInfo := { m4.m_beaconInfo with
                      nextBeaconGuardEvent := some guard } }, pings ++ [guard], cbs)
    else some (m1, [], [])

/-- The loop `while (Simulator::Now () >= Seconds (k*128)) k++` of `SwitchToClassB`,
started with `k`. -/
def beaconIndexLoop (now : Time) : Nat → Int → Int
  | 0, k => k
  | fuel + 1, k => if now ≥ Seconds (k * 128) then beaconIndexLoop now fuel (k + 1) else k

/-- The value of `k` when the loop of `SwitchToClassB` ends. -/
def firstBeaconIndex (now : Time) : Int :=
  beaconIndexLoop now ((now / Seconds 128).toNat + 2) 0

/-- The relative delay `nextBeaconGuard` that `SwitchToClassB` hands to
`Simulator::Schedule`: `bT - beaconGuard - Simulator::Now ()` with
`bT = Seconds (k*128) + tBeaconDelay`. -/
def nextBeaconGuard (now : Time) : Time :=
  let bT : Time := Seconds (firstBeaconIndex now * 128) + BeaconInfo.tBeaconDelay
  let nextAbsoluteBeaconGuardTime : Time := bT - BeaconInfo.beaconGuard
  nextAbsoluteBeaconGuardTime - now

/-- Source `EndDeviceLoraMac::SwitchToClassB` run at instant `now`: new state and
scheduled events. The result is `none` when the `int` product `k*128` leaves
the range of `int`, and when the delay `nextBeaconGuard` is negative: it is
handed to `Simulator::Schedule`, which asserts a non-negative delay, before any
member is assigned. -/
def SwitchToClassB (now : Time) (m : EndDeviceLoraMac) :
    Option (EndDeviceLoraMac × List ScheduledEvent) :=
  if m.m_deviceClass = DeviceClass.CLASS_C then some (m, [])
  else if m.m_deviceClass = DeviceClass.CLASS_B then some (m, [])
  else if m.m_beaconState ≠ BeaconState.BEACON_UNLOCKED then some (m, [])
  else if firstBeaconIndex now * 128 ≥ 2 ^ 31 then none
  else if nextBeaconGuard now < 0 then none
  else
    some ({ m with
            m_beaconState := BeaconState.BEACON_SEARCH
            m_classBReceiveWindowInfo := { m.m_classBReceiveWindowInfo with
              beaconReceiveWindowDurationInSymbols := 8
              pingReceiveWindowDurationInSymbols := 8 }
            m_attemptToClassB := (m.m_attemptToClassB + 1) % 2 ^ 32 },
          [{ time := now + nextBeaconGuard now, callee := MacEvent.StartBeaconGuard }])

/-- Source `EndDeviceLoraMac::StartBeaconGuard` run at instant `now`: new state and
scheduled events. Each of the two `if` blocks on the device class either sets
the MAC state or returns. -/
def StartBeaconGuard (now : Time) (m : EndDeviceLoraMac) :
    EndDeviceLoraMac × List ScheduledEvent :=
  let afterClassA : Option EndDeviceLoraMac :=
    if m.m_deviceClass = DeviceClass.CLASS_A then
      if m.m_macState = MacState.MAC_IDLE then some (m.SetMacState MacState.MAC_BEACON_GUARD)
      else none
    else some m
  match afterClassA with
  | none => (m, [])
  | some m1 =>
    let afterClassB : Option EndDeviceLoraMac :=
      if m1.m_deviceClass = DeviceClass.CLASS_B then
        match m1.m_macState with
        | MacState.MAC_IDLE => some (m1.SetMacState MacState.MAC_BEACON_GUARD)
        | MacState.MAC_RX1 => some (m1.SetMacState MacState.MAC_RX_BEACON_GUARD)
        | MacState.MAC_RX2 => some (m1.SetMacState MacState.MAC_RX_BEACON_GUARD)
        | MacState.MAC_PING_SLOT => some (m1.SetMacState MacState.MAC_PING_SLOT_BEACON_GUARD)
        | _ => none
      else some m1
    match afterClassB with
    | none => (m1, [])
    | some m2 =>
      let endGuard : ScheduledEvent :=
        { time := now + BeaconInfo.beaconGuard, callee := MacEvent.EndBeaconGuard }
      ({ m2 with m_beaconInfo := { m2.m_beaconInfo with endBeaconGuardEvent := some endGuard } },
        [endGuard])

/-- Source `EndDeviceLoraMac::EndBeaconGuard` run at instant `now`: it schedules
`StartBeaconReserved` with delay `Seconds (0)`. -/
def EndBeaconGuard (now : Time) (m : EndDeviceLoraMac) :
    EndDeviceLoraMac × List ScheduledEvent :=
  (m, [{ time := now + Seconds 0, callee := MacEvent.StartBeaconReserved }])

/-- Source `EndDeviceLoraMac::OpenPingSlotReceiveWindow (uint8_t slotIndex)` run at
instant `now` with the radio in state `phy`: new state, scheduled events and
the packets handed to `m_phy->Send`. The window length
`Seconds (pingReceiveWindowDurationInSymbols * tSym)` is the argument `rxWindow`. -/
def OpenPingSlotReceiveWindow (now : Time) (phy : PhyState) (rxWindow : Time) (slotIndex : Nat)
    (m : EndDeviceLoraMac) : EndDeviceLoraMac × List ScheduledEvent × List Packet :=
  if phy = PhyState.RX then (m, [], [])
  else if ¬ (m.m_beaconState = BeaconState.BEACONLESS ∨
      m.m_beaconState = BeaconState.BEACON_LOCKED) then (m, [], [])
  else if ¬ (m.m_deviceClass = DeviceClass.CLASS_B) then (m, [], [])
  else if ¬ (m.m_macState = MacState.MAC_IDLE) then (m, [], [])
  else
    match m.m_relayActivated, m.m_packetToRelay with
    | true, packetToRelay :: rest =>
      (({ m with m_packetToRelay := rest }).SetMacState MacState.MAC_PING_SLOT, [],
        [packetToRelay])
    | _, _ =>
      let m1 := m.SetMacState MacState.MAC_PING_SLOT
      let closeWindow : ScheduledEvent :=
        { time := now + rxWindow, callee := MacEvent.ClosePingSlotRecieveWindow }
      ({ m1 with m_closeSecondWindow := some closeWindow
                 m_slotIndexLastOpened := slotIndex % 256 }, [closeWindow], [])

/-- Source `m_receiveDelay1 (Seconds (1))`, assigned in the constructor only. -/
def receiveDelay1 : Time := Seconds 1
/-- Source `m_receiveDelay2 (Seconds (2))`, assigned in the constructor only. -/
def receiveDelay2 : Time := Seconds 2

/-- The call `Simulator::GetDelayLeft (id)` at instant `now` for an event that has
not been cancelled: zero for a void or expired event, the time to its instant
otherwise. -/
def GetDelayLeft (now : Time) (id : EventId) : Time :=
  match id with
  | none => 0
  | some ev => if ev.time ≤ now then 0 else ev.time - now

/-- Source `EndDeviceLoraMac::ResolveWithClassBAndGetTime` run at instant `now`.
`jitter` is the value of
`Seconds (m_uniformRV->GetValue (0, pingOffset * slotLen.GetSeconds ()))` in
the branch that is taken, and `rx` the value of `MilliSeconds (163.84)`. -/
def ResolveWithClassBAndGetTime (now : Time) (rx jitter : Time) (m : EndDeviceLoraMac) : Time :=
  if m.m_macState = MacState.MAC_BEACON_GUARD then
    GetDelayLeft now m.m_beaconInfo.endBeaconGuardEvent +
      GetDelayLeft now m.m_beaconInfo.endBeaconReservedEvent + jitter
  else if m.m_macState = MacState.MAC_BEACON_RESERVED then
    GetDelayLeft now m.m_beaconInfo.endBeaconReservedEvent + jitter
  else if m.m_macState = MacState.MAC_PING_SLOT then jitter
  else if m.m_deviceClass = DeviceClass.CLASS_A then Seconds 0
  else if m.m_deviceClass = DeviceClass.CLASS_B then
    let nextGuard := GetDelayLeft now m.m_beaconInfo.nextBeaconGuardEvent
    let longestTx : Time := MilliSeconds 2500
    if nextGuard < longestTx + receiveDelay1 + rx + receiveDelay2 + rx then
      nextGuard + MilliSeconds 5120 + jitter
    else Seconds 0
  else Seconds 0

/-- What one `DoSend` invocation does first: it either schedules itself again and
returns, or goes on to the part that prepares the packet and calls `SendToPhy`. -/
inductive DoSendStep
  | rescheduled (ev : ScheduledEvent)
  | transmits
  deriving DecidableEq, Repr

/-- Source `EndDeviceLoraMac::DoSend (Ptr<Packet> packet)` run at instant `now`, up to
the early return. -/
def DoSend (now : Time) (rx jitter : Time) (packet : Packet) (m : EndDeviceLoraMac) :
    DoSendStep :=
  let timeToSend := m.ResolveWithClassBAndGetTime now rx jitter
  if timeToSend ≠ Seconds 0 then
    DoSendStep.rescheduled { time := now + timeToSend, callee := MacEvent.DoSend packet }
  else DoSendStep.transmits

/-- The call `Simulator::Cancel (id)` on the list of events that are still to run;
an event is identified by its instant and callee. Nothing changes for a void
or expired `id`. -/
def Cancel (id : EventId) (pending : List ScheduledEvent) : List ScheduledEvent :=
  match id with
  | none => pending
  | some ev => pending.filter (fun x => decide (x ≠ ev))

/-- Source `EndDeviceLoraMac::SwitchFromClassB`; `pending` are the events still to run. -/
def SwitchFromClassB (pending : List ScheduledEvent) (m : EndDeviceLoraMac) :
    EndDeviceLoraMac × List ScheduledEvent :=
  if m.m_deviceClass ≠ DeviceClass.CLASS_B then (m, pending)
  else
    let m1 := { m with m_beaconState := BeaconState.BEACON_UNLOCKED
                       m_deviceClass := DeviceClass.CLASS_A }
    let afterPings := m1.m_pingSlotInfo.pendingPingSlotEvents.foldl
      (fun p ping => Cancel ping p) pending
    (m1, Cancel m1.m_beaconInfo.nextBeaconGuardEvent afterPings)

/-- Source `EndDeviceLoraMac::SetDeviceClass (DeviceClass deviceClass)`: the returned
flag, the new state and the events still to run. -/
def SetDeviceClass (deviceClass : DeviceClass) (pending : List ScheduledEvent)
    (m : EndDeviceLoraMac) : Bool × EndDeviceLoraMac × List ScheduledEvent :=
  match deviceClass with
  | DeviceClass.CLASS_A =>
    if m.m_deviceClass = DeviceClass.CLASS_A then (true, m, pending)
    else if m.m_deviceClass = DeviceClass.CLASS_B then
      (true, (m.SwitchFromClassB pending).1, (m.SwitchFromClassB pending).2)
    else (false, m, pending)
  | DeviceClass.CLASS_B =>
    if m.m_deviceClass = DeviceClass.CLASS_A then (false, m, pending)
    else if m.m_deviceClass = DeviceClass.CLASS_B then (true, m, pending)
    else (false, m, pending)
  | DeviceClass.CLASS_C => (false, m, pending)

/-- Source `EndDeviceLoraMac::BeaconMissed` run at instant `now`: new state and fired
callbacks. -/
def BeaconMissed (now : Time) (m : EndDeviceLoraMac) : EndDeviceLoraMac × List MacCallback :=
  let lost := if m.m_beaconLostCallbackSet then [MacCallback.beaconLost] else []
  if m.m_beaconState = BeaconState.BEACON_SEARCH then
    let m1 := { m with m_beaconState := BeaconState.BEACON_UNLOCKED
                       m_missedBeaconCount := (m.m_missedBeaconCount + 1) % 2 ^ 32 }
    (m1, lost ++ [MacCallback.missedBeaconTraced m1.GetMulticastDeviceAddress
      m1.GetDeviceAddress m1.m_missedBeaconCount])
  else
    let m1 := { m with
      m_currentConsecutiveBeaconsMissed := (m.m_currentConsecutiveBeaconsMissed + 1) % 256
      m_missedBeaconCount := (m.m_missedBeaconCount + 1) % 2 ^ 32 }
    let cbs := [MacCallback.currentConsecutiveBeaconsMissedTraced m1.GetMulticastDeviceAddress
                  m1.GetDeviceAddress m1.m_currentConsecutiveBeaconsMissed,
                MacCallback.missedBeaconTraced m1.GetMulticastDeviceAddress
                  m1.GetDeviceAddress m1.m_missedBeaconCount]
    if now - m1.m_beaconInfo.gwBcnTime > BeaconInfo.minimalBeaconLessOperationTime ∧
        m1.m_beaconState = BeaconState.BEACONLESS then
      ({ m1 with
          m_deviceClass := DeviceClass.CLASS_A
          m_beaconState := BeaconState.BEACON_UNLOCKED
          m_beaconInfo := { m1.m_beaconInfo with gwBcnTime := Seconds 0, deviceBcnTime := Seconds 0 }
          m_currentConsecutiveBeaconsMissed := 0 },
        cbs ++ lost ++ [MacCallback.currentConsecutiveBeaconsMissedTraced
          m1.GetMulticastDeviceAddress m1.GetDeviceAddress 0])
    else if m1.m_beaconState = BeaconState.BEACON_LOCKED ∨
        m1.m_beaconState = BeaconState.BEACONLESS then
      let w := m1.m_classBReceiveWindowInfo
      let beaconSymbols :=
        (w.beaconReceiveWindowDurationInSymbols * ClassBReceiveWindowInfo.symbolToExpantionFactor)
          % 2 ^ 16
      let beaconSymbols :=
        if beaconSymbols > ClassBReceiveWindowInfo.maxBeaconReceiveWindowDurationInSymbols then
          ClassBReceiveWindowInfo.maxBeaconReceiveWindowDurationInSymbols
        else beaconSymbols
      let pingSymbols :=
        (w.pingReceiveWindowDurationInSymbols * ClassBReceiveWindowInfo.symbolToExpantionFactor)
          % 2 ^ 8
      let pingSymbols :=
        if pingSymbols > ClassBReceiveWindowInfo.maxPingReceiveWindowDurationInSymbols then
          ClassBReceiveWindowInfo.maxPingReceiveWindowDurationInSymbols
        else pingSymbols
      ({ m1 with
          m_beaconState := BeaconState.BEACONLESS
          m_classBReceiveWindowInfo := { w with
            beaconReceiveWindowDurationInSymbols := beaconSymbols
            pingReceiveWindowDurationInSymbols := pingSymbols }
          m_beaconInfo := { m1.m_beaconInfo with
            deviceBcnTime := m1.m_beaconInfo.deviceBcnTime + BeaconInfo.beaconPeriod } }, cbs)
    else (m1, cbs)

/-- Source `EndDeviceLoraMac::BeaconReceived`; `bcnTime` is `bcnPayload.GetBcnTime ()` of
the header removed from the received packet. -/
def BeaconReceived (bcnTime : Nat) (m : EndDeviceLoraMac) : EndDeviceLoraMac × List MacCallback :=
  if m.m_beaconState = BeaconState.BEACON_UNLOCKED then (m, [])
  else
    let locked :=
      if m.m_beaconState = BeaconState.BEACON_SEARCH ∧ m.m_beaconLockedCallbackSet then
        [MacCallback.beaconLocked]
      else []
    let m1 := { m with
        m_beaconInfo := { m.m_beaconInfo with
          gwBcnTime := Seconds (bcnTime % 2 ^ 32)
          deviceBcnTime := Seconds (bcnTime % 2 ^ 32) }
        m_classBReceiveWindowInfo := { m.m_classBReceiveWindowInfo with
          beaconReceiveWindowDurationInSymbols := 8
          pingReceiveWindowDurationInSymbols := 8 }
        m_beaconState := BeaconState.BEACON_LOCKED
        m_totalSuccessfulBeaconPackets := (m.m_totalSuccessfulBeaconPackets + 1) % 2 ^ 32 }
    (m1, locked ++ [MacCallback.totalSuccessfulBeaconPacketsTraced m1.GetMulticastDeviceAddress
      m1.GetDeviceAddress m1.m_totalSuccessfulBeaconPackets])

end EndDeviceLoraMac

/-! ## Network scheduler -/

/-- Source `NetworkScheduler::DownlinkType`. -/
inductive DownlinkType
  | SEQUENCED
  | EMPTY
  deriving DecidableEq, Repr

/-- The struct `NetworkScheduler::DownlinkPacketGenerator`. -/
structure DownlinkPacketGenerator where
  m_downlinkType : DownlinkType := DownlinkType.EMPTY
  m_packetSize : Nat := 51
  m_sequence : Nat := 0
  deriving DecidableEq, Repr

/-- Source `DownlinkPacketGenerator::PacketSent (bool isSent)`. -/
def DownlinkPacketGenerator.PacketSent (g : DownlinkPacketGenerator) (isSent : Bool) :
    DownlinkPacketGenerator :=
  if isSent then { g with m_sequence := (g.m_sequence + 1) % 2 ^ 32 } else g

/-- The struct `NetworkScheduler::BeaconStatus`. -/
structure BeaconStatus where
  continuousCount : Nat := 0
  isSent : Bool := false
  deriving DecidableEq, Repr

/-- The member functions of `NetworkScheduler` handed to `Simulator::Schedule`. -/
inductive SchedulerEvent
  | BroadcastBeacon (enable : Bool)
  | ScheduleClassBDownlink (bcnTime : Nat)
  | SendPingDownlink (address : LoraDeviceAddress) (isMulticast : Bool)
      (pingPeriod pingNb slotIndex : Nat)
  deriving DecidableEq, Repr

/-- One `Simulator::Schedule` call of the scheduler: absolute instant and callee. -/
structure ServerScheduledEvent where
  time : Time
  callee : SchedulerEvent
  deriving DecidableEq, Repr

/-- Trace sources fired by the network scheduler. -/
inductive SchedulerCallback
  | beaconStatus (isSent : Bool) (continuousCount : Nat)
  | mcPingSent (address : LoraDeviceAddress) (successfulGateways pingNb slotIndex : Nat)
      (time : Time) (isSequencialPacket : Bool) (packetSequenceNumber : Nat)
  | ucPingSent (address : LoraDeviceAddress) (pingNb slotIndex : Nat)
      (time : Time) (isSequencialPacket : Bool) (packetSequenceNumber : Nat)
  deriving DecidableEq, Repr

/-- The object state of `NetworkScheduler` used by the Class B functions. -/
structure NetworkScheduler where
  m_beaconBroadcastEnabled : Bool := false
  m_totalBeaconsBroadcasted : Nat := 0
  m_totalBeaconsBlocked : Nat := 0
  m_lastBeaconTime : Nat := 0
  m_maxAppPayloadForDataRate : List Nat := [51, 51, 51, 115, 222, 222, 222, 222]
  m_enableSequencedPacketGeneration : Bool := false
  m_pingDownlinkPacketSize : Nat := 255
  m_beaconStatus : BeaconStatus := {}
  m_downlinkPacket : List (LoraDeviceAddress × DownlinkPacketGenerator) := []
  deriving DecidableEq, Repr

/-- Source `BeaconRelatedConstants::minimalBeaconLessOperationMode = Minutes (120)`, in seconds. -/
def BeaconRelatedConstants.minimalBeaconLessOperationModeSeconds : Nat := 7200
/-- Source `BeaconRelatedConstants::beaconWindow = Seconds (128)`, in seconds. -/
def BeaconRelatedConstants.beaconWindowSeconds : Nat := 128

/-- What the radio side answers to one `SendPingDownlink`: the value returned by
`m_status->MulticastPacket`, and for unicast whether the best gateway is known,
Class B enabled and available. -/
structure RadioOutcome where
  successfulGateways : Nat := 0
  bestGatewayFound : Bool := true
  classBTransmissionEnabled : Bool := false
  availableForTransmission : Bool := false
  deriving DecidableEq, Repr

namespace NetworkScheduler

/-- Source `NetworkScheduler::GetPingOffset (uint32_t bcnTime, LoraDeviceAddress address,
uint pingPeriod)`; the remainder by a zero `pingPeriod` is undefined. -/
def GetPingOffset (host : Host) (bcnTime : Nat) (address : LoraDeviceAddress)
    (pingPeriod : Nat) : Option Nat :=
  let bcnPayload := bcnTime % 2 ^ 32
  if pingPeriod % 2 ^ 32 = 0 then none
  else some (randWord host bcnPayload address % (pingPeriod % 2 ^ 32))

/-- The loop `while (Simulator::Now () >= Seconds (k*128)) k++` started with `k`. -/
def beaconIndexLoop (now : Time) : Nat → Int → Int
  | 0, k => k
  | fuel + 1, k => if now ≥ Seconds (k * 128) then beaconIndexLoop now fuel (k + 1) else k

/-- The comparison `(continuousCount+1) > minimalBeaconLessOperationMode.GetSeconds () /
beaconWindow.GetSeconds ()` between an unsigned sum and the quotient 7200 / 128. -/
def skippedBeyondBeaconless (continuousCount : Nat) : Prop :=
  ((continuousCount + 1) % 2 ^ 32) * BeaconRelatedConstants.beaconWindowSeconds >
    BeaconRelatedConstants.minimalBeaconLessOperationModeSeconds

instance (c : Nat) : Decidable (skippedBeyondBeaconless c) := by
  unfold skippedBeyondBeaconless; infer_instance

/-- The comparison `(continuousCount+1) < minimalBeaconLessOperationMode.GetSeconds () /
beaconWindow.GetSeconds ()`. -/
def skippedWithinBeaconless (continuousCount : Nat) : Prop :=
  ((continuousCount + 1) % 2 ^ 32) * BeaconRelatedConstants.beaconWindowSeconds <
    BeaconRelatedConstants.minimalBeaconLessOperationModeSeconds

instance (c : Nat) : Decidable (skippedWithinBeaconless c) := by
  unfold skippedWithinBeaconless; infer_instance

/-- The block `if (bcnTime == 0) ... else ...` of `BroadcastBeacon`: the update
of the recorded beacon time, of the two totals and of the run-length status,
with the trace source calls it makes. -/
def recordBroadcastOutcome (bcnTime : Nat) (s : NetworkScheduler) :
    NetworkScheduler × List SchedulerCallback :=
  if bcnTime % 2 ^ 32 = 0 then
    let s0 := { s with
      m_lastBeaconTime := (s.m_lastBeaconTime + 128) % 2 ^ 32
      m_totalBeaconsBlocked := (s.m_totalBeaconsBlocked + 1) % 2 ^ 32 }
    if s0.m_beaconStatus.isSent then
      ({ s0 with m_beaconStatus := { isSent := false, continuousCount := 1 } },
        [SchedulerCallback.beaconStatus s0.m_beaconStatus.isSent
          s0.m_beaconStatus.continuousCount])
    else
      let count := (s0.m_beaconStatus.continuousCount + 1) % 2 ^ 32
      let s0a := { s0 with m_beaconStatus := { s0.m_beaconStatus with continuousCount := count } }
      if skippedBeyondBeaconless count then
        (s0a, [SchedulerCallback.beaconStatus s0a.m_beaconStatus.isSent count])
      else (s0a, [])
  else
    let s0 := { s with
      m_lastBeaconTime := bcnTime % 2 ^ 32
      m_totalBeaconsBroadcasted := (s.m_totalBeaconsBroadcasted + 1) % 2 ^ 32 }
    if ¬ s0.m_beaconStatus.isSent then
      ({ s0 with m_beaconStatus := { isSent := true, continuousCount := 1 } },
        [SchedulerCallback.beaconStatus s0.m_beaconStatus.isSent
          s0.m_beaconStatus.continuousCount])
    else
      ({ s0 with m_beaconStatus := { s0.m_beaconStatus with
          continuousCount := (s0.m_beaconStatus.continuousCount + 1) % 2 ^ 32 } }, [])

/-- Source `NetworkScheduler::BroadcastBeacon (bool enable)` run at instant `now`;
`bcnTime` is the value returned by `m_status->BroadcastBeacon ()`. -/
def BroadcastBeacon (now : Time) (enable : Bool) (bcnTime : Nat) (s : NetworkScheduler) :
    NetworkScheduler × List ServerScheduledEvent × List SchedulerCallback :=
  let beaconReserved : Time := MilliSeconds 2120
  if s.m_beaconBroadcastEnabled = false ∧ enable = true then
    let tBeaconDelay : Time := MilliSeconds 15
    let k := beaconIndexLoop now ((now / Seconds 128).toNat + 2) 0
    let bT : Time := Seconds (k * 128) + tBeaconDelay
    ({ s with m_beaconBroadcastEnabled := true },
      [{ time := now + bT, callee := SchedulerEvent.BroadcastBeacon true }], [])
  else if s.m_beaconBroadcastEnabled = true ∧ enable = true then
    let s1 := (recordBroadcastOutcome bcnTime s).1
    let cbs := (recordBroadcastOutcome bcnTime s).2
    let beaconPeriod : Time := Seconds 128
    let next : ServerScheduledEvent :=
      { time := now + beaconPeriod, callee := SchedulerEvent.BroadcastBeacon true }
    if s1.m_beaconStatus.isSent ∨ skippedWithinBeaconless s1.m_beaconStatus.continuousCount then
      (s1, [next, { time := now + beaconReserved,
                    callee := SchedulerEvent.ScheduleClassBDownlink s1.m_lastBeaconTime }], cbs)
    else (s1, [next], cbs)
  else if enable = false then ({ s with m_beaconBroadcastEnabled := false }, [], [])
  else (s, [], [])

/-- The lookup `m_downlinkPacket.find (address)`; `none` is `end ()`. -/
def findGenerator (address : LoraDeviceAddress) :
    List (LoraDeviceAddress × DownlinkPacketGenerator) → Option DownlinkPacketGenerator
  | [] => none
  | (a, g) :: rest => if a = address then some g else findGenerator address rest

/-- The choice of `sizeOfAppPayload` in `ScheduleClassBDownlink`; `drawn` is the
value of `m_randomPacketSize->GetInteger (1, maxAppPayloadForDataRate)`. The
last branch is `NS_ASSERT_MSG (false, ...)`. -/
def sizeOfAppPayload (pingDownlinkPacketSize maxAppPayloadForDataRate drawn : Nat) : Option Nat :=
  if pingDownlinkPacketSize = 0 then some (drawn % 256)
  else if pingDownlinkPacketSize ≤ 255 ∧ pingDownlinkPacketSize > maxAppPayloadForDataRate then
    some maxAppPayloadForDataRate
  else if pingDownlinkPacketSize > 0 ∧ pingDownlinkPacketSize < maxAppPayloadForDataRate then
    some pingDownlinkPacketSize
  else none

/-- One iteration of the loop of `ScheduleClassBDownlink` over
`m_status->m_mcEndDeviceStatuses`, for the group `address` with member MACs
`members` (in map order). -/
def scheduleGroup (host : Host) (drawn : LoraDeviceAddress → Nat) (now : Time) (bcnTime : Nat)
    (s : NetworkScheduler) (address : LoraDeviceAddress) (members : List EndDeviceLoraMac) :
    Option (NetworkScheduler × ServerScheduledEvent) :=
  match members.head? with
  | none => none
  | some mac =>
    let pingPeriod := mac.GetPingPeriod
    let pingNb := mac.GetPingNb
    let dataRate := mac.GetPingSlotReceiveWindowDataRate
    match GetPingOffset host bcnTime address pingPeriod with
    | none => none
    | some offset =>
      let created : Option NetworkScheduler :=
        if (findGenerator address s.m_downlinkPacket).isNone then
          match s.m_maxAppPayloadForDataRate.get? dataRate with
          | none => none
          | some maxPayload =>
            match sizeOfAppPayload (s.m_pingDownlinkPacketSize % 256) (maxPayload % 256)
                (drawn address) with
            | none => none
            | some size =>
              let downlinkType :=
                if s.m_enableSequencedPacketGeneration then DownlinkType.SEQUENCED
                else DownlinkType.EMPTY
              some { s with m_downlinkPacket := s.m_downlinkPacket ++
                [(address, { m_downlinkType := downlinkType, m_packetSize := size,
                             m_sequence := 0 })] }
        else some s
      match created with
      | none => none
      | some s1 =>
        some (s1, { time := now + (offset : Int) * MilliSeconds 30,
                    callee := SchedulerEvent.SendPingDownlink address true pingPeriod
                      (pingNb % 256) 0 })

/-- Source `NetworkScheduler::ScheduleClassBDownlink (uint32_t bcnTime)` run at instant
`now` over the multicast groups `groups` of `m_status->m_mcEndDeviceStatuses`. -/
def ScheduleClassBDownlink (host : Host) (drawn : LoraDeviceAddress → Nat) (now : Time)
    (bcnTime : Nat) :
    List (LoraDeviceAddress × List EndDeviceLoraMac) → NetworkScheduler →
      Option (NetworkScheduler × List ServerScheduledEvent)
  | [], s => some (s, [])
  | (address, members) :: rest, s =>
    match scheduleGroup host drawn now bcnTime s address members with
    | none => none
    | some (s1, ev) =>
      match ScheduleClassBDownlink host drawn now bcnTime rest s1 with
      | none => none
      | some (s2, evs) => some (s2, ev :: evs)

/-- Replacing the generator stored for `address` in `m_downlinkPacket`. -/
def updateGenerator (address : LoraDeviceAddress) (g : DownlinkPacketGenerator) :
    List (LoraDeviceAddress × DownlinkPacketGenerator) →
      List (LoraDeviceAddress × DownlinkPacketGenerator)
  | [] => []
  | (a, h) :: rest =>
    if a = address then (a, g) :: rest else (a, h) :: updateGenerator address g rest

/-- Source `NetworkScheduler::SendPingDownlink` run at instant `now`, the radio side
answering `radio`: new state, the follow-up event if one is scheduled, and the
fired trace sources. -/
def SendPingDownlink (now : Time) (radio : RadioOutcome) (s : NetworkScheduler)
    (address : LoraDeviceAddress) (isMulticast : Bool) (pingPeriod pingNb slotIndex : Nat) :
    Option (NetworkScheduler × List ServerScheduledEvent × List SchedulerCallback) :=
  match findGenerator address s.m_downlinkPacket with
  | none => none
  | some g =>
    let isSequencialPacket := decide (g.m_downlinkType = DownlinkType.SEQUENCED)
    let packetSequenceNumber := if isSequencialPacket then g.m_sequence else 0
    let sent : NetworkScheduler :=
      { s with m_downlinkPacket := updateGenerator address (g.PacketSent true) s.m_downlinkPacket }
    let result : Option (NetworkScheduler × List SchedulerCallback) :=
      if isMulticast then
        let successfulGateways := radio.successfulGateways % 256
        if successfulGateways > 0 then
          some (sent, [SchedulerCallback.mcPingSent address successfulGateways pingNb slotIndex
            now isSequencialPacket packetSequenceNumber])
        else some (s, [])
      else if ¬ radio.bestGatewayFound then none
      else if radio.classBTransmissionEnabled ∧ radio.availableForTransmission then
        some (sent, [SchedulerCallback.ucPingSent address pingNb slotIndex now
          isSequencialPacket packetSequenceNumber])
      else some (s, [])
    match result with
    | none => none
    | some (s1, cbs) =>
      let next := (slotIndex + 1) % 256
      if next < pingNb then
        some (s1, [{ time := now + (pingPeriod : Int) * MilliSeconds 30,
                     callee := SchedulerEvent.SendPingDownlink address isMulticast pingPeriod
                       pingNb next }], cbs)
      else some (s1, [], cbs)

/-- The chain of `SendPingDownlink` invocations that follows the events each
invocation schedules: the list of `(instant, slotIndex)` of the invocations and
the final state. `radio` answers per invocation instant and slot index; `none`
when an invocation aborts or the fuel runs out before the chain ends. -/
def pingChain (radio : Time → Nat → RadioOutcome) (address : LoraDeviceAddress)
    (isMulticast : Bool) (pingPeriod pingNb : Nat) :
    Nat → Time → Nat → NetworkScheduler → Option (List (Time × Nat) × NetworkScheduler)
  | 0, _, _, _ => none
  | fuel + 1, now, slotIndex, s =>
    match SendPingDownlink now (radio now slotIndex) s address isMulticast pingPeriod pingNb
        slotIndex with
    | none => none
    | some (s1, [], _) => some ([(now, slotIndex)], s1)
    | some (s1, ev :: _, _) =>
      match ev.callee with
      | SchedulerEvent.SendPingDownlink _ _ _ _ nextIndex =>
        match pingChain radio address isMulticast pingPeriod pingNb fuel ev.time nextIndex s1 with
        | none => none
        | some (trace, s2) => some ((now, slotIndex) :: trace, s2)
      | _ => none

end NetworkScheduler

/-! ## Specification-side definitions and sample data -/

/-- The slot offset function in the words of the specification (section 4.2):
a 16-byte block made of the 4 bytes of `beaconTimeSeconds`, the 4 serialised
address bytes and 8 zero bytes, encrypted under the all-zero key; the offset is
`(E[0] + 256 * E[1]) mod pingPeriod`. -/
def SlotOffsetFunction (host : Host) (beaconTimeSeconds : Nat)
    (deviceAddress : LoraDeviceAddress) (pingPeriod : Nat) : Nat :=
  let timeBytes := (List.range 4).map (byteAt (host.uint32Bytes beaconTimeSeconds))
  let addressBytes := (List.range 4).map (byteAt (host.addressSerialize deviceAddress))
  let e := host.aesEncrypt (List.replicate 16 0)
    (timeBytes ++ addressBytes ++ List.replicate 8 0)
  (byteAt e 0 + 256 * byteAt e 1) % pingPeriod

/-- A concrete host for evaluating the definitions: little-endian `uint32_t`,
most-significant-byte-first address serialisation, and a stand-in byte mixing
in place of the cipher. -/
def sampleHost : Host where
  uint32Bytes := fun x => [x % 256, x / 256 % 256, x / 65536 % 256, x / 16777216 % 256]
  addressSerialize := fun a => [a / 16777216 % 256, a / 65536 % 256, a / 256 % 256, a % 256]
  aesEncrypt := fun key block =>
    (List.zipWith (fun k b => (7 * b + k + 99) % 256) key block).reverse

/-- A device right after construction whose last beacon carried time stamp 1000. -/
def sampleDevice : EndDeviceLoraMac :=
  { EndDeviceLoraMac.new with
    m_address := 305419896
    m_beaconInfo := { gwBcnTime := Seconds 1000, deviceBcnTime := Seconds 1000 } }

/-- One call of a ping-slot setter of `EndDeviceLoraMac`. -/
inductive PingSlotCall
  | SetPingSlotPeriodicity (periodicity : Nat)
  | SetPingNb (pingNb : Nat)
  | SetPingPeriod (pingPeriod : Nat)
  deriving DecidableEq, Repr

/-- Carrying out one setter call. -/
def PingSlotCall.run (m : EndDeviceLoraMac) : PingSlotCall → Option EndDeviceLoraMac
  | PingSlotCall.SetPingSlotPeriodicity periodicity => m.SetPingSlotPeriodicity periodicity
  | PingSlotCall.SetPingNb pingNb => m.SetPingNb pingNb
  | PingSlotCall.SetPingPeriod pingPeriod => m.SetPingPeriod pingPeriod

/-- Carrying out a sequence of setter calls, first call first. -/
def runPingSlotCalls : EndDeviceLoraMac → List PingSlotCall → Option EndDeviceLoraMac
  | m, [] => some m
  | m, c :: rest =>
    match c.run m with
    | none => none
    | some m1 => runPingSlotCalls m1 rest

/-- The arguments of the LoRaWAN parameter table: a periodicity in `[0,7]`, a
`pingNb` that is a power of two in `[1,128]`, a `pingPeriod` that is a power of
two in `[32,4096]`. -/
def PingSlotCall.inTable : PingSlotCall → Prop
  | PingSlotCall.SetPingSlotPeriodicity periodicity => periodicity ≤ 7
  | PingSlotCall.SetPingNb pingNb => ∃ k, k ≤ 7 ∧ pingNb = 2 ^ k
  | PingSlotCall.SetPingPeriod pingPeriod => ∃ k, 5 ≤ k ∧ k ≤ 12 ∧ pingPeriod = 2 ^ k

/-- Consecutive `BeaconMissed` calls at the instants `nows`, first instant first. -/
def missesInRow (m : EndDeviceLoraMac) : List Time → EndDeviceLoraMac
  | [] => m
  | now :: rest => missesInRow (m.BeaconMissed now).1 rest

/-- Every one of the consecutive `BeaconMissed` calls leaves the device in
beaconless operation (`m_beaconState == BEACONLESS` when the call returns). -/
def staysBeaconless (m : EndDeviceLoraMac) : List Time → Bool
  | [] => true
  | now :: rest =>
    decide ((m.BeaconMissed now).1.m_beaconState = BeaconState.BEACONLESS) &&
      staysBeaconless (m.BeaconMissed now).1 rest

/-- The situation of one `BeaconMissed` call: the beacon is locked, or the device
is beaconless and the time elapsed since the last received beacon does not
exceed the minimal beaconless operation time (128 minutes). -/
def missWithinTolerance (now : Time) (m : EndDeviceLoraMac) : Prop :=
  m.m_beaconState = BeaconState.BEACON_LOCKED ∨
    (m.m_beaconState = BeaconState.BEACONLESS ∧
      now - m.m_beaconInfo.gwBcnTime ≤ Minutes 128)

instance (now : Time) (m : EndDeviceLoraMac) : Decidable (missWithinTolerance now m) := by
  unfold missWithinTolerance; infer_instance

/-- Every one of the consecutive `BeaconMissed` calls is made in the situation
`missWithinTolerance`. -/
def missesWithinTolerance (m : EndDeviceLoraMac) : List Time → Bool
  | [] => true
  | now :: rest =>
    decide (missWithinTolerance now m) && missesWithinTolerance (m.BeaconMissed now).1 rest

/-- A device searching for its first beacon. -/
def sampleSearchingDevice : EndDeviceLoraMac :=
  { EndDeviceLoraMac.new with
    m_address := 305419896
    m_beaconState := BeaconState.BEACON_SEARCH }

/-- The sample device after it received a beacon with time stamp 1000. -/
def sampleLockedDevice : EndDeviceLoraMac := (sampleSearchingDevice.BeaconReceived 1000).1

/-- Instants of six consecutive beacon-reserved windows, 128 s apart. -/
def sampleMissInstants : List Time :=
  [Seconds 1128, Seconds 1256, Seconds 1384, Seconds 1512, Seconds 1640, Seconds 1768]

/-- The sample device at the end of beacon-reserved: class B, beacon locked with
time stamp 1000, multicast address 2864434397 enabled, periodicity 2. -/
def sampleClassBDevice : EndDeviceLoraMac :=
  { EndDeviceLoraMac.new with
    m_address := 305419896
    m_mcAddress := 2864434397
    m_enableMulticast := true
    m_macState := MacState.MAC_BEACON_RESERVED
    m_deviceClass := DeviceClass.CLASS_B
    m_beaconState := BeaconState.BEACON_LOCKED
    m_beaconInfo := { gwBcnTime := Seconds 1000, deviceBcnTime := Seconds 1000 }
    m_pingSlotInfo := { pendingPingSlotEvents := List.replicate 128 none
                        pingSlotPeriodicity := 2, pingNb := 32, pingPeriod := 128 } }

/-- The sample device at the end of the beacon guard. -/
def sampleGuardDevice : EndDeviceLoraMac :=
  { sampleClassBDevice with m_macState := MacState.MAC_BEACON_GUARD }

/-- A scheduler whose beacon broadcast is running. -/
def sampleScheduler : NetworkScheduler :=
  { m_beaconBroadcastEnabled := true
    m_lastBeaconTime := 872
    m_totalBeaconsBroadcasted := 6
    m_beaconStatus := { continuousCount := 6, isSent := true } }

/-- One multicast group whose members are two copies of the sample device. -/
def sampleGroups : List (LoraDeviceAddress × List EndDeviceLoraMac) :=
  [(2864434397, [sampleClassBDevice, sampleClassBDevice])]

/-- A radio side on which one gateway transmits every multicast downlink. -/
def sampleRadio : Time → Nat → RadioOutcome :=
  fun _ _ => { successfulGateways := 1 }

/-- The instant of the sample beacon: 9 beacon periods plus the beacon delay. -/
def sampleBeaconInstant : Time := Seconds 1152 + MilliSeconds 15

/-- The sample scheduler after `BroadcastBeacon` obtained time stamp 1000. -/
def sampleSchedulerAfterBeacon : NetworkScheduler :=
  (NetworkScheduler.BroadcastBeacon sampleBeaconInstant true 1000 sampleScheduler).1

/-- The result of `ScheduleClassBDownlink (1000)` for the sample group, run at the
end of beacon-reserved. -/
def sampleDownlink : NetworkScheduler × List ServerScheduledEvent :=
  match NetworkScheduler.ScheduleClassBDownlink sampleHost (fun _ => 10)
      (sampleBeaconInstant + MilliSeconds 2120) 1000 sampleGroups sampleSchedulerAfterBeacon with
  | some r => r
  | none => (sampleSchedulerAfterBeacon, [])

/-- The transition table of the MAC operating mode in the words of the
specification: the pairs `(current, target)` for which `SetMacState` changes
the mode. -/
def allowedTransition : MacState → MacState → Bool
  | MacState.MAC_TX, MacState.MAC_IDLE => true
  | MacState.MAC_RX1, MacState.MAC_IDLE => true
  | MacState.MAC_RX1, MacState.MAC_RX_BEACON_GUARD => true
  | MacState.MAC_RX2, MacState.MAC_IDLE => true
  | MacState.MAC_RX2, MacState.MAC_RX_BEACON_GUARD => true
  | MacState.MAC_RX_BEACON_GUARD, MacState.MAC_BEACON_GUARD => true
  | MacState.MAC_BEACON_GUARD, MacState.MAC_BEACON_RESERVED => true
  | MacState.MAC_BEACON_RESERVED, MacState.MAC_IDLE => true
  | MacState.MAC_PING_SLOT, MacState.MAC_IDLE => true
  | MacState.MAC_PING_SLOT, MacState.MAC_PING_SLOT_BEACON_GUARD => true
  | MacState.MAC_PING_SLOT_BEACON_GUARD, MacState.MAC_BEACON_GUARD => true
  | MacState.MAC_IDLE, MacState.MAC_IDLE => true
  | MacState.MAC_IDLE, MacState.MAC_TX => true
  | MacState.MAC_IDLE, MacState.MAC_RX1 => true
  | MacState.MAC_IDLE, MacState.MAC_RX2 => true
  | MacState.MAC_IDLE, MacState.MAC_BEACON_GUARD => true
  | MacState.MAC_IDLE, MacState.MAC_PING_SLOT => true
  | _, _ => false

/-- The mode that `StartBeaconGuard` enters from a class and a mode, in the words of
the specification; `none` for the pairs from which the guard does not start. -/
def guardEntry : DeviceClass → MacState → Option MacState
  | DeviceClass.CLASS_A, MacState.MAC_IDLE => some MacState.MAC_BEACON_GUARD
  | DeviceClass.CLASS_B, MacState.MAC_IDLE => some MacState.MAC_BEACON_GUARD
  | DeviceClass.CLASS_B, MacState.MAC_RX1 => some MacState.MAC_RX_BEACON_GUARD
  | DeviceClass.CLASS_B, MacState.MAC_RX2 => some MacState.MAC_RX_BEACON_GUARD
  | DeviceClass.CLASS_B, MacState.MAC_PING_SLOT => some MacState.MAC_PING_SLOT_BEACON_GUARD
  | _, _ => none

/-- The sample Class B device with an idle MAC, as it is when a ping slot opens. -/
def sampleIdleClassBDevice : EndDeviceLoraMac :=
  { sampleClassBDevice with m_macState := MacState.MAC_IDLE }

/-- A network scheduler that has skipped 54 beacons in a row. -/
def sampleSkippingScheduler : NetworkScheduler :=
  { m_beaconBroadcastEnabled := true
    m_lastBeaconTime := 8064
    m_totalBeaconsBroadcasted := 6
    m_totalBeaconsBlocked := 54
    m_beaconStatus := { continuousCount := 54, isSent := false } }

/-- The sample Class B device while a ping slot is open. -/
def samplePingSlotDevice : EndDeviceLoraMac :=
  { sampleClassBDevice with m_macState := MacState.MAC_PING_SLOT }

/-- Every one of the instants `ts` lies in its beacon-reserved window, after the
window opens: the first instant in window `j`, which opens at `bT + j * 128 s`
and lasts 2.12 s, the next instant in window `j + 1`, and so on. -/
def detectedInReservedWindows (bT : Time) : Nat → List Time → Bool
  | _, [] => true
  | j, t :: rest =>
    decide (bT + Seconds (128 * (j : Int)) < t ∧
      t ≤ bT + Seconds (128 * (j : Int)) + MilliSeconds 2120) &&
    detectedInReservedWindows bT (j + 1) rest

/-- The sample Class B device after it received, in beacon-reserved, the beacon
with time stamp 1152 that was broadcast at 1152.015 s. -/
def sampleCutoffDevice : EndDeviceLoraMac := (sampleClassBDevice.BeaconReceived 1152).1

/-- The instants at which the beacon receive window closes in the 60 beacon
periods that follow the beacon at 1152.015 s: window `i + 1` opens at
`1152.015 s + (i + 1) * 128 s` and stays open for `min (8 * 2 ^ i) 255` symbols
of 4.096 ms (data rate 3). -/
def sampleCutoffMissInstants : List Time :=
  (List.range 60).map (fun (i : Nat) =>
    sampleBeaconInstant + Seconds (128 * ((i : Int) + 1)) +
      4096000 * ((min (8 * 2 ^ i) 255 : Nat) : Int))

/-- One call of the address and multicast interface of the end device. -/
inductive AddressCall
  | SetDeviceAddress (address : LoraDeviceAddress)
  | SetMulticastDeviceAddress (address : LoraDeviceAddress)
  | EnableMulticast
  | DisableMulticast
  deriving DecidableEq, Repr

/-- The effect of one `AddressCall`. -/
def AddressCall.run (m : EndDeviceLoraMac) : AddressCall → Option EndDeviceLoraMac
  | AddressCall.SetDeviceAddress address => some (m.SetDeviceAddress address)
  | AddressCall.SetMulticastDeviceAddress address => m.SetMulticastDeviceAddress address
  | AddressCall.EnableMulticast => some m.EnableMulticast
  | AddressCall.DisableMulticast => some m.DisableMulticast

/-- A sequence of `AddressCall`s, first call first; `none` when a call aborts. -/
def runAddressCalls (m : EndDeviceLoraMac) : List AddressCall → Option EndDeviceLoraMac
  | [] => some m
  | c :: rest =>
    match c.run m with
    | none => none
    | some m1 => runAddressCalls m1 rest

/-- A scheduler whose configured ping downlink packet size, 115, equals the
maximum application payload of data rate 3. -/
def sampleExactSizeScheduler : NetworkScheduler :=
  { m_beaconBroadcastEnabled := true
    m_lastBeaconTime := 1152
    m_pingDownlinkPacketSize := 115 }

/-- A scheduler with a sequenced generator for the sample multicast group that
has sent 41 packets. -/
def sampleSequencedScheduler : NetworkScheduler :=
  { m_beaconBroadcastEnabled := true
    m_lastBeaconTime := 1152
    m_enableSequencedPacketGeneration := true
    m_downlinkPacket :=
      [(2864434397, { m_downlinkType := DownlinkType.SEQUENCED, m_packetSize := 115,
                      m_sequence := 41 })] }

/-- The sample Class B device with an open ping slot and ping offset 0. -/
def sampleZeroOffsetDevice : EndDeviceLoraMac :=
  { samplePingSlotDevice with
    m_pingSlotInfo := { samplePingSlotDevice.m_pingSlotInfo with pingOffset := 0 } }

/-- The last of the 128 events that `SchedulePingSlots`, run at instant `t0` on the
device `d0`, schedules: `OpenPingSlotReceiveWindow (127)`. -/
def stalePingEvent (host : Host) (t0 : Time) (d0 : EndDeviceLoraMac) : ScheduledEvent :=
  { time := t0 + EndDeviceLoraMac.slotTime
      (randWord host d0.m_beaconInfo.deviceBcnTime.GetSecondsUInt32 d0.effectiveAddress %
        d0.m_pingSlotInfo.pingPeriod)
      d0.m_pingSlotInfo.pingPeriod 127,
    callee := MacEvent.OpenPingSlotReceiveWindow 127 }

/-- The sample Class B device at the end of beacon-reserved, locked on the beacon
stamped 1152, with ping-slot periodicity 1 (`pingNb` 64, `pingPeriod` 64). -/
def samplePeriodicityOneDevice : EndDeviceLoraMac :=
  { sampleClassBDevice with
    m_beaconInfo := { gwBcnTime := Seconds 1152, deviceBcnTime := Seconds 1152 }
    m_pingSlotInfo := { pendingPingSlotEvents := List.replicate 128 none
                        pingSlotPeriodicity := 1, pingNb := 64, pingPeriod := 64 } }

/-- The device `samplePeriodicityOneDevice` one beacon period later, when
beacon-reserved ends again after the beacon stamped 1280: the tracked events
are those that `SchedulePingSlots` scheduled at the end of the previous
beacon-reserved. -/
def sampleNextPeriodDevice : EndDeviceLoraMac :=
  { samplePeriodicityOneDevice with
    m_beaconInfo := { gwBcnTime := Seconds 1280, deviceBcnTime := Seconds 1280 }
    m_pingSlotInfo := { samplePeriodicityOneDevice.m_pingSlotInfo with
      pingOffset := randWord sampleHost 1152 2864434397 % 64
      pendingPingSlotEvents :=
        (EndDeviceLoraMac.pingSlotLoop (sampleBeaconInstant + MilliSeconds 2120)
          (randWord sampleHost 1152 2864434397 % 64) 64 (List.replicate 128 none) 0).map
          some } }

/-! ## Beacon payload -/

/-- The members of `BcnPayload`. -/
structure BcnPayload where
  m_bcnTime : Nat := 0
  m_infoDesc : Nat := 0
  m_latitude : Nat := 0
  m_longitude : Nat := 0
  m_info : Nat := 0
  deriving DecidableEq, Repr

/-- The two-byte and eight-byte accessors of the ns-3 `Buffer::Iterator`, which are
not part of the embedded sources: the bytes written by `WriteU16` and
`WriteU64`, and the values returned by `ReadU16` and `ReadU64` for the bytes
they consume. -/
structure BufferHost where
  writeU16 : Nat → List Nat
  readU16 : List Nat → Nat
  writeU64 : Nat → List Nat
  readU64 : List Nat → Nat

/-- What the serialisation relies on: `WriteU16` writes two bytes and `WriteU64`
eight, and the matching read returns the written value. -/
def BufferHost.Faithful (buf : BufferHost) : Prop :=
  (∀ x, x < 2 ^ 16 → (buf.writeU16 x).length = 2 ∧ buf.readU16 (buf.writeU16 x) = x) ∧
  (∀ x, x < 2 ^ 64 → (buf.writeU64 x).length = 8 ∧ buf.readU64 (buf.writeU64 x) = x)

namespace BcnPayload

/-- Source `BcnPayload::GetBcnTime`. -/
def GetBcnTime (p : BcnPayload) : Nat := p.m_bcnTime

/-- One iteration of the loop of `BcnPayload::GenerateCrc16`; every assignment to
the `uint16_t` accumulator keeps the low 16 bits. -/
def crcStep (accumulator data : Nat) : Nat :=
  let a1 := (accumulator ^^^ data) % 2 ^ 16
  let a2 := ((a1 >>> 8) ||| (a1 <<< 8)) % 2 ^ 16
  let a3 := (a2 ^^^ ((a2 &&& 0xff00) <<< 4)) % 2 ^ 16
  let a4 := (a3 ^^^ ((a3 >>> 8) >>> 4)) % 2 ^ 16
  (a4 ^^^ ((a4 &&& 0xff00) >>> 5)) % 2 ^ 16

/-- Source `BcnPayload::GenerateCrc16 (uint8_t* data, int length)`. -/
def GenerateCrc16 (data : List Nat) (length : Nat) : Nat :=
  (data.take length).foldl crcStep 0

/-- The array `part1` of `Serialize`: two zero bytes and the four bytes of the time
stamp. -/
def serializedPart1 (bcnTime : Nat) : List Nat :=
  [0, 0,
   ((bcnTime &&& 0xff000000) >>> 24) % 256,
   ((bcnTime &&& 0x00ff0000) >>> 16) % 256,
   ((bcnTime &&& 0x0000ff00) >>> 8) % 256,
   (bcnTime &&& 0x000000ff) % 256]

/-- The 64-bit value `info` that `Serialize` writes after the descriptor; `crc2`
is the constant 0. -/
def serializedInfo (p : BcnPayload) : Nat :=
  let infoDesc := p.m_infoDesc % 256
  let crc2 := 0
  if infoDesc < 3 then
    ((((p.m_latitude <<< (5 * 8)) % 2 ^ 64) &&& 0xffffff0000000000) |||
      (((p.m_longitude <<< (2 * 8)) % 2 ^ 64) &&& 0x000000ffffff0000)) ||| crc2
  else if infoDesc > 127 then ((p.m_info <<< (2 * 8)) % 2 ^ 64) ||| crc2
  else 0

/-- Source `BcnPayload::Serialize`: the bytes written to the buffer; a zero `m_bcnTime`
fails the `NS_ASSERT_MSG`. -/
def Serialize (buf : BufferHost) (p : BcnPayload) : Option (List Nat) :=
  if p.m_bcnTime = 0 then none
  else
    let part1 := serializedPart1 p.m_bcnTime
    let crc1 := GenerateCrc16 part1 6
    some (part1 ++ buf.writeU16 crc1 ++ [p.m_infoDesc % 256] ++ buf.writeU64 (serializedInfo p))

/-- The expression that `Deserialize` assigns to `m_bcnTime`, from the bytes
`part1[2..5]`. -/
def reconstructedBcnTime (b2 b3 b4 b5 : Nat) : Nat :=
  ((((b2 <<< (8 * 3)) &&& 0xff000000) ||| ((b3 <<< (8 * 2)) &&& 0x00ff0000) |||
    ((b4 <<< (8 * 1)) &&& 0x0000ff00) ||| ((b5 <<< (8 * 0)) &&& 0x000000ff))) % 2 ^ 32

/-- Source `BcnPayload::Deserialize` run at instant `now` on a buffer holding `bytes` (at
least 17 of them): the returned number of bytes and the object afterwards. The
test `Simulator::Now ().GetSeconds () < m_bcnTime` compares the `double` with the
value of the `uint32_t`. -/
def Deserialize (clock : ClockHost) (buf : BufferHost) (now : Time) (bytes : List Nat)
    (p : BcnPayload) : Nat × BcnPayload :=
  let part1 : List Nat := (List.range 6).map (byteAt bytes)
  let crc1_comp := GenerateCrc16 part1 6
  let crc1_read := buf.readU16 ((bytes.drop 6).take 2)
  if crc1_comp ≠ crc1_read then (0, p)
  else
    let bcnTime := reconstructedBcnTime (byteAt bytes 2) (byteAt bytes 3) (byteAt bytes 4)
      (byteAt bytes 5)
    if clock.GetSeconds now < (bcnTime : ℚ) then (0, { p with m_bcnTime := 0 })
    else
      let infoDesc := byteAt bytes 8
      let info := buf.readU64 ((bytes.drop 9).take 8)
      let p1 := { p with m_bcnTime := bcnTime, m_infoDesc := infoDesc, m_info := info }
      let p2 :=
        if infoDesc < 3 then
          { p1 with
            m_latitude := ((info >>> (5 * 8)) &&& 0x00ffffff) % 2 ^ 32
            m_longitude := ((info >>> (2 * 8)) &&& 0x00ffffff) % 2 ^ 32 }
        else p1
      (17, { p2 with m_info := (p2.m_info >>> (2 * 8)) &&& 0x0000ffffffffffff })

end BcnPayload

/-- The time stamp embedded in a beacon payload, in the words of the
specification: bytes 2 to 5, most significant byte first. -/
def embeddedStamp (bytes : List Nat) : Nat :=
  byteAt bytes 2 * 2 ^ 24 + byteAt bytes 3 * 2 ^ 16 + byteAt bytes 4 * 2 ^ 8 + byteAt bytes 5

/-- A buffer host that writes the least significant byte first. -/
def sampleBuffer : BufferHost where
  writeU16 := fun x => [x % 256, x / 256 % 256]
  readU16 := fun l => l.getD 0 0 + 256 * l.getD 1 0
  writeU64 := fun x => (List.range 8).map (fun i => x / 256 ^ i % 256)
  readU64 := fun l => ((List.range 8).map (fun i => l.getD i 0 * 256 ^ i)).sum

/-- A beacon payload with time stamp 1152 and the location of the first antenna. -/
def samplePayload : BcnPayload :=
  { m_bcnTime := 1152, m_infoDesc := 0, m_latitude := 3407872, m_longitude := 286331 }

/-- The 17 bytes that `Serialize` writes for the sample payload. -/
def samplePayloadBytes : List Nat := (samplePayload.Serialize sampleBuffer).getD []


/-! ## Class B application and sequenced payloads -/

/-- The loop of `DownlinkPacketGenerator::GetPacket` in sequenced mode:
`buff[i] = sequence % 10; sequence = sequence / 10` for `count` more cells. -/
def sequencedLoop : Nat → Nat → List Nat
  | 0, _ => []
  | count + 1, sequence => (sequence % 10) % 256 :: sequencedLoop count (sequence / 10)

/-- The constructor `DownlinkPacketGenerator (downlinkType, packetSize, sequence)`. -/
def DownlinkPacketGenerator.new (downlinkType : DownlinkType) (packetSize sequence : Nat) :
    DownlinkPacketGenerator :=
  { m_downlinkType := downlinkType, m_packetSize := packetSize % 256,
    m_sequence := sequence % 2 ^ 32 }

/-- Source `DownlinkPacketGenerator::GetPacket`: the payload bytes of the created packet;
`Create<Packet> (m_packetSize)` is a payload of zero bytes. -/
def DownlinkPacketGenerator.GetPacket (g : DownlinkPacketGenerator) : List Nat :=
  if g.m_downlinkType = DownlinkType.SEQUENCED then
    sequencedLoop (g.m_packetSize % 256) (g.m_sequence % 2 ^ 32)
  else List.replicate (g.m_packetSize % 256) 0

/-- The struct `EndDeviceClassBApp::FragmentedPacketDecoder`. -/
structure FragmentedPacketDecoder where
  missedFragments : List Nat := []
  startingFragment : Nat := 0
  finalFragment : Nat := 0
  expectedFragment : Nat := 0
  maxSize : Nat := 255
  lastNumberOfFragmentMissed : Nat := 0
  deriving DecidableEq, Repr

/-- The conversion `(int32_t) x` of a `uint32_t` value. -/
def toInt32 (x : Nat) : Int :=
  if x % 2 ^ 32 < 2 ^ 31 then ((x % 2 ^ 32 : Nat) : Int) else ((x % 2 ^ 32 : Nat) : Int) - 2 ^ 32

namespace FragmentedPacketDecoder

/-- One statement `sequence += (uint) seq * (std::pow (10, i))` with `seq = buff[i]`.
The right-hand side is a `double`; the sum is converted back to `uint32_t`.
When the exact sum is below `2^32` it is computed exactly (either `seq` is 0 or
`i <= 9`, and every operand is an integer below `2^53`); otherwise the value
to convert is at least `2^32` and the conversion is undefined. -/
def decodeStep (buff : List Nat) (sequence : Nat) (i : Nat) : Option Nat :=
  let v := sequence + byteAt buff i * 10 ^ i
  if v < 2 ^ 32 then some v else none

/-- The first loop of `FragmentReceived`: `buff` holds the first `maxSize` payload
bytes, the cells beyond the payload being zero, and `i` runs over
`0 .. maxSize - 1`. -/
def decodeSequence (payload : List Nat) (maxSize : Nat) : Option Nat :=
  (List.range (maxSize % 256)).foldlM (decodeStep (payload.take (maxSize % 256))) 0

/-- The second loop of `FragmentReceived`,
`for ( ; (int32_t) sequence - (int32_t) expectedFragment > 0; expectedFragment++)`;
a difference outside the range of `int32_t` is undefined. The first argument
bounds the number of evaluations of the condition. -/
def missedLoop (sequence : Nat) : Nat → FragmentedPacketDecoder → Option FragmentedPacketDecoder
  | 0, _ => none
  | fuel + 1, dec =>
    let difference := toInt32 sequence - toInt32 dec.expectedFragment
    if difference < -(2 ^ 31) ∨ difference ≥ 2 ^ 31 then none
    else if difference > 0 then
      missedLoop sequence fuel { dec with
        missedFragments := dec.missedFragments ++ [dec.expectedFragment]
        lastNumberOfFragmentMissed := (dec.lastNumberOfFragmentMissed + 1) % 2 ^ 32
        expectedFragment := (dec.expectedFragment + 1) % 2 ^ 32 }
    else some dec

/-- Source `FragmentedPacketDecoder::FragmentReceived (packet, fragmentReceived)`: the
decoder afterwards, the value stored in `fragmentReceived` and the returned
`missedFragments.size ()`. The test `sequence - expectedFragment < 0` compares
an unsigned difference with zero. -/
def FragmentReceived (dec : FragmentedPacketDecoder) (payload : List Nat) :
    Option (FragmentedPacketDecoder × Nat × Nat) :=
  match decodeSequence payload dec.maxSize with
  | none => none
  | some sequence =>
    let dec1 :=
      if (sequence + 2 ^ 32 - dec.expectedFragment) % 2 ^ 32 < 0 then
        { dec with expectedFragment := sequence }
      else dec
    let dec2 :=
      if sequence > dec1.expectedFragment then { dec1 with lastNumberOfFragmentMissed := 0 }
      else dec1
    match missedLoop sequence (2 ^ 32) dec2 with
    | none => none
    | some dec3 =>
      some ({ dec3 with expectedFragment := (dec3.expectedFragment + 1) % 2 ^ 32 },
        sequence, dec3.missedFragments.length % 2 ^ 32)

end FragmentedPacketDecoder

/-- The struct `EndDeviceClassBApp::EnableFragmentedPacketDecoder`. -/
structure EnableFragmentedPacketDecoder where
  enable : Bool := false
  first : Nat := 0
  last : Nat := 0
  deriving DecidableEq, Repr

/-- The trace source `m_fragmentsMissed` of the application. -/
inductive AppCallback
  | fragmentsMissed (mcAddress ucAddress : LoraDeviceAddress)
      (currentMissedFragments totalMissedFragments : Nat)
  deriving DecidableEq, Repr

/-- The members of `EndDeviceClassBApp` used by the Class B switch and by the
downlink callback. -/
structure EndDeviceClassBApp where
  m_nAttempt : Nat := 0
  m_countAttempt : Nat := 0
  m_uplinkEnabled : Bool := false
  m_fragmentedPacketDecoder : FragmentedPacketDecoder := {}
  m_enableFragmentedPacketDecoder : EnableFragmentedPacketDecoder := {}
  deriving DecidableEq, Repr

namespace EndDeviceClassBApp

/-- Source `EndDeviceClassBApp::SetNumberOfAttempt (uint8_t nAttempt)`. -/
def SetNumberOfAttempt (app : EndDeviceClassBApp) (nAttempt : Nat) : EndDeviceClassBApp :=
  { app with m_nAttempt := nAttempt % 256 }

/-- Source `EndDeviceClassBApp::SwitchToClassB`: the application afterwards, and whether
the call `m_endDeviceLoraMac->SwitchToClassB ()` is made. -/
def SwitchToClassB (app : EndDeviceClassBApp) : EndDeviceClassBApp × Bool :=
  if app.m_nAttempt ≠ 0 ∧ app.m_countAttempt > app.m_nAttempt then (app, false)
  else ({ app with m_countAttempt := (app.m_countAttempt + 1) % 2 ^ 64 }, true)

/-- Source `EndDeviceClassBApp::EnableFragmentedDataReception (first, last)`. -/
def EnableFragmentedDataReception (app : EndDeviceClassBApp) (first last : Nat) :
    EndDeviceClassBApp :=
  { app with m_enableFragmentedPacketDecoder :=
      { enable := true, first := first % 2 ^ 32, last := last % 2 ^ 32 } }

/-- Source `EndDeviceClassBApp::ClassBDownlinkCallback` for a packet with payload `payload`,
the device MAC being `mac`: the application afterwards and the fired trace
sources. -/
def ClassBDownlinkCallback (mac : EndDeviceLoraMac) (payload : List Nat)
    (app : EndDeviceClassBApp) : Option (EndDeviceClassBApp × List AppCallback) :=
  if app.m_enableFragmentedPacketDecoder.enable then
    let fragmentExpected := app.m_fragmentedPacketDecoder.expectedFragment
    match app.m_fragmentedPacketDecoder.FragmentReceived payload with
    | none => none
    | some (dec, fragmentReceived, totalMissedFragments) =>
      let currentMissedFragments := (fragmentReceived + 2 ^ 32 - fragmentExpected) % 2 ^ 32
      some ({ app with m_fragmentedPacketDecoder := dec },
        if currentMissedFragments > 0 then
          [AppCallback.fragmentsMissed mac.GetMulticastDeviceAddress mac.GetDeviceAddress
            currentMissedFragments totalMissedFragments]
        else [])
  else some (app, [])

end EndDeviceClassBApp

/-- The number of calls `m_endDeviceLoraMac->SwitchToClassB ()` made by `count`
consecutive invocations of `EndDeviceClassBApp::SwitchToClassB`. -/
def forwardedRequests (app : EndDeviceClassBApp) : Nat → Nat
  | 0 => 0
  | count + 1 =>
    (if app.SwitchToClassB.2 then 1 else 0) + forwardedRequests app.SwitchToClassB.1 count

/-- An application with fragment decoding enabled that has received the
fragments 0 to 4 of 10-byte sequenced packets. -/
def sampleDecodingApp : EndDeviceClassBApp :=
  { m_fragmentedPacketDecoder := { expectedFragment := 5, maxSize := 10 }
    m_enableFragmentedPacketDecoder := { enable := true } }

/-- The sequenced generator of 10-byte packets at sequence number 3. -/
def sampleGeneratorThree : DownlinkPacketGenerator :=
  DownlinkPacketGenerator.new DownlinkType.SEQUENCED 10 3


/-! ## End-device reception and transmission paths -/

namespace EndDeviceLoraMac

/-- Source `EndDeviceLoraMac::PingReceived`: new state and fired callbacks; `none` when
one of the three `NS_ASSERT_MSG` fails. The packet handed to the callbacks is
the copy without its two headers; the packet queued for relaying is that copy
with the incremented hop count tag and the two headers added again. -/
def PingReceived (packet : Packet) (m : EndDeviceLoraMac) :
    Option (EndDeviceLoraMac × List MacCallback) :=
  if ¬ (m.m_macState = MacState.MAC_PING_SLOT ∨
      m.m_macState = MacState.MAC_PING_SLOT_BEACON_GUARD) then none
  else
    let analysed : Option (EndDeviceLoraMac × List MacCallback) :=
      if packet.isUplink then some (m, [])
      else
        let unicastMessage := decide (m.m_address = packet.address)
        let multicastMessage := decide (m.m_mcAddress = packet.address)
        if unicastMessage then
          some (m,
            (if m.m_classBDownlinkCallbackSet then
              [MacCallback.classBDownlink ServiceType.UNICAST packet.payload
                m.m_slotIndexLastOpened]
             else []) ++
            [MacCallback.receivedPingPacket 0 m.m_address packet.payload m.m_slotIndexLastOpened])
        else if multicastMessage then
          if m.m_enableMulticast then
            let hopCount := packet.hopCount % 256
            if ¬ (hopCount > 0) then none
            else
              let relayed : Option EndDeviceLoraMac :=
                if m.maxHop > hopCount ∧ m.m_relayActivated then
                  if m.m_packetToRelay.length ≠ 0 then none
                  else some { m with m_packetToRelay := m.m_packetToRelay ++
                    [{ packet with hopCount := (hopCount + 1) % 256 }] }
                else some m
              match relayed with
              | none => none
              | some m1 =>
                some (m1,
                  (if m1.m_classBDownlinkCallbackSet then
                    [MacCallback.classBDownlink ServiceType.MULTICAST packet.payload
                      m1.m_slotIndexLastOpened]
                   else []) ++
                  [MacCallback.receivedPingPacket m1.m_mcAddress m1.m_address packet.payload
                    m1.m_slotIndexLastOpened])
          else some (m, [])
        else some (m, [])
    match analysed with
    | none => none
    | some (m1, cbs) =>
      if m1.m_macState = MacState.MAC_PING_SLOT_BEACON_GUARD then
        some (m1.SetMacState MacState.MAC_BEACON_GUARD, cbs)
      else if m1.m_macState = MacState.MAC_PING_SLOT then
        some (m1.SetMacState MacState.MAC_IDLE, cbs)
      else some (m1, cbs)

/-- Source `EndDeviceLoraMac::resetRetransmissionParameters`, its effect on the embedded
members of `m_retxParams`. -/
def resetRetransmissionParameters (m : EndDeviceLoraMac) : EndDeviceLoraMac :=
  { m with m_retxParams := { waitingAck := false, retxLeft := m.m_maxNumbTx } }

/-- The value `uint8_t txs = m_maxNumbTx - (m_retxParams.retxLeft)`. -/
def transmissionsUsed (m : EndDeviceLoraMac) : Nat :=
  (m.m_maxNumbTx + 256 - m.m_retxParams.retxLeft % 256) % 256

/-- Source `EndDeviceLoraMac::SendToPhy`: after `m_phy->Send` the MAC asks for the mode
`MAC_TX`. -/
def SendToPhy (m : EndDeviceLoraMac) : EndDeviceLoraMac :=
  m.SetMacState MacState.MAC_TX

/-- A call `this->Send (m_retxParams.packet)` made by the receive paths while an
acknowledgement is awaited. Whether the call gets as far as `SendToPhy`
depends on the payload size table, the duty-cycle helper, the channel list and
the delay asked by `ResolveWithClassBAndGetTime`; that outcome is the argument
`reachesPhy`. When it does, `DoSend` first decrements `retxLeft`. -/
def Send (reachesPhy : Bool) (m : EndDeviceLoraMac) : EndDeviceLoraMac :=
  if reachesPhy then
    ({ m with m_retxParams := { m.m_retxParams with
        retxLeft := (m.m_retxParams.retxLeft + 255) % 256 } }).SendToPhy
  else m

/-- Source `EndDeviceLoraMac::ParseCommands`, the part on the awaited acknowledgement;
`ack` is `frameHeader.GetAck ()`. The MAC command handlers act on members
that are not embedded. -/
def ParseCommands (ack : Bool) (m : EndDeviceLoraMac) : EndDeviceLoraMac × List MacCallback :=
  if m.m_retxParams.waitingAck then
    if ack then (m.resetRetransmissionParameters, [MacCallback.requiredTx m.transmissionsUsed true])
    else (m, [])
  else (m, [])

/-- Source `EndDeviceLoraMac::TxFinished` run at instant `now`: new state and scheduled
events. -/
def TxFinished (now : Time) (m : EndDeviceLoraMac) : EndDeviceLoraMac × List ScheduledEvent :=
  if m.m_macState = MacState.MAC_PING_SLOT then (m.SetMacState MacState.MAC_IDLE, [])
  else if m.m_macState = MacState.MAC_PING_SLOT_BEACON_GUARD then
    (m.SetMacState MacState.MAC_BEACON_GUARD, [])
  else
    let first : ScheduledEvent :=
      { time := now + receiveDelay1, callee := MacEvent.OpenFirstReceiveWindow }
    let second : ScheduledEvent :=
      { time := now + receiveDelay2, callee := MacEvent.OpenSecondReceiveWindow }
    (({ m with m_secondReceiveWindow := some second }).SetMacState MacState.MAC_IDLE,
      [first, second])

/-- Source `EndDeviceLoraMac::OpenFirstReceiveWindow` run at instant `now`; `rxWindow` is
`Seconds (m_receiveWindowDurationInSymbols * tSym)`. -/
def OpenFirstReceiveWindow (now : Time) (rxWindow : Time) (m : EndDeviceLoraMac) :
    EndDeviceLoraMac × List ScheduledEvent :=
  let closeWindow : ScheduledEvent :=
    { time := now + rxWindow, callee := MacEvent.CloseFirstReceiveWindow }
  (({ m with m_closeFirstWindow := some closeWindow }).SetMacState MacState.MAC_RX1,
    [closeWindow])

/-- Source `EndDeviceLoraMac::CloseFirstReceiveWindow` with the radio in state `phy`; the
case `TX` is `NS_ABORT_MSG`. -/
def CloseFirstReceiveWindow (phy : PhyState) (m : EndDeviceLoraMac) : Option EndDeviceLoraMac :=
  match phy with
  | PhyState.TX => none
  | PhyState.RX => some m
  | PhyState.SLEEP => some m
  | PhyState.STANDBY => some (m.SetMacState MacState.MAC_IDLE)

/-- Source `EndDeviceLoraMac::OpenSecondReceiveWindow` run at instant `now` with the radio
in state `phy`. -/
def OpenSecondReceiveWindow (now : Time) (phy : PhyState) (rxWindow : Time)
    (m : EndDeviceLoraMac) : EndDeviceLoraMac × List ScheduledEvent :=
  if phy = PhyState.RX then (m, [])
  else
    let closeWindow : ScheduledEvent :=
      { time := now + rxWindow, callee := MacEvent.CloseSecondReceiveWindow }
    (({ m with m_closeSecondWindow := some closeWindow }).SetMacState MacState.MAC_RX2,
      [closeWindow])

/-- Source `EndDeviceLoraMac::CloseSecondReceiveWindow` with the radio in state `phy`. -/
def CloseSecondReceiveWindow (phy : PhyState) (reachesPhy : Bool) (m : EndDeviceLoraMac) :
    EndDeviceLoraMac × List MacCallback :=
  if phy = PhyState.RX then (m, [])
  else
    let m1 := if phy = PhyState.STANDBY then m.SetMacState MacState.MAC_IDLE else m
    let phyAfter := if phy = PhyState.STANDBY then PhyState.SLEEP else phy
    if m1.m_retxParams.waitingAck then
      if m1.m_retxParams.retxLeft > 0 then (m1.Send reachesPhy, [])
      else if m1.m_retxParams.retxLeft = 0 ∧ phyAfter ≠ PhyState.RX then
        (m1.resetRetransmissionParameters, [MacCallback.requiredTx m1.transmissionsUsed false])
      else (m1, [])
    else (m1.resetRetransmissionParameters, [MacCallback.requiredTx m1.transmissionsUsed true])

/-- Source `EndDeviceLoraMac::ClosePingSlotRecieveWindow` with the radio in state `phy`;
`none` when the `NS_ASSERT_MSG` on the mode fails. -/
def ClosePingSlotRecieveWindow (phy : PhyState) (m : EndDeviceLoraMac) :
    Option EndDeviceLoraMac :=
  if ¬ (m.m_macState = MacState.MAC_PING_SLOT ∨
      m.m_macState = MacState.MAC_PING_SLOT_BEACON_GUARD) then none
  else if phy = PhyState.RX then some m
  else if m.m_macState = MacState.MAC_PING_SLOT_BEACON_GUARD then
    some (m.SetMacState MacState.MAC_BEACON_GUARD)
  else if m.m_macState = MacState.MAC_PING_SLOT then some (m.SetMacState MacState.MAC_IDLE)
  else some m

/-- The Class A block of `Receive` and of `FailedReception` that decides about a
retransmission once the second receive window is over and an acknowledgement
is still awaited. -/
def retransmitOrGiveUp (reachesPhy : Bool) (m : EndDeviceLoraMac) :
    EndDeviceLoraMac × List MacCallback :=
  if m.m_retxParams.retxLeft > 0 then (m.Send reachesPhy, [])
  else (m.resetRetransmissionParameters, [MacCallback.requiredTx m.transmissionsUsed false])

/-- Source `EndDeviceLoraMac::FailedReception` run at instant `now`; `secondWindowExpired`
is `m_secondReceiveWindow.IsExpired ()`. -/
def FailedReception (now : Time) (secondWindowExpired reachesPhy : Bool)
    (m : EndDeviceLoraMac) : EndDeviceLoraMac × List MacCallback :=
  let afterBeacon : EndDeviceLoraMac × List MacCallback :=
    if m.m_macState = MacState.MAC_BEACON_RESERVED then m.BeaconMissed now else (m, [])
  let m1 := afterBeacon.1
  let m2 :=
    if m1.m_macState = MacState.MAC_PING_SLOT ∨
        m1.m_macState = MacState.MAC_PING_SLOT_BEACON_GUARD then
      let m1a := { m1 with m_failedPings := (m1.m_failedPings + 1) % 2 ^ 32 }
      if m1a.m_macState = MacState.MAC_PING_SLOT_BEACON_GUARD then
        m1a.SetMacState MacState.MAC_BEACON_GUARD
      else if m1a.m_macState = MacState.MAC_PING_SLOT then m1a.SetMacState MacState.MAC_IDLE
      else m1a
    else m1
  if m2.m_macState = MacState.MAC_RX1 ∨ m2.m_macState = MacState.MAC_RX2 ∨
      m2.m_macState = MacState.MAC_RX_BEACON_GUARD then
    if secondWindowExpired ∧ m2.m_retxParams.waitingAck then
      ((m2.retransmitOrGiveUp reachesPhy).1, afterBeacon.2 ++ (m2.retransmitOrGiveUp reachesPhy).2)
    else (m2, afterBeacon.2)
  else (m2, afterBeacon.2)

/-- The analysis of a non-beacon packet in the Class A block of `Receive`. -/
def receiveClassA (secondWindowExpired reachesPhy : Bool) (packet : Packet)
    (m : EndDeviceLoraMac) : EndDeviceLoraMac × List MacCallback :=
  if ¬ packet.isUplink then
    if m.m_address = packet.address then
      ((m.ParseCommands packet.ack).1,
        (m.ParseCommands packet.ack).2 ++ [MacCallback.receivedPacket packet.payload])
    else if m.m_retxParams.waitingAck ∧ secondWindowExpired then
      if m.m_retxParams.retxLeft = 0 then
        (m.resetRetransmissionParameters, [MacCallback.requiredTx m.transmissionsUsed false])
      else (m.Send reachesPhy, [])
    else (m, [])
  else if m.m_retxParams.waitingAck ∧ secondWindowExpired then m.retransmitOrGiveUp reachesPhy
  else (m, [])

/-- Source `EndDeviceLoraMac::Receive` run at instant `now`; `bcnTime` is
`bcnPayload.GetBcnTime ()` of the header peeked from the packet. The three `if`
blocks on the mode are evaluated one after the other. -/
def Receive (now : Time) (secondWindowExpired reachesPhy : Bool) (bcnTime : Nat)
    (packet : Packet) (m : EndDeviceLoraMac) : Option (EndDeviceLoraMac × List MacCallback) :=
  let afterBeacon : EndDeviceLoraMac × List MacCallback :=
    if m.m_macState = MacState.MAC_BEACON_RESERVED then
      if bcnTime ≠ 0 then m.BeaconReceived bcnTime else m.BeaconMissed now
    else (m, [])
  let afterPing : Option (EndDeviceLoraMac × List MacCallback) :=
    if afterBeacon.1.m_macState = MacState.MAC_PING_SLOT ∨
        afterBeacon.1.m_macState = MacState.MAC_PING_SLOT_BEACON_GUARD then
      if bcnTime ≠ 0 then some afterBeacon
      else
        match afterBeacon.1.PingReceived packet with
        | none => none
        | some (m1, cbs) => some (m1, afterBeacon.2 ++ cbs)
    else some afterBeacon
  match afterPing with
  | none => none
  | some (m2, cbs2) =>
    if m2.m_macState = MacState.MAC_RX1 ∨ m2.m_macState = MacState.MAC_RX2 ∨
        m2.m_macState = MacState.MAC_RX_BEACON_GUARD then
      let analysed : EndDeviceLoraMac × List MacCallback :=
        if bcnTime ≠ 0 then (m2, [])
        else m2.receiveClassA secondWindowExpired reachesPhy packet
      if analysed.1.m_macState = MacState.MAC_RX_BEACON_GUARD then
        some (analysed.1.SetMacState MacState.MAC_BEACON_GUARD, cbs2 ++ analysed.2)
      else some (analysed.1.SetMacState MacState.MAC_IDLE, cbs2 ++ analysed.2)
    else some (m2, cbs2)

end EndDeviceLoraMac


/-- The sample Class B device with an open ping slot, the downlink callback
installed and coordinated relaying activated. -/
def sampleRelayDevice : EndDeviceLoraMac :=
  { samplePingSlotDevice with
    m_classBDownlinkCallbackSet := true
    m_relayActivated := true }

/-- A multicast downlink frame for the sample group as the network server sends
it: hop count tag 1, sequenced 10-byte payload number 3. -/
def sampleMulticastFrame : Packet :=
  { address := 2864434397, hopCount := 1, payload := sampleGeneratorThree.GetPacket }

/-- The sample Class B device in the first receive window of an uplink. -/
def sampleReceivingDevice : EndDeviceLoraMac :=
  { sampleClassBDevice with m_macState := MacState.MAC_RX1 }

/-- The sample Class B device whose beacon guard started while the second receive
window of an uplink was open. -/
def sampleReceivingInGuardDevice : EndDeviceLoraMac :=
  { sampleClassBDevice with m_macState := MacState.MAC_RX_BEACON_GUARD }

/-- The instant at which the guard of the beacon at 1280.015 s starts. -/
def sampleGuardStart : Time := Seconds 1277 + MilliSeconds 15

/-- The sample Class B device, idle, 125 s after the beacon at 1152.015 s: its
ping offset of this beacon period is 0 and the beacon-reserved interval of
that beacon ended at 1154.135 s. -/
def sampleIdleZeroOffsetDevice : EndDeviceLoraMac :=
  { sampleIdleClassBDevice with
    m_beaconInfo := { sampleIdleClassBDevice.m_beaconInfo with
      endBeaconReservedEvent :=
        some { time := Seconds 1154 + MilliSeconds 135, callee := MacEvent.EndBeaconReserved } }
    m_pingSlotInfo := { sampleIdleClassBDevice.m_pingSlotInfo with pingOffset := 0 } }


/-! ## Network status and gateways -/

/-- The members of `GatewayLoraMac` used by the Class B transmissions. -/
structure GatewayLoraMac where
  m_beaconTransmission : Bool := false
  m_classBTransmission : Bool := false
  m_mcAddressList : List LoraDeviceAddress := []
  deriving DecidableEq, Repr

namespace GatewayLoraMac

/-- Source `GatewayLoraMac::IsBeaconTransmissionEnabled`. -/
def IsBeaconTransmissionEnabled (gw : GatewayLoraMac) : Bool := gw.m_beaconTransmission

/-- Source `GatewayLoraMac::IsClassBTransmissionEnabled`. -/
def IsClassBTransmissionEnabled (gw : GatewayLoraMac) : Bool := gw.m_classBTransmission

/-- Source `GatewayLoraMac::AddMulticastGroup`. -/
def AddMulticastGroup (gw : GatewayLoraMac) (mcAddress : LoraDeviceAddress) : GatewayLoraMac :=
  if mcAddress ∈ gw.m_mcAddressList then gw
  else { gw with m_mcAddressList := gw.m_mcAddressList ++ [mcAddress] }

/-- Source `GatewayLoraMac::CheckMulticastGroup`. -/
def CheckMulticastGroup (gw : GatewayLoraMac) (mcAddress : LoraDeviceAddress) : Bool :=
  decide (mcAddress ∈ gw.m_mcAddressList)

end GatewayLoraMac

/-- One entry of `NetworkStatus::m_gatewayStatuses`: the key, the gateway MAC, and
the answer of `IsAvailableForTransmission` to the call under consideration. -/
structure GatewayStatus where
  address : Nat := 0
  mac : GatewayLoraMac := {}
  isAvailableForTransmission : Bool := false
  deriving DecidableEq, Repr

/-- A header on a downlink packet of the network server. -/
inductive PacketHeader
  | bcnPayload (bcnTime : Nat)
  | frameHeader (address : LoraDeviceAddress)
  | macHeader
  deriving DecidableEq, Repr

/-- A packet tag; the frequency of a `LoraTag` is left out. -/
inductive PacketTag
  | hopCount (count : Nat)
  | lora (dataRate : Nat) (beaconPacket : Bool)
  deriving DecidableEq, Repr

/-- The content of a packet of the network server: its headers, outermost first,
the payload bytes and the tags in the order they were added. `AddPacketTag`
records the tag; a build of ns-3 with assertions rejects a second tag of a
type already present, which is outside the embedded sources. -/
structure ServerPacket where
  headers : List PacketHeader := []
  payload : List Nat := []
  tags : List PacketTag := []
  deriving DecidableEq, Repr

/-- The call `packet->AddHeader (header)`. -/
def ServerPacket.AddHeader (packet : ServerPacket) (header : PacketHeader) : ServerPacket :=
  { packet with headers := header :: packet.headers }

/-- The call `packet->AddPacketTag (tag)`. -/
def ServerPacket.AddPacketTag (packet : ServerPacket) (tag : PacketTag) : ServerPacket :=
  { packet with tags := packet.tags ++ [tag] }

namespace NetworkStatus

/-- Source `m_beaconDr (3)`, assigned in the constructor only. -/
def beaconDr : Nat := 3

/-- Source `NetworkStatus::BroadcastBeacon` run at instant `now` over the gateways in map
order: the returned time stamp, the value stored in
`m_lastBeaconTransmittingGateways`, and the packets handed to the gateways. The
time stamp is `static_cast<uint32_t> (Simulator::Now ().GetSeconds ())`; the
result is `none` when that conversion is undefined. -/
def BroadcastBeacon (clock : ClockHost) (now : Time) (gateways : List GatewayStatus) :
    Option (Nat × Nat × List (Nat × ServerPacket)) :=
  gateways.foldlM
    (fun (acc : Nat × Nat × List (Nat × ServerPacket)) gw =>
      if gw.mac.IsBeaconTransmissionEnabled then
        if gw.isAvailableForTransmission then
          match clock.GetSecondsUInt32 now with
          | none => none
          | some bcnTime =>
            let bcnPacket :=
              (({ } : ServerPacket).AddHeader (PacketHeader.bcnPayload bcnTime)).AddPacketTag
                (PacketTag.lora beaconDr true)
            some (bcnTime, (acc.2.1 + 1) % 256, acc.2.2 ++ [(gw.address, bcnPacket)])
        else some acc
      else some acc)
    (0, 0, [])

/-- The statements of `MulticastPacket` that prepare the packet for one gateway:
frame header, MAC header and tag are added to `packetCopy`. -/
def prepareForGateway (mcAddress : LoraDeviceAddress) (dataRate : Nat)
    (packetCopy : ServerPacket) : ServerPacket :=
  ((packetCopy.AddHeader (PacketHeader.frameHeader mcAddress)).AddHeader
    PacketHeader.macHeader).AddPacketTag (PacketTag.lora dataRate false)

/-- The loop of `MulticastPacket` over the gateways in map order, with the
current content of `packetCopy`, the counter and the packets handed to
`SendThroughGateway` so far. -/
def multicastLoop (groups : List (LoraDeviceAddress × List EndDeviceLoraMac))
    (mcAddress : LoraDeviceAddress) :
    List GatewayStatus → ServerPacket → Nat → List (Nat × ServerPacket) →
      Option (Nat × List (Nat × ServerPacket))
  | [], _, successfulGateways, sent => some (successfulGateways, sent)
  | gw :: rest, packetCopy, successfulGateways, sent =>
    if gw.mac.IsClassBTransmissionEnabled ∧ gw.mac.CheckMulticastGroup mcAddress then
      match groups.lookup mcAddress with
      | none => multicastLoop groups mcAddress rest packetCopy successfulGateways sent
      | some members =>
        match members.head? with
        | none => none
        | some devStatus =>
          if gw.isAvailableForTransmission then
            let prepared :=
              prepareForGateway mcAddress devStatus.GetPingSlotReceiveWindowDataRate packetCopy
            multicastLoop groups mcAddress rest prepared ((successfulGateways + 1) % 256)
              (sent ++ [(gw.address, prepared)])
          else multicastLoop groups mcAddress rest packetCopy successfulGateways sent
    else multicastLoop groups mcAddress rest packetCopy successfulGateways sent

/-- Source `NetworkStatus::MulticastPacket (packet, mcAddress)` over the gateways in map
order and the multicast groups `groups` of `m_mcEndDeviceStatuses`: the returned
number of gateways and the packets handed to `SendThroughGateway`, each with the
key of its gateway. The copy `packetCopy` is made once, before the loop. -/
def MulticastPacket (gateways : List GatewayStatus)
    (groups : List (LoraDeviceAddress × List EndDeviceLoraMac)) (packet : ServerPacket)
    (mcAddress : LoraDeviceAddress) : Option (Nat × List (Nat × ServerPacket)) :=
  multicastLoop groups mcAddress gateways packet 0 []

end NetworkStatus

/-- The gateways that `MulticastPacket` sends through for the group `mcAddress`:
Class B transmission enabled, serving the group, available. -/
def servingGateways (gateways : List GatewayStatus) (mcAddress : LoraDeviceAddress) :
    List GatewayStatus :=
  gateways.filter (fun gw =>
    gw.mac.IsClassBTransmissionEnabled && gw.mac.CheckMulticastGroup mcAddress &&
      gw.isAvailableForTransmission)

/-- The frame of the specification for a multicast downlink: the application
payload preceded by one frame header and one MAC header. -/
def singleFrame (mcAddress : LoraDeviceAddress) (packet : ServerPacket) : List PacketHeader :=
  PacketHeader.macHeader :: PacketHeader.frameHeader mcAddress :: packet.headers

/-- Two gateways that serve the sample multicast group, both available. -/
def sampleGateways : List GatewayStatus :=
  [{ address := 1
     mac := { m_beaconTransmission := true, m_classBTransmission := true,
              m_mcAddressList := [2864434397] }
     isAvailableForTransmission := true },
   { address := 2
     mac := { m_beaconTransmission := true, m_classBTransmission := true,
              m_mcAddressList := [2864434397] }
     isAvailableForTransmission := true }]

/-- The downlink packet that `SendPingDownlink` hands to `MulticastPacket`: the
sequenced payload number 3 with hop count tag 1. -/
def sampleDownlinkPacket : ServerPacket :=
  { payload := sampleGeneratorThree.GetPacket, tags := [PacketTag.hopCount 1] }


/-- The packets handed to the gateways `serving`, in order, when each one receives
`packetCopy` as `prepareForGateway` leaves it after having been applied once
more. -/
def handedFrames (mcAddress : LoraDeviceAddress) (dataRate : Nat) :
    List GatewayStatus → ServerPacket → List (Nat × ServerPacket)
  | [], _ => []
  | gw :: rest, packetCopy =>
    (gw.address, NetworkStatus.prepareForGateway mcAddress dataRate packetCopy) ::
      handedFrames mcAddress dataRate rest
        (NetworkStatus.prepareForGateway mcAddress dataRate packetCopy)

end LoraClassB

/-! ## Theorems -/

namespace LoraClassB

theorem getSecondsUInt32_Seconds (T : Nat) (hT : T < 2 ^ 32) :
    Time.GetSecondsUInt32 (Seconds (T : Int)) = T := by
  unfold Time.GetSecondsUInt32 Seconds
  rw [Int.mul_ediv_cancel _ (by norm_num : (1000000000 : Int) ≠ 0)]
  simp only [Int.toNat_ofNat]
  exact Nat.mod_eq_of_lt hT

theorem randWord_eq_spec (host : Host) (T a : Nat) :
    randWord host T a =
      (let e := host.aesEncrypt (List.replicate 16 0)
        ((List.range 4).map (byteAt (host.uint32Bytes T)) ++
          (List.range 4).map (byteAt (host.addressSerialize a)) ++ List.replicate 8 0)
       byteAt e 0 + 256 * byteAt e 1) := by
  simp only [randWord, randBlock, zeroKey]
  have h4 : List.range 4 = [0, 1, 2, 3] := by decide
  simp only [h4, List.map, List.replicate, List.cons_append, List.nil_append, Nat.mul_comm]

theorem GetPingOffset_eq_spec (host : Host) (T a P : Nat) (hT : T < 2 ^ 32) (hP : 0 < P)
    (hP32 : P < 2 ^ 32) :
    NetworkScheduler.GetPingOffset host T a P = some (SlotOffsetFunction host T a P) := by
  unfold NetworkScheduler.GetPingOffset
  have h1 : P % 2 ^ 32 = P := Nat.mod_eq_of_lt hP32
  have h2 : T % 2 ^ 32 = T := Nat.mod_eq_of_lt hT
  simp only [h1, h2]
  rw [if_neg (by omega), randWord_eq_spec]
  rfl

theorem SchedulePingSlots_offset (host : Host) (now : Time) (T : Nat) (m : EndDeviceLoraMac)
    (hT : T < 2 ^ 32) (hP : 0 < m.m_pingSlotInfo.pingPeriod)
    (hbcn : m.m_beaconInfo.deviceBcnTime = Seconds (T : Int)) :
    m.SchedulePingSlots host now =
      some ({ m with m_pingSlotInfo := { m.m_pingSlotInfo with
                pingOffset := SlotOffsetFunction host T m.effectiveAddress m.m_pingSlotInfo.pingPeriod
                pendingPingSlotEvents :=
                  (EndDeviceLoraMac.pingSlotLoop now
                    (SlotOffsetFunction host T m.effectiveAddress m.m_pingSlotInfo.pingPeriod)
                    m.m_pingSlotInfo.pingPeriod m.m_pingSlotInfo.pendingPingSlotEvents 0).map some } },
        EndDeviceLoraMac.pingSlotLoop now
          (SlotOffsetFunction host T m.effectiveAddress m.m_pingSlotInfo.pingPeriod)
          m.m_pingSlotInfo.pingPeriod m.m_pingSlotInfo.pendingPingSlotEvents 0) := by
  unfold EndDeviceLoraMac.SchedulePingSlots
  simp only [hbcn, getSecondsUInt32_Seconds T hT]
  rw [if_neg (by omega), randWord_eq_spec]
  rfl

/-- C1: for a 32-bit time stamp `T`, effective address `a` and ping period `P > 0`, the
offset stored by the device in `SchedulePingSlots` equals the offset returned by
the scheduler in `GetPingOffset (T, a, P)`, and both equal the specification's slot
offset function `(E[0] + 256 * E[1]) mod P`. -/
theorem C1_device_offset_eq_server_offset (host : Host) (now : Time) (T a P : Nat)
    (m : EndDeviceLoraMac) (hT : T < 2 ^ 32) (hP : 0 < P) (hP32 : P < 2 ^ 32)
    (hbcn : m.m_beaconInfo.deviceBcnTime = Seconds (T : Int))
    (haddr : m.effectiveAddress = a) (hper : m.m_pingSlotInfo.pingPeriod = P) :
    ∃ m1 evs, m.SchedulePingSlots host now = some (m1, evs) ∧
      NetworkScheduler.GetPingOffset host T a P = some m1.m_pingSlotInfo.pingOffset ∧
      m1.m_pingSlotInfo.pingOffset = SlotOffsetFunction host T a P := by
  subst haddr hper
  refine ⟨_, _, SchedulePingSlots_offset host now T m hT hP hbcn, ?_, rfl⟩
  exact GetPingOffset_eq_spec host T _ _ hT hP hP32

/-- C1 at the sample host and the sample device (time stamp 1000, ping period 32). -/
theorem C1_device_offset_eq_server_offset_witness :
    ∃ m1 evs, sampleDevice.SchedulePingSlots sampleHost 0 = some (m1, evs) ∧
      NetworkScheduler.GetPingOffset sampleHost 1000 305419896 32 =
        some m1.m_pingSlotInfo.pingOffset ∧
      m1.m_pingSlotInfo.pingOffset = SlotOffsetFunction sampleHost 1000 305419896 32 :=
  C1_device_offset_eq_server_offset sampleHost 0 1000 305419896 32 sampleDevice
    (by decide) (by decide) (by decide) (by decide) (by decide) (by decide)

/-- C2: for a ping period `0 < P` (of type `uint`), `GetPingOffset` returns a value `r`
with `0 ≤ r < P`, and any call with the same three arguments returns the same `r`. -/
theorem C2_GetPingOffset_deterministic_and_bounded (host : Host) (T a P : Nat)
    (hP : 0 < P) (hP32 : P < 2 ^ 32) :
    ∃ r, NetworkScheduler.GetPingOffset host T a P = some r ∧ 0 ≤ r ∧ r < P ∧
      ∀ T1 a1 P1, T1 = T → a1 = a → P1 = P →
        NetworkScheduler.GetPingOffset host T1 a1 P1 = some r := by
  have h1 : P % 2 ^ 32 = P := Nat.mod_eq_of_lt hP32
  refine ⟨randWord host (T % 2 ^ 32) a % P, ?_, Nat.zero_le _, Nat.mod_lt _ hP, ?_⟩
  · unfold NetworkScheduler.GetPingOffset
    simp only [h1]
    rw [if_neg (by omega)]
  · intro T1 a1 P1 hT1 ha1 hP1
    subst hT1 ha1 hP1
    unfold NetworkScheduler.GetPingOffset
    simp only [h1]
    rw [if_neg (by omega)]

/-- C2 at the sample host, time stamp 1000 and ping period 32. -/
theorem C2_GetPingOffset_deterministic_and_bounded_witness :
    ∃ r, NetworkScheduler.GetPingOffset sampleHost 1000 305419896 32 = some r ∧ 0 ≤ r ∧ r < 32 ∧
      ∀ T1 a1 P1, T1 = 1000 → a1 = 305419896 → P1 = 32 →
        NetworkScheduler.GetPingOffset sampleHost T1 a1 P1 = some r :=
  C2_GetPingOffset_deterministic_and_bounded sampleHost 1000 305419896 32 (by decide) (by decide)

theorem slotTime_eq (off pp i : Nat) (h1 : i * pp < 2 ^ 32) (h2 : off + i * pp < 2 ^ 64) :
    EndDeviceLoraMac.slotTime off pp i = ((off + i * pp : Nat) : Int) * MilliSeconds 30 := by
  unfold EndDeviceLoraMac.slotTime PingSlotInfo.slotLen
  rw [Nat.mod_eq_of_lt h1, Nat.mod_eq_of_lt h2]

theorem pingSlotLoop_eq_map (now : Time) (off pp : Nat) :
    ∀ (l : List EventId) (k : Nat), k + l.length ≤ 256 →
      EndDeviceLoraMac.pingSlotLoop now off pp l k =
        (List.range' k l.length).map (fun i =>
          ({ time := now + EndDeviceLoraMac.slotTime off pp i,
             callee := MacEvent.OpenPingSlotReceiveWindow i } : ScheduledEvent)) := by
  intro l
  induction l with
  | nil => intro k _; simp [EndDeviceLoraMac.pingSlotLoop]
  | cons x rest ih =>
    intro k hk
    cases rest with
    | nil => simp [EndDeviceLoraMac.pingSlotLoop, List.range']
    | cons y rest2 =>
      have hk1 : (k + 1) % 256 = k + 1 := by
        apply Nat.mod_eq_of_lt
        simp only [List.length_cons] at hk
        omega
      have hlen : (x :: y :: rest2).length = (y :: rest2).length + 1 := rfl
      rw [EndDeviceLoraMac.pingSlotLoop, hk1, ih (k + 1) (by simp only [List.length_cons] at hk ⊢; omega),
        hlen, List.range'_succ, List.map_cons]

theorem pingSlotLoop_length (now : Time) (off pp : Nat) :
    ∀ (l : List EventId) (k : Nat),
      (EndDeviceLoraMac.pingSlotLoop now off pp l k).length = l.length := by
  intro l
  induction l with
  | nil => intro k; rfl
  | cons x rest ih => intro k; simp [EndDeviceLoraMac.pingSlotLoop, ih]

theorem pingSlotLoop_getElem? (now : Time) (off pp : Nat) (l : List EventId) (i : Nat)
    (hl : l.length ≤ 256) (hi : i < l.length) :
    (EndDeviceLoraMac.pingSlotLoop now off pp l 0)[i]? =
      some { time := now + EndDeviceLoraMac.slotTime off pp i,
             callee := MacEvent.OpenPingSlotReceiveWindow i } := by
  rw [pingSlotLoop_eq_map now off pp l 0 (by omega)]
  simp [List.getElem?_map, List.getElem?_range', hi]

theorem SchedulePingSlots_eq (host : Host) (now : Time) (m : EndDeviceLoraMac)
    (hP : 0 < m.m_pingSlotInfo.pingPeriod) :
    ∃ m1 off, off < m.m_pingSlotInfo.pingPeriod ∧ m1.m_pingSlotInfo.pingOffset = off ∧
      m1.m_pingSlotInfo.pingNb = m.m_pingSlotInfo.pingNb ∧
      m1.m_pingSlotInfo.pingPeriod = m.m_pingSlotInfo.pingPeriod ∧
      m.SchedulePingSlots host now =
        some (m1, EndDeviceLoraMac.pingSlotLoop now off m.m_pingSlotInfo.pingPeriod
          m.m_pingSlotInfo.pendingPingSlotEvents 0) := by
  unfold EndDeviceLoraMac.SchedulePingSlots
  simp only []
  rw [if_neg (by omega)]
  refine ⟨_, randWord host m.m_beaconInfo.deviceBcnTime.GetSecondsUInt32
    (if m.IsMulticastEnabled then m.m_mcAddress else m.m_address) % m.m_pingSlotInfo.pingPeriod,
    Nat.mod_lt _ hP, ?_, ?_, ?_, rfl⟩ <;> rfl

/-- C4 (evaluation of the code): after `SetPingSlotPeriodicity (1)` on a new device
`pingNb` is 64, yet one call of `SchedulePingSlots` schedules 128
`OpenPingSlotReceiveWindow` events, the last one with slot index 127: the loop
runs over the 128 entries of `pendingPingSlotEvents`, which no setter resizes. -/
theorem C4_periodicity_one_schedules_128_events (host : Host) (now : Time) :
    ∃ m1 m2 evs, EndDeviceLoraMac.new.SetPingSlotPeriodicity 1 = some m1 ∧
      m1.GetPingNb = 64 ∧ m1.GetPingPeriod = 64 ∧
      m1.SchedulePingSlots host now = some (m2, evs) ∧ evs.length = 128 ∧
      evs[127]? = some { time := now + ((m2.m_pingSlotInfo.pingOffset + 127 * 64 : Nat) : Int)
                                        * MilliSeconds 30,
                         callee := MacEvent.OpenPingSlotReceiveWindow 127 } := by
  have hset : EndDeviceLoraMac.new.SetPingSlotPeriodicity 1 =
      some { EndDeviceLoraMac.new with m_pingSlotInfo :=
        { EndDeviceLoraMac.new.m_pingSlotInfo with
          pingSlotPeriodicity := 1, pingNb := 64, pingPeriod := 64 } } := by decide
  obtain ⟨m2, off, hoff, hm2, _, _, hrun⟩ := SchedulePingSlots_eq host now
    { EndDeviceLoraMac.new with m_pingSlotInfo :=
        { EndDeviceLoraMac.new.m_pingSlotInfo with
          pingSlotPeriodicity := 1, pingNb := 64, pingPeriod := 64 } } (by decide)
  refine ⟨_, m2, _, hset, rfl, rfl, hrun, ?_, ?_⟩
  · rw [pingSlotLoop_length]
    simp [EndDeviceLoraMac.new]
  · rw [pingSlotLoop_getElem? _ _ _ _ 127 (by simp [EndDeviceLoraMac.new])
      (by simp [EndDeviceLoraMac.new]), hm2]
    have hoff64 : off < 64 := hoff
    rw [slotTime_eq off 64 127 (by norm_num) (by omega)]

/-- C5: with the default ping parameters (periodicity 0, `pingNb = 128`,
`pingPeriod = 32`, 128 tracked events) `SchedulePingSlots` schedules exactly 128
events, the `i`-th being `OpenPingSlotReceiveWindow (i)` at
`(pingOffset + 32 i) * 30 ms` after the call; consecutive ones are 0.96 s apart,
the first is at `pingOffset * 30 ms`, and every one lies less than 122.88 s
after the call. -/
theorem C5_default_periodicity_schedule (host : Host) (now : Time) (m : EndDeviceLoraMac)
    (hdefault : (m.GetPingSlotPeriodicity, m.GetPingNb, m.GetPingPeriod) = (0, 128, 32))
    (hvec : m.m_pingSlotInfo.pendingPingSlotEvents.length = 128) :
    ∃ m1 evs, m.SchedulePingSlots host now = some (m1, evs) ∧
      m1.m_pingSlotInfo.pingOffset < 32 ∧ evs.length = 128 ∧ evs.length = m1.GetPingNb ∧
      (∀ i, i < 128 → evs[i]? =
        some { time := now + ((m1.m_pingSlotInfo.pingOffset + i * 32 : Nat) : Int) * MilliSeconds 30,
               callee := MacEvent.OpenPingSlotReceiveWindow i }) ∧
      (∀ i e1 e2, i + 1 < 128 → evs[i]? = some e1 → evs[i + 1]? = some e2 →
        e2.time - e1.time = MilliSeconds 960) ∧
      (∀ e, evs[0]? = some e →
        e.time = now + (m1.m_pingSlotInfo.pingOffset : Int) * MilliSeconds 30) ∧
      (∀ e, e ∈ evs → now ≤ e.time ∧ e.time - now < BeaconInfo.beaconWindow) := by
  have hnb : m.m_pingSlotInfo.pingNb = 128 := congrArg (fun t => t.2.1) hdefault
  have hpp : m.m_pingSlotInfo.pingPeriod = 32 := congrArg (fun t => t.2.2) hdefault
  obtain ⟨m1, off, hoff, hm1, hnb1, _, hrun⟩ := SchedulePingSlots_eq host now m (by omega)
  rw [hpp] at hoff hrun
  have hget : ∀ i, i < 128 →
      (EndDeviceLoraMac.pingSlotLoop now off 32 m.m_pingSlotInfo.pendingPingSlotEvents 0)[i]? =
        some { time := now + ((off + i * 32 : Nat) : Int) * MilliSeconds 30,
               callee := MacEvent.OpenPingSlotReceiveWindow i } := by
    intro i hi
    rw [pingSlotLoop_getElem? _ _ _ _ i (by omega) (by omega),
      slotTime_eq off 32 i (by omega) (by omega)]
  refine ⟨m1, _, hrun, by omega, ?_, ?_, ?_, ?_, ?_, ?_⟩
  · rw [pingSlotLoop_length, hvec]
  · rw [pingSlotLoop_length, hvec]
    exact (hnb1.trans hnb).symm
  · intro i hi; rw [hm1]; exact hget i hi
  · intro i e1 e2 hi h1 h2
    rw [hget i (by omega)] at h1
    rw [hget (i + 1) hi] at h2
    cases h1; cases h2
    simp only [MilliSeconds]
    push_cast
    ring
  · intro e h0
    rw [hget 0 (by omega)] at h0
    cases h0
    rw [hm1]
    simp
  · intro e he
    obtain ⟨i, hi, hei⟩ := List.getElem_of_mem he
    have hi128 : i < 128 := by rw [pingSlotLoop_length, hvec] at hi; exact hi
    have hsome := hget i hi128
    rw [List.getElem?_eq_getElem hi, hei] at hsome
    rw [Option.some.inj hsome]
    simp only [BeaconInfo.beaconWindow, MilliSeconds]
    constructor
    · have : (0 : Int) ≤ ((off + i * 32 : Nat) : Int) * (30 * 1000000) := by positivity
      linarith
    · have : ((off + i * 32 : Nat) : Int) ≤ 4095 := by exact_mod_cast (by omega : off + i * 32 ≤ 4095)
      linarith

/-- C5 at the sample host and the sample device, scheduling at instant 0. -/
theorem C5_default_periodicity_schedule_witness :
    ∃ m1 evs, sampleDevice.SchedulePingSlots sampleHost 0 = some (m1, evs) ∧
      m1.m_pingSlotInfo.pingOffset < 32 ∧ evs.length = 128 ∧ evs.length = m1.GetPingNb ∧
      (∀ i, i < 128 → evs[i]? =
        some { time := 0 + ((m1.m_pingSlotInfo.pingOffset + i * 32 : Nat) : Int) * MilliSeconds 30,
               callee := MacEvent.OpenPingSlotReceiveWindow i }) ∧
      (∀ i e1 e2, i + 1 < 128 → evs[i]? = some e1 → evs[i + 1]? = some e2 →
        e2.time - e1.time = MilliSeconds 960) ∧
      (∀ e, evs[0]? = some e →
        e.time = 0 + (m1.m_pingSlotInfo.pingOffset : Int) * MilliSeconds 30) ∧
      (∀ e, e ∈ evs → 0 ≤ e.time ∧ e.time - 0 < BeaconInfo.beaconWindow) :=
  C5_default_periodicity_schedule sampleHost 0 sampleDevice (by decide)
    (by simp [sampleDevice, EndDeviceLoraMac.new])

theorem ceilLog2_powers :
    EndDeviceLoraMac.ceilLog2 1 = 0 ∧ EndDeviceLoraMac.ceilLog2 2 = 1 ∧
      EndDeviceLoraMac.ceilLog2 4 = 2 ∧ EndDeviceLoraMac.ceilLog2 8 = 3 ∧
      EndDeviceLoraMac.ceilLog2 16 = 4 ∧ EndDeviceLoraMac.ceilLog2 32 = 5 ∧
      EndDeviceLoraMac.ceilLog2 64 = 6 ∧ EndDeviceLoraMac.ceilLog2 128 = 7 := by
  decide

theorem SetPingSlotPeriodicity_table (m : EndDeviceLoraMac) (p : Nat) (hp : p ≤ 7) :
    m.SetPingSlotPeriodicity p = some { m with m_pingSlotInfo := { m.m_pingSlotInfo with
      pingSlotPeriodicity := p, pingNb := 2 ^ (7 - p), pingPeriod := 2 ^ (5 + p) } } := by
  interval_cases p <;>
    simp [EndDeviceLoraMac.SetPingSlotPeriodicity, EndDeviceLoraMac.powTwoSevenMinus]

theorem SetPingNb_table (m : EndDeviceLoraMac) (p : Nat) (hp : p ≤ 7) :
    m.SetPingNb (2 ^ (7 - p)) = some { m with m_pingSlotInfo := { m.m_pingSlotInfo with
      pingSlotPeriodicity := p, pingNb := 2 ^ (7 - p), pingPeriod := 2 ^ (5 + p) } } := by
  obtain ⟨h1, h2, h4, h8, h16, h32, h64, h128⟩ := ceilLog2_powers
  interval_cases p <;>
    simp [EndDeviceLoraMac.SetPingNb, EndDeviceLoraMac.sevenMinusLog2,
      h1, h2, h4, h8, h16, h32, h64, h128]

theorem SetPingPeriod_table (m : EndDeviceLoraMac) (p : Nat) (hp : p ≤ 7) :
    m.SetPingPeriod (2 ^ (5 + p)) = some { m with m_pingSlotInfo := { m.m_pingSlotInfo with
      pingSlotPeriodicity := p, pingNb := 2 ^ (7 - p), pingPeriod := 2 ^ (5 + p) } } := by
  obtain ⟨h1, h2, h4, h8, h16, h32, h64, h128⟩ := ceilLog2_powers
  interval_cases p <;>
    simp [EndDeviceLoraMac.SetPingPeriod, EndDeviceLoraMac.sevenMinusLog2,
      h1, h2, h4, h8, h16, h32, h64, h128]

theorem table_arithmetic (p : Nat) (hp : p ≤ 7) :
    2 ^ (5 + p) = 4096 / 2 ^ (7 - p) ∧ 2 ^ (7 - p) * 2 ^ (5 + p) = 4096 := by
  interval_cases p <;> decide

theorem ping_slot_setters (m : EndDeviceLoraMac) (p : Nat) (hp : p ≤ 7) :
    ∃ m1, m.SetPingSlotPeriodicity p = some m1 ∧
      m1.GetPingSlotPeriodicity = p ∧ m1.GetPingNb = 2 ^ (7 - p) ∧
      m1.GetPingPeriod = 4096 / m1.GetPingNb ∧ m1.GetPingPeriod = 2 ^ (5 + p) ∧
      m1.GetPingNb * m1.GetPingPeriod = 4096 ∧
      m.SetPingNb (2 ^ (7 - p)) = some m1 ∧ m.SetPingPeriod (2 ^ (5 + p)) = some m1 :=
  ⟨_, SetPingSlotPeriodicity_table m p hp, rfl, rfl, (table_arithmetic p hp).1, rfl,
    (table_arithmetic p hp).2, SetPingNb_table m p hp, SetPingPeriod_table m p hp⟩

/-- C6: for every periodicity `p` in `[0,7]`, `SetPingSlotPeriodicity (p)` returns with
`GetPingSlotPeriodicity () = p`, `GetPingNb () = 2^(7-p)`,
`GetPingPeriod () = 4096 / GetPingNb () = 2^(5+p)` and `pingNb * pingPeriod = 4096`;
`SetPingNb (2^(7-p))` and `SetPingPeriod (2^(5+p))` lead to the same state. -/
theorem C6_ping_slot_setters_agree (m : EndDeviceLoraMac) (p : Nat) (hp : p ≤ 7) :
    ∃ m1, m.SetPingSlotPeriodicity p = some m1 ∧
      m1.GetPingSlotPeriodicity = p ∧ m1.GetPingNb = 2 ^ (7 - p) ∧
      m1.GetPingPeriod = 4096 / m1.GetPingNb ∧ m1.GetPingPeriod = 2 ^ (5 + p) ∧
      m1.GetPingNb * m1.GetPingPeriod = 4096 ∧
      m.SetPingNb (2 ^ (7 - p)) = some m1 ∧ m.SetPingPeriod (2 ^ (5 + p)) = some m1 :=
  ping_slot_setters m p hp

/-- C6 at a new device and periodicity 3. -/
theorem C6_ping_slot_setters_agree_witness :
    ∃ m1, EndDeviceLoraMac.new.SetPingSlotPeriodicity 3 = some m1 ∧
      m1.GetPingSlotPeriodicity = 3 ∧ m1.GetPingNb = 2 ^ (7 - 3) ∧
      m1.GetPingPeriod = 4096 / m1.GetPingNb ∧ m1.GetPingPeriod = 2 ^ (5 + 3) ∧
      m1.GetPingNb * m1.GetPingPeriod = 4096 ∧
      EndDeviceLoraMac.new.SetPingNb (2 ^ (7 - 3)) = some m1 ∧
      EndDeviceLoraMac.new.SetPingPeriod (2 ^ (5 + 3)) = some m1 :=
  C6_ping_slot_setters_agree EndDeviceLoraMac.new 3 (by decide)

theorem inTable_run (m : EndDeviceLoraMac) (c : PingSlotCall) (hc : c.inTable) :
    ∃ m1, c.run m = some m1 ∧ m1.GetPingNb * m1.GetPingPeriod = 4096 := by
  cases c with
  | SetPingSlotPeriodicity p =>
    have hp : p ≤ 7 := hc
    obtain ⟨m1, h1, _, _, _, _, h6, _, _⟩ := ping_slot_setters m p hp
    exact ⟨m1, h1, h6⟩
  | SetPingNb n =>
    obtain ⟨k, hk, rfl⟩ := hc
    obtain ⟨m1, _, _, _, _, _, h6, h7, _⟩ := ping_slot_setters m (7 - k) (by omega)
    have : 7 - (7 - k) = k := by omega
    rw [this] at h7
    exact ⟨m1, h7, h6⟩
  | SetPingPeriod q =>
    obtain ⟨k, hk5, hk12, rfl⟩ := hc
    obtain ⟨m1, _, _, _, _, _, h6, _, h8⟩ := ping_slot_setters m (k - 5) (by omega)
    have : 5 + (k - 5) = k := by omega
    rw [this] at h8
    exact ⟨m1, h8, h6⟩

/-- C7 (counterexample): on a new device `SetPingNb (3)` returns with `pingNb = 3` and
`pingPeriod = 1365`, whose product is 4095, not 4096. -/
theorem C7_counterexample_SetPingNb_three :
    (EndDeviceLoraMac.new.SetPingNb 3).map (fun m => (m.GetPingNb, m.GetPingPeriod,
      m.GetPingNb * m.GetPingPeriod)) = some (3, 1365, 4095) := by
  decide

/-- C7 (amended): starting from the default ping-slot parameters, after any sequence
of calls to `SetPingSlotPeriodicity` with a periodicity in `[0,7]`, `SetPingNb` with
a power of two in `[1,128]` and `SetPingPeriod` with a power of two in `[32,4096]`,
every call returns and `pingNb * pingPeriod = 4096` holds. -/
theorem C7_invariant_for_table_arguments (calls : List PingSlotCall)
    (hcalls : ∀ c, c ∈ calls → c.inTable) :
    ∃ m, runPingSlotCalls EndDeviceLoraMac.new calls = some m ∧
      m.GetPingNb * m.GetPingPeriod = 4096 := by
  have key : ∀ (cs : List PingSlotCall) (m0 : EndDeviceLoraMac),
      m0.GetPingNb * m0.GetPingPeriod = 4096 → (∀ c, c ∈ cs → c.inTable) →
      ∃ m, runPingSlotCalls m0 cs = some m ∧ m.GetPingNb * m.GetPingPeriod = 4096 := by
    intro cs
    induction cs with
    | nil => intro m0 h0 _; exact ⟨m0, rfl, h0⟩
    | cons c rest ih =>
      intro m0 _ hin
      obtain ⟨m1, hrun, hinv⟩ := inTable_run m0 c (hin c (List.mem_cons_self _ _))
      obtain ⟨m2, hrest, hinv2⟩ := ih m1 hinv (fun d hd => hin d (List.mem_cons_of_mem _ hd))
      refine ⟨m2, ?_, hinv2⟩
      simp only [runPingSlotCalls, hrun]
      exact hrest
  exact key calls EndDeviceLoraMac.new rfl hcalls

/-- C7 (amended) at the calls `SetPingNb (16)`, `SetPingSlotPeriodicity (2)`, `SetPingPeriod (4096)`. -/
theorem C7_invariant_for_table_arguments_witness :
    ∃ m, runPingSlotCalls EndDeviceLoraMac.new
        [PingSlotCall.SetPingNb 16, PingSlotCall.SetPingSlotPeriodicity 2,
         PingSlotCall.SetPingPeriod 4096] = some m ∧
      m.GetPingNb * m.GetPingPeriod = 4096 :=
  C7_invariant_for_table_arguments
    [PingSlotCall.SetPingNb 16, PingSlotCall.SetPingSlotPeriodicity 2,
     PingSlotCall.SetPingPeriod 4096]
    (by
      intro c hc
      simp only [List.mem_cons, List.mem_singleton, List.not_mem_nil, or_false] at hc
      rcases hc with rfl | rfl | rfl
      · exact ⟨4, by decide, by decide⟩
      · exact (by decide : (2 : Nat) ≤ 7)
      · exact ⟨12, by decide, by decide, by decide⟩)

/-- C8 (evaluation of the code): on a new device `SetPingNb (200)` is accepted and
leaves `(periodicity, pingNb, pingPeriod) = (0, 200, 20)`; `SetPingPeriod (20)` is
accepted and leaves `(0, 204, 20)`; `SetPingSlotPeriodicity (8)` is accepted,
stores `pingNb = 0` and then divides 4096 by zero. -/
theorem C8_out_of_range_arguments_accepted :
    (EndDeviceLoraMac.new.SetPingNb 200).map
        (fun m => (m.GetPingSlotPeriodicity, m.GetPingNb, m.GetPingPeriod)) = some (0, 200, 20) ∧
      (EndDeviceLoraMac.new.SetPingPeriod 20).map
        (fun m => (m.GetPingSlotPeriodicity, m.GetPingNb, m.GetPingPeriod)) = some (0, 204, 20) ∧
      EndDeviceLoraMac.new.SetPingSlotPeriodicity 8 = none ∧
      (EndDeviceLoraMac.new.GetPingSlotPeriodicity, EndDeviceLoraMac.new.GetPingNb,
        EndDeviceLoraMac.new.GetPingPeriod) = (0, 128, 32) := by
  decide

theorem BeaconMissed_beaconless_durations (now : Time) (m : EndDeviceLoraMac)
    (h : (m.BeaconMissed now).1.m_beaconState = BeaconState.BEACONLESS) :
    (m.BeaconMissed now).1.m_classBReceiveWindowInfo.beaconReceiveWindowDurationInSymbols =
        (if m.m_classBReceiveWindowInfo.beaconReceiveWindowDurationInSymbols * 2 % 2 ^ 16 > 255
          then 255
          else m.m_classBReceiveWindowInfo.beaconReceiveWindowDurationInSymbols * 2 % 2 ^ 16) ∧
      (m.BeaconMissed now).1.m_classBReceiveWindowInfo.pingReceiveWindowDurationInSymbols =
        (if m.m_classBReceiveWindowInfo.pingReceiveWindowDurationInSymbols * 2 % 2 ^ 8 > 30
          then 30
          else m.m_classBReceiveWindowInfo.pingReceiveWindowDurationInSymbols * 2 % 2 ^ 8) := by
  unfold EndDeviceLoraMac.BeaconMissed at h ⊢
  simp only [ClassBReceiveWindowInfo.symbolToExpantionFactor,
    ClassBReceiveWindowInfo.maxBeaconReceiveWindowDurationInSymbols,
    ClassBReceiveWindowInfo.maxPingReceiveWindowDurationInSymbols] at h ⊢
  split_ifs at h ⊢ <;> simp_all

theorem expansion_step (j : Nat) :
    (if min (8 * 2 ^ j) 255 * 2 % 2 ^ 16 > 255 then 255 else min (8 * 2 ^ j) 255 * 2 % 2 ^ 16) =
        min (8 * 2 ^ (j + 1)) 255 ∧
      (if min (8 * 2 ^ j) 30 * 2 % 2 ^ 8 > 30 then 30 else min (8 * 2 ^ j) 30 * 2 % 2 ^ 8) =
        min (8 * 2 ^ (j + 1)) 30 := by
  have hpow : 2 ^ (j + 1) = 2 * 2 ^ j := by ring
  have hpos : 0 < 2 ^ j := pow_pos (by norm_num) j
  rw [hpow]
  generalize 2 ^ j = x at hpos
  constructor
  · split_ifs <;> omega
  · split_ifs <;> omega

theorem missesInRow_durations :
    ∀ (nows : List Time) (m : EndDeviceLoraMac) (j : Nat),
      m.m_classBReceiveWindowInfo.beaconReceiveWindowDurationInSymbols = min (8 * 2 ^ j) 255 →
      m.m_classBReceiveWindowInfo.pingReceiveWindowDurationInSymbols = min (8 * 2 ^ j) 30 →
      staysBeaconless m nows = true →
      (missesInRow m nows).m_classBReceiveWindowInfo.beaconReceiveWindowDurationInSymbols =
          min (8 * 2 ^ (j + nows.length)) 255 ∧
        (missesInRow m nows).m_classBReceiveWindowInfo.pingReceiveWindowDurationInSymbols =
          min (8 * 2 ^ (j + nows.length)) 30 := by
  intro nows
  induction nows with
  | nil => intro m j hb hp _; exact ⟨hb, hp⟩
  | cons now rest ih =>
    intro m j hb hp hstay
    simp only [staysBeaconless, Bool.and_eq_true, decide_eq_true_eq] at hstay
    obtain ⟨h1, h2⟩ := BeaconMissed_beaconless_durations now m hstay.1
    rw [hb, (expansion_step j).1] at h1
    rw [hp, (expansion_step j).2] at h2
    have := ih (m.BeaconMissed now).1 (j + 1) h1 h2 hstay.2
    simp only [missesInRow, List.length_cons]
    have hidx : j + (rest.length + 1) = j + 1 + rest.length := by omega
    rw [hidx]
    exact this

theorem staysBeaconless_take :
    ∀ (nows : List Time) (m : EndDeviceLoraMac) (k : Nat),
      staysBeaconless m nows = true → staysBeaconless m (nows.take k) = true := by
  intro nows
  induction nows with
  | nil => intro m k h; simpa using h
  | cons now rest ih =>
    intro m k h
    cases k with
    | zero => rfl
    | succ k =>
      simp only [staysBeaconless, Bool.and_eq_true, decide_eq_true_eq, List.take_succ_cons] at h ⊢
      exact ⟨h.1, ih _ k h.2⟩

theorem expansion_closed_form_mono (j k c : Nat) (hjk : j ≤ k) :
    min (8 * 2 ^ j) c ≤ min (8 * 2 ^ k) c := by
  have : 2 ^ j ≤ 2 ^ k := Nat.pow_le_pow_right (by norm_num) hjk
  omega

/-- C9: starting from window durations of 8 symbols each, after `n ≥ 1` consecutive
`BeaconMissed` calls that each leave the device beaconless, the beacon receive
window is `min (8 * 2^n, 255)` symbols and the ping receive window
`min (8 * 2^n, 30)` symbols; along the calls both durations are non-decreasing
and never exceed 255 and 30 symbols. -/
theorem C9_window_expansion (m : EndDeviceLoraMac) (nows : List Time)
    (hb : m.m_classBReceiveWindowInfo.beaconReceiveWindowDurationInSymbols = 8)
    (hp : m.m_classBReceiveWindowInfo.pingReceiveWindowDurationInSymbols = 8)
    (hstay : staysBeaconless m nows = true) :
    (∀ n, 1 ≤ n → n ≤ nows.length →
      (missesInRow m (nows.take n)).m_classBReceiveWindowInfo.beaconReceiveWindowDurationInSymbols
          = min (8 * 2 ^ n) 255 ∧
        (missesInRow m (nows.take n)).m_classBReceiveWindowInfo.pingReceiveWindowDurationInSymbols
          = min (8 * 2 ^ n) 30) ∧
    (∀ j k, j ≤ k → k ≤ nows.length →
      (missesInRow m (nows.take j)).m_classBReceiveWindowInfo.beaconReceiveWindowDurationInSymbols
          ≤ (missesInRow m (nows.take k)).m_classBReceiveWindowInfo.beaconReceiveWindowDurationInSymbols ∧
        (missesInRow m (nows.take j)).m_classBReceiveWindowInfo.pingReceiveWindowDurationInSymbols
          ≤ (missesInRow m (nows.take k)).m_classBReceiveWindowInfo.pingReceiveWindowDurationInSymbols) ∧
    (∀ k, k ≤ nows.length →
      (missesInRow m (nows.take k)).m_classBReceiveWindowInfo.beaconReceiveWindowDurationInSymbols
          ≤ 255 ∧
        (missesInRow m (nows.take k)).m_classBReceiveWindowInfo.pingReceiveWindowDurationInSymbols
          ≤ 30) := by
  have closed : ∀ n, n ≤ nows.length →
      (missesInRow m (nows.take n)).m_classBReceiveWindowInfo.beaconReceiveWindowDurationInSymbols
          = min (8 * 2 ^ n) 255 ∧
        (missesInRow m (nows.take n)).m_classBReceiveWindowInfo.pingReceiveWindowDurationInSymbols
          = min (8 * 2 ^ n) 30 := by
    intro n hn
    have h := missesInRow_durations (nows.take n) m 0 (by rw [hb]; rfl) (by rw [hp]; rfl)
      (staysBeaconless_take nows m n hstay)
    rw [List.length_take, Nat.min_eq_left hn, Nat.zero_add] at h
    exact h
  refine ⟨fun n _ hn => closed n hn, ?_, ?_⟩
  · intro j k hjk hk
    rw [(closed j (by omega)).1, (closed j (by omega)).2, (closed k hk).1, (closed k hk).2]
    exact ⟨expansion_closed_form_mono j k 255 hjk, expansion_closed_form_mono j k 30 hjk⟩
  · intro k hk
    rw [(closed k hk).1, (closed k hk).2]
    exact ⟨Nat.min_le_right _ _, Nat.min_le_right _ _⟩

/-- C9 at the sample locked device and six consecutive misses. -/
theorem C9_window_expansion_witness :
    staysBeaconless sampleLockedDevice sampleMissInstants = true ∧
    ((∀ n, 1 ≤ n → n ≤ sampleMissInstants.length →
      (missesInRow sampleLockedDevice (sampleMissInstants.take n)).m_classBReceiveWindowInfo.beaconReceiveWindowDurationInSymbols
          = min (8 * 2 ^ n) 255 ∧
        (missesInRow sampleLockedDevice (sampleMissInstants.take n)).m_classBReceiveWindowInfo.pingReceiveWindowDurationInSymbols
          = min (8 * 2 ^ n) 30) ∧
    (∀ j k, j ≤ k → k ≤ sampleMissInstants.length →
      (missesInRow sampleLockedDevice (sampleMissInstants.take j)).m_classBReceiveWindowInfo.beaconReceiveWindowDurationInSymbols
          ≤ (missesInRow sampleLockedDevice (sampleMissInstants.take k)).m_classBReceiveWindowInfo.beaconReceiveWindowDurationInSymbols ∧
        (missesInRow sampleLockedDevice (sampleMissInstants.take j)).m_classBReceiveWindowInfo.pingReceiveWindowDurationInSymbols
          ≤ (missesInRow sampleLockedDevice (sampleMissInstants.take k)).m_classBReceiveWindowInfo.pingReceiveWindowDurationInSymbols) ∧
    (∀ k, k ≤ sampleMissInstants.length →
      (missesInRow sampleLockedDevice (sampleMissInstants.take k)).m_classBReceiveWindowInfo.beaconReceiveWindowDurationInSymbols
          ≤ 255 ∧
        (missesInRow sampleLockedDevice (sampleMissInstants.take k)).m_classBReceiveWindowInfo.pingReceiveWindowDurationInSymbols
          ≤ 30)) :=
  ⟨by decide, C9_window_expansion sampleLockedDevice sampleMissInstants (by decide) (by decide)
    (by decide)⟩

theorem BeaconMissed_within_tolerance (now : Time) (m : EndDeviceLoraMac)
    (h : missWithinTolerance now m) :
    (m.BeaconMissed now).1.m_beaconState = BeaconState.BEACONLESS ∧
      (m.BeaconMissed now).1.m_beaconInfo.deviceBcnTime =
        m.m_beaconInfo.deviceBcnTime + Seconds 128 ∧
      (m.BeaconMissed now).1.m_beaconInfo.gwBcnTime = m.m_beaconInfo.gwBcnTime ∧
      (m.BeaconMissed now).1.m_deviceClass = m.m_deviceClass ∧
      (m.BeaconMissed now).1.effectiveAddress = m.effectiveAddress ∧
      (m.BeaconMissed now).1.m_pingSlotInfo = m.m_pingSlotInfo := by
  unfold missWithinTolerance at h
  unfold EndDeviceLoraMac.BeaconMissed
  simp only [BeaconInfo.minimalBeaconLessOperationTime, BeaconInfo.beaconPeriod,
    EndDeviceLoraMac.effectiveAddress, EndDeviceLoraMac.IsMulticastEnabled]
  rcases h with h | ⟨h, hle⟩
  · simp [h]
  · have hnot : ¬ (Minutes 128 < now - m.m_beaconInfo.gwBcnTime) := not_lt.mpr hle
    simp [h, hnot]

theorem missesInRow_within_tolerance :
    ∀ (nows : List Time) (m : EndDeviceLoraMac), missesWithinTolerance m nows = true →
      (nows ≠ [] → (missesInRow m nows).m_beaconState = BeaconState.BEACONLESS) ∧
      (missesInRow m nows).m_beaconInfo.deviceBcnTime =
        m.m_beaconInfo.deviceBcnTime + Seconds 128 * (nows.length : Int) ∧
      (missesInRow m nows).m_beaconInfo.gwBcnTime = m.m_beaconInfo.gwBcnTime ∧
      (missesInRow m nows).m_deviceClass = m.m_deviceClass ∧
      (missesInRow m nows).effectiveAddress = m.effectiveAddress ∧
      (missesInRow m nows).m_pingSlotInfo = m.m_pingSlotInfo := by
  intro nows
  induction nows with
  | nil => intro m _; simp [missesInRow]
  | cons now rest ih =>
    intro m h
    simp only [missesWithinTolerance, Bool.and_eq_true, decide_eq_true_eq] at h
    obtain ⟨s1, s2, s3, s4, s5, s6⟩ := BeaconMissed_within_tolerance now m h.1
    obtain ⟨r1, r2, r3, r4, r5, r6⟩ := ih (m.BeaconMissed now).1 h.2
    simp only [missesInRow, List.length_cons]
    refine ⟨fun _ => ?_, ?_, r3.trans s3, r4.trans s4, r5.trans s5, r6.trans s6⟩
    · cases rest with
      | nil => simpa [missesInRow] using s1
      | cons t ts => exact r1 (by simp)
    · rw [r2, s2]; push_cast; ring

/-- C10: `BeaconMissed` invoked with the beacon locked, or beaconless while the time since
the last received beacon does not exceed 128 minutes, sets the beacon state to
beaconless, advances `deviceBcnTime` by exactly 128 s and leaves `gwBcnTime` and
the device class unchanged; after `n` consecutive such misses following a beacon
stamped `T` the recorded time is `T + 128 n` seconds and `SchedulePingSlots`
computes the ping offset from `T + 128 n`. -/
theorem C10_beacon_missed_advances_time (host : Host) (m : EndDeviceLoraMac) (nows : List Time)
    (h : missesWithinTolerance m nows = true) :
    (nows ≠ [] → (missesInRow m nows).m_beaconState = BeaconState.BEACONLESS) ∧
    (missesInRow m nows).m_beaconInfo.deviceBcnTime =
      m.m_beaconInfo.deviceBcnTime + Seconds 128 * (nows.length : Int) ∧
    (missesInRow m nows).m_beaconInfo.gwBcnTime = m.m_beaconInfo.gwBcnTime ∧
    (missesInRow m nows).m_deviceClass = m.m_deviceClass ∧
    (∀ (T : Nat) (at_ : Time), m.m_beaconInfo.deviceBcnTime = Seconds (T : Int) →
      T + 128 * nows.length < 2 ^ 32 → 0 < m.m_pingSlotInfo.pingPeriod →
      ∃ m1 evs, (missesInRow m nows).SchedulePingSlots host at_ = some (m1, evs) ∧
        m1.m_pingSlotInfo.pingOffset =
          SlotOffsetFunction host (T + 128 * nows.length) m.effectiveAddress
            m.m_pingSlotInfo.pingPeriod) := by
  obtain ⟨r1, r2, r3, r4, r5, r6⟩ := missesInRow_within_tolerance nows m h
  refine ⟨r1, r2, r3, r4, ?_⟩
  intro T at_ hT hlt hP
  have hbcn : (missesInRow m nows).m_beaconInfo.deviceBcnTime =
      Seconds (((T + 128 * nows.length : Nat)) : Int) := by
    rw [r2, hT]; simp only [Seconds]; push_cast; ring
  have hP1 : 0 < (missesInRow m nows).m_pingSlotInfo.pingPeriod := by rw [r6]; exact hP
  refine ⟨_, _, SchedulePingSlots_offset host at_ _ _ hlt hP1 hbcn, ?_⟩
  simp only [r5, r6]

/-- C10 at the sample locked device (time stamp 1000) and six consecutive misses. -/
theorem C10_beacon_missed_advances_time_witness :
    missesWithinTolerance sampleLockedDevice sampleMissInstants = true ∧
    (missesInRow sampleLockedDevice sampleMissInstants).m_beaconState = BeaconState.BEACONLESS ∧
    (missesInRow sampleLockedDevice sampleMissInstants).m_beaconInfo.deviceBcnTime =
      Seconds (1000 + 128 * 6) ∧
    (missesInRow sampleLockedDevice sampleMissInstants).m_beaconInfo.gwBcnTime = Seconds 1000 ∧
    (missesInRow sampleLockedDevice sampleMissInstants).m_deviceClass = DeviceClass.CLASS_A :=
  have h := C10_beacon_missed_advances_time sampleHost sampleLockedDevice sampleMissInstants
    (by decide)
  ⟨by decide, h.1 (by decide), h.2.1.trans (by decide), h.2.2.1.trans (by decide),
    h.2.2.2.1.trans (by decide)⟩

theorem StartBeaconReserved_schedules_end (bT rxWindow : Time) (d0 : EndDeviceLoraMac)
    (hguard : d0.m_macState = MacState.MAC_BEACON_GUARD) :
    ∃ d1 evs, d0.StartBeaconReserved bT rxWindow = some (d1, evs) ∧
      d1.m_macState = MacState.MAC_BEACON_RESERVED ∧
      ({ time := bT + MilliSeconds 2120, callee := MacEvent.EndBeaconReserved } :
        ScheduledEvent) ∈ evs := by
  unfold EndDeviceLoraMac.StartBeaconReserved
  rw [if_neg (by simp [hguard])]
  exact ⟨_, _, rfl, by simp [EndDeviceLoraMac.SetMacState, hguard],
    by simp [BeaconInfo.beaconReserved]⟩

theorem EndBeaconReserved_schedules_pings (host : Host) (now : Time) (phy : PhyState)
    (d : EndDeviceLoraMac)
    (hres : d.m_macState = MacState.MAC_BEACON_RESERVED)
    (hbs : d.m_beaconState = BeaconState.BEACON_LOCKED ∨ d.m_beaconState = BeaconState.BEACONLESS)
    (hcls : d.m_deviceClass ≠ DeviceClass.CLASS_C) (hphy : phy ≠ PhyState.RX)
    (hP : 0 < d.m_pingSlotInfo.pingPeriod) :
    ∃ d2 cbs, d.EndBeaconReserved host now phy =
        some (d2,
          EndDeviceLoraMac.pingSlotLoop now
            (randWord host d.m_beaconInfo.deviceBcnTime.GetSecondsUInt32 d.effectiveAddress %
              d.m_pingSlotInfo.pingPeriod)
            d.m_pingSlotInfo.pingPeriod d.m_pingSlotInfo.pendingPingSlotEvents 0 ++
          [{ time := now + BeaconInfo.beaconWindow, callee := MacEvent.StartBeaconGuard }], cbs) ∧
      d2.m_deviceClass = DeviceClass.CLASS_B ∧ d2.m_macState = MacState.MAC_IDLE := by
  have hP0 : d.m_pingSlotInfo.pingPeriod ≠ 0 := by omega
  have hidle : d.SetMacState MacState.MAC_IDLE = { d with m_macState := MacState.MAC_IDLE } := by
    simp [EndDeviceLoraMac.SetMacState, hres]
  unfold EndDeviceLoraMac.EndBeaconReserved
  rw [if_neg (by simp [hres]), hidle]
  simp only []
  rcases hbs with hb | hb
  · rw [if_neg (by simp [hb]), if_pos (Or.inl hb), if_neg hphy]
    by_cases hmax : d.m_currentConsecutiveBeaconsMissed > d.m_maximumConsecutiveBeaconsMissed <;>
      cases hc : d.m_deviceClass <;>
      first
      | exact absurd hc hcls
      | simp [hb, hc, hmax, EndDeviceLoraMac.SchedulePingSlots, hP0,
          EndDeviceLoraMac.effectiveAddress, EndDeviceLoraMac.IsMulticastEnabled]
  · rw [if_neg (by simp [hb]), if_pos (Or.inr hb), if_neg hphy]
    cases hc : d.m_deviceClass <;>
      first
      | exact absurd hc hcls
      | simp [hb, hc, EndDeviceLoraMac.SchedulePingSlots, hP0,
          EndDeviceLoraMac.effectiveAddress, EndDeviceLoraMac.IsMulticastEnabled]

theorem BroadcastBeacon_downlink_instant (bT : Time) (enable : Bool) (bcnTime T : Nat)
    (s : NetworkScheduler) (ev : ServerScheduledEvent)
    (hev : ev ∈ (NetworkScheduler.BroadcastBeacon bT enable bcnTime s).2.1)
    (hcal : ev.callee = SchedulerEvent.ScheduleClassBDownlink T) :
    ev.time = bT + MilliSeconds 2120 ∧
      T = (NetworkScheduler.recordBroadcastOutcome bcnTime s).1.m_lastBeaconTime := by
  unfold NetworkScheduler.BroadcastBeacon at hev
  simp only [] at hev
  split_ifs at hev <;> simp at hev
  · subst hev; simp at hcal
  · rcases hev with rfl | rfl
    · simp at hcal
    · simp only [SchedulerEvent.ScheduleClassBDownlink.injEq] at hcal
      exact ⟨rfl, hcal.symm⟩
  · subst hev; simp at hcal


theorem findGenerator_append (b : LoraDeviceAddress)
    (l x : List (LoraDeviceAddress × DownlinkPacketGenerator))
    (h : (NetworkScheduler.findGenerator b l).isSome) :
    (NetworkScheduler.findGenerator b (l ++ x)).isSome := by
  induction l with
  | nil => simp [NetworkScheduler.findGenerator] at h
  | cons e rest ih =>
    obtain ⟨a, g⟩ := e
    simp only [List.cons_append, NetworkScheduler.findGenerator] at h ⊢
    split_ifs with hab
    · rfl
    · rw [if_neg hab] at h; exact ih h

theorem findGenerator_append_self (a : LoraDeviceAddress) (g : DownlinkPacketGenerator)
    (l : List (LoraDeviceAddress × DownlinkPacketGenerator)) :
    (NetworkScheduler.findGenerator a (l ++ [(a, g)])).isSome := by
  induction l with
  | nil => simp [NetworkScheduler.findGenerator]
  | cons e rest ih =>
    obtain ⟨b, h⟩ := e
    simp only [List.cons_append, NetworkScheduler.findGenerator]
    split_ifs
    · rfl
    · exact ih

theorem findGenerator_updateGenerator (a b : LoraDeviceAddress) (g : DownlinkPacketGenerator)
    (l : List (LoraDeviceAddress × DownlinkPacketGenerator)) :
    (NetworkScheduler.findGenerator b (NetworkScheduler.updateGenerator a g l)).isSome =
      (NetworkScheduler.findGenerator b l).isSome := by
  induction l with
  | nil => rfl
  | cons e rest ih =>
    obtain ⟨c, h⟩ := e
    simp only [NetworkScheduler.updateGenerator]
    by_cases hca : c = a
    · rw [if_pos hca]
      simp only [NetworkScheduler.findGenerator]
      by_cases hcb : c = b <;> simp [hcb]
    · rw [if_neg hca]
      simp only [NetworkScheduler.findGenerator]
      by_cases hcb : c = b <;> simp [hcb, ih]

theorem scheduleGroup_spec (host : Host) (drawn : LoraDeviceAddress → Nat) (now : Time)
    (T : Nat) (s s1 : NetworkScheduler) (a : LoraDeviceAddress)
    (members : List EndDeviceLoraMac) (ev : ServerScheduledEvent)
    (h : NetworkScheduler.scheduleGroup host drawn now T s a members = some (s1, ev)) :
    (∃ mac offset, members.head? = some mac ∧
        NetworkScheduler.GetPingOffset host T a mac.GetPingPeriod = some offset ∧
        ev = { time := now + (offset : Int) * MilliSeconds 30,
               callee := SchedulerEvent.SendPingDownlink a true mac.GetPingPeriod
                 (mac.GetPingNb % 256) 0 }) ∧
      (NetworkScheduler.findGenerator a s1.m_downlinkPacket).isSome ∧
      (∀ b, (NetworkScheduler.findGenerator b s.m_downlinkPacket).isSome →
        (NetworkScheduler.findGenerator b s1.m_downlinkPacket).isSome) := by
  unfold NetworkScheduler.scheduleGroup at h
  cases hm : members.head? with
  | none => simp [hm] at h
  | some mac =>
    cases ho : NetworkScheduler.GetPingOffset host T a mac.GetPingPeriod with
    | none => simp [hm, ho] at h
    | some offset =>
      simp only [hm, ho] at h
      by_cases hg : (NetworkScheduler.findGenerator a s.m_downlinkPacket).isNone = true
      · rw [if_pos hg] at h
        simp only [List.get?_eq_getElem?] at h
        cases hmax : s.m_maxAppPayloadForDataRate[mac.GetPingSlotReceiveWindowDataRate]? with
        | none => simp [hmax] at h
        | some maxPayload =>
          simp only [hmax] at h
          cases hsz : NetworkScheduler.sizeOfAppPayload (s.m_pingDownlinkPacketSize % 256)
              (maxPayload % 256) (drawn a) with
          | none => simp [hsz] at h
          | some size =>
            simp only [hsz, Option.some.injEq, Prod.mk.injEq] at h
            obtain ⟨hs1, hev⟩ := h
            subst hs1
            refine ⟨⟨mac, offset, rfl, ho, hev.symm⟩, findGenerator_append_self a _ _, ?_⟩
            intro b hb
            exact findGenerator_append b _ _ hb
      · rw [if_neg hg] at h
        simp only [Option.some.injEq, Prod.mk.injEq] at h
        obtain ⟨hs1, hev⟩ := h
        subst hs1
        refine ⟨⟨mac, offset, rfl, ho, hev.symm⟩, ?_, fun b hb => hb⟩
        cases hf : NetworkScheduler.findGenerator a s.m_downlinkPacket with
        | none => simp [hf] at hg
        | some g => rfl

theorem ScheduleClassBDownlink_spec (host : Host) (drawn : LoraDeviceAddress → Nat) (now : Time)
    (T : Nat) (a : LoraDeviceAddress) (members : List EndDeviceLoraMac) (mac : EndDeviceLoraMac)
    (hmac : members.head? = some mac) :
    ∀ (groups : List (LoraDeviceAddress × List EndDeviceLoraMac)) (s s2 : NetworkScheduler)
      (devs : List ServerScheduledEvent),
      NetworkScheduler.ScheduleClassBDownlink host drawn now T groups s = some (s2, devs) →
      ((∀ b, (NetworkScheduler.findGenerator b s.m_downlinkPacket).isSome →
          (NetworkScheduler.findGenerator b s2.m_downlinkPacket).isSome) ∧
        ((a, members) ∈ groups →
          ∃ offset, NetworkScheduler.GetPingOffset host T a mac.GetPingPeriod = some offset ∧
            ({ time := now + (offset : Int) * MilliSeconds 30,
               callee := SchedulerEvent.SendPingDownlink a true mac.GetPingPeriod
                 (mac.GetPingNb % 256) 0 } : ServerScheduledEvent) ∈ devs ∧
            (NetworkScheduler.findGenerator a s2.m_downlinkPacket).isSome)) := by
  intro groups
  induction groups with
  | nil =>
    intro s s2 devs h
    simp only [NetworkScheduler.ScheduleClassBDownlink, Option.some.injEq, Prod.mk.injEq] at h
    obtain ⟨rfl, rfl⟩ := h
    exact ⟨fun b hb => hb, fun hmem => by simp at hmem⟩
  | cons grp rest ih =>
    intro s s2 devs h
    obtain ⟨addr, mems⟩ := grp
    simp only [NetworkScheduler.ScheduleClassBDownlink] at h
    cases hg : NetworkScheduler.scheduleGroup host drawn now T s addr mems with
    | none => simp [hg] at h
    | some r1 =>
      obtain ⟨s1, ev⟩ := r1
      simp only [hg] at h
      cases hr : NetworkScheduler.ScheduleClassBDownlink host drawn now T rest s1 with
      | none => simp [hr] at h
      | some r2 =>
        obtain ⟨s3, evs⟩ := r2
        simp only [hr, Option.some.injEq, Prod.mk.injEq] at h
        obtain ⟨rfl, rfl⟩ := h
        obtain ⟨⟨mac1, offset, hhead, hoff, hev⟩, hself, hmono⟩ :=
          scheduleGroup_spec host drawn now T s s1 addr mems ev hg
        obtain ⟨hmono2, hrest⟩ := ih s1 s3 evs hr
        refine ⟨fun b hb => hmono2 b (hmono b hb), ?_⟩
        intro hmem
        rcases List.mem_cons.mp hmem with heq | hmem2
        · obtain ⟨rfl, rfl⟩ := Prod.mk.inj heq
          rw [hmac] at hhead
          obtain rfl := Option.some.inj hhead
          exact ⟨offset, hoff, by rw [hev]; exact List.mem_cons_self _ _, hmono2 _ hself⟩
        · obtain ⟨offset, h1, h2, h3⟩ := hrest hmem2
          exact ⟨offset, h1, List.mem_cons_of_mem _ h2, h3⟩

theorem SendPingDownlink_multicast (now : Time) (radio : RadioOutcome) (s : NetworkScheduler)
    (a : LoraDeviceAddress) (pingPeriod pingNb slotIndex : Nat)
    (hgen : (NetworkScheduler.findGenerator a s.m_downlinkPacket).isSome) :
    ∃ s1 cbs, NetworkScheduler.SendPingDownlink now radio s a true pingPeriod pingNb slotIndex =
        some (s1,
          (if (slotIndex + 1) % 256 < pingNb then
            [{ time := now + (pingPeriod : Int) * MilliSeconds 30,
               callee := SchedulerEvent.SendPingDownlink a true pingPeriod pingNb
                 ((slotIndex + 1) % 256) }]
           else []), cbs) ∧
      (NetworkScheduler.findGenerator a s1.m_downlinkPacket).isSome := by
  unfold NetworkScheduler.SendPingDownlink
  cases hf : NetworkScheduler.findGenerator a s.m_downlinkPacket with
  | none => simp [hf] at hgen
  | some g =>
    simp only [if_true]
    by_cases hsucc : radio.successfulGateways % 256 > 0
    · rw [if_pos hsucc]
      simp only []
      by_cases hnext : (slotIndex + 1) % 256 < pingNb
      · simp only [if_pos hnext]
        refine ⟨_, _, rfl, ?_⟩
        simp only [findGenerator_updateGenerator, hf, Option.isSome_some]
      · simp only [if_neg hnext]
        refine ⟨_, _, rfl, ?_⟩
        simp only [findGenerator_updateGenerator, hf, Option.isSome_some]
    · rw [if_neg hsucc]
      simp only []
      by_cases hnext : (slotIndex + 1) % 256 < pingNb
      · simp only [if_pos hnext]
        exact ⟨_, _, rfl, by rw [hf]; rfl⟩
      · simp only [if_neg hnext]
        exact ⟨_, _, rfl, by rw [hf]; rfl⟩

theorem pingChain_trace (radio : Time → Nat → RadioOutcome) (a : LoraDeviceAddress)
    (pingPeriod pingNb : Nat) (hnb : pingNb ≤ 255) :
    ∀ (r fuel : Nat) (now : Time) (slotIndex : Nat) (s : NetworkScheduler),
      slotIndex + r + 1 = pingNb → r + 1 ≤ fuel →
      (NetworkScheduler.findGenerator a s.m_downlinkPacket).isSome →
      ∃ s2, NetworkScheduler.pingChain radio a true pingPeriod pingNb fuel now slotIndex s =
        some ((List.range (r + 1)).map (fun (k : Nat) =>
          (now + (k : Int) * ((pingPeriod : Int) * MilliSeconds 30), slotIndex + k)), s2) := by
  intro r
  induction r with
  | zero =>
    intro fuel now slotIndex s hidx hfuel hgen
    obtain ⟨f, rfl⟩ : ∃ f, fuel = f + 1 := ⟨fuel - 1, by omega⟩
    obtain ⟨s1, cbs, hsend, _⟩ :=
      SendPingDownlink_multicast now (radio now slotIndex) s a pingPeriod pingNb slotIndex hgen
    have hlast : ¬ (slotIndex + 1) % 256 < pingNb := by
      rw [Nat.mod_eq_of_lt (by omega)]; omega
    rw [if_neg hlast] at hsend
    refine ⟨s1, ?_⟩
    have hr1 : List.range (0 + 1) = [0] := rfl
    simp [NetworkScheduler.pingChain, hsend, hr1]
  | succ r ih =>
    intro fuel now slotIndex s hidx hfuel hgen
    obtain ⟨f, rfl⟩ : ∃ f, fuel = f + 1 := ⟨fuel - 1, by omega⟩
    obtain ⟨s1, cbs, hsend, hgen1⟩ :=
      SendPingDownlink_multicast now (radio now slotIndex) s a pingPeriod pingNb slotIndex hgen
    have hmod : (slotIndex + 1) % 256 = slotIndex + 1 := Nat.mod_eq_of_lt (by omega)
    have hnext : (slotIndex + 1) % 256 < pingNb := by rw [hmod]; omega
    rw [if_pos hnext, hmod] at hsend
    obtain ⟨s2, hrec⟩ := ih f (now + (pingPeriod : Int) * MilliSeconds 30) (slotIndex + 1) s1
      (by omega) (by omega) hgen1
    refine ⟨s2, ?_⟩
    simp only [NetworkScheduler.pingChain, hsend, hrec]
    rw [List.range_succ_eq_map (r + 1), List.map_cons, List.map_map]
    simp only [Option.some.injEq, Prod.mk.injEq, and_true]
    refine congrArg₂ List.cons (by simp) ?_
    apply List.map_congr_left
    intro k _
    simp only [Function.comp, Nat.succ_eq_add_one, Prod.mk.injEq]
    constructor
    · push_cast; ring
    · omega

theorem table_bounds (p : Nat) (hp : p ≤ 7) :
    0 < 2 ^ (7 - p) ∧ 2 ^ (7 - p) ≤ 128 ∧ 0 < 2 ^ (5 + p) ∧ 2 ^ (5 + p) ≤ 4096 := by
  interval_cases p <;> decide

theorem randWord_mod_eq_spec (host : Host) (T a P : Nat) :
    randWord host T a % P = SlotOffsetFunction host T a P := by
  rw [randWord_eq_spec]; rfl

/-- C3: the device runs `StartBeaconReserved` and the server `BroadcastBeacon` at
the same instant `bT`; the device holds time stamp `T`, effective address `a` and
the parameters of a periodicity `p ≤ 7`, and the server schedules
`ScheduleClassBDownlink (T)` for a group with address `a` and the same parameters.
Then for every slot index `i < pingNb` the device schedules
`OpenPingSlotReceiveWindow (i)`, and the server chain invokes `SendPingDownlink`
with slot index `i`, at the same instant
`bT + 2.12 s + (offset + i * pingPeriod) * 0.03 s`. -/
theorem C3_device_and_server_slot_instants_agree
    (host : Host) (drawn : LoraDeviceAddress → Nat) (radio : Time → Nat → RadioOutcome)
    (bT rxWindow tS : Time) (T a p bcnTime : Nat) (phy : PhyState)
    (d0 d mac : EndDeviceLoraMac) (s sd s2 : NetworkScheduler)
    (groups : List (LoraDeviceAddress × List EndDeviceLoraMac))
    (members : List EndDeviceLoraMac) (devs : List ServerScheduledEvent)
    (hguard : d0.m_macState = MacState.MAC_BEACON_GUARD)
    (hres : d.m_macState = MacState.MAC_BEACON_RESERVED)
    (hbs : d.m_beaconState = BeaconState.BEACON_LOCKED ∨ d.m_beaconState = BeaconState.BEACONLESS)
    (hcls : d.m_deviceClass ≠ DeviceClass.CLASS_C) (hphy : phy ≠ PhyState.RX)
    (hvec : d.m_pingSlotInfo.pendingPingSlotEvents.length = 128)
    (hp : p ≤ 7) (hnb : d.GetPingNb = 2 ^ (7 - p)) (hpp : d.GetPingPeriod = 2 ^ (5 + p))
    (hT : T < 2 ^ 32) (hbcn : d.m_beaconInfo.deviceBcnTime = Seconds (T : Int))
    (ha : d.effectiveAddress = a)
    (hsrv : ({ time := tS, callee := SchedulerEvent.ScheduleClassBDownlink T } :
      ServerScheduledEvent) ∈ (NetworkScheduler.BroadcastBeacon bT true bcnTime s).2.1)
    (hgrp : (a, members) ∈ groups) (hmem : members.head? = some mac)
    (hmacnb : mac.GetPingNb = 2 ^ (7 - p)) (hmacpp : mac.GetPingPeriod = 2 ^ (5 + p))
    (hrun : NetworkScheduler.ScheduleClassBDownlink host drawn tS T groups sd = some (s2, devs)) :
    ∀ i, i < d.GetPingNb →
      (∃ d1 evs1 d2 evs cbs,
        d0.StartBeaconReserved bT rxWindow = some (d1, evs1) ∧
        ({ time := bT + MilliSeconds 2120, callee := MacEvent.EndBeaconReserved } :
          ScheduledEvent) ∈ evs1 ∧
        d.EndBeaconReserved host (bT + MilliSeconds 2120) phy = some (d2, evs, cbs) ∧
        ({ time := bT + MilliSeconds 2120 +
              ((SlotOffsetFunction host T a d.GetPingPeriod + i * d.GetPingPeriod : Nat) : Int)
                * MilliSeconds 30,
           callee := MacEvent.OpenPingSlotReceiveWindow i } : ScheduledEvent) ∈ evs) ∧
      (tS = bT + MilliSeconds 2120 ∧
        ∃ ev trace s3, ev ∈ devs ∧
          ev.callee = SchedulerEvent.SendPingDownlink a true d.GetPingPeriod d.GetPingNb 0 ∧
          NetworkScheduler.pingChain radio a true d.GetPingPeriod d.GetPingNb 256 ev.time 0 s2 =
            some (trace, s3) ∧
          (bT + MilliSeconds 2120 +
              ((SlotOffsetFunction host T a d.GetPingPeriod + i * d.GetPingPeriod : Nat) : Int)
                * MilliSeconds 30, i) ∈ trace) := by
  obtain ⟨hnb0, hnb128, hpp0, hpp4096⟩ := table_bounds p hp
  have hnbd : d.m_pingSlotInfo.pingNb = 2 ^ (7 - p) := hnb
  have hppd : d.m_pingSlotInfo.pingPeriod = 2 ^ (5 + p) := hpp
  rw [hnb, hpp]
  intro i hi
  have hoffset : SlotOffsetFunction host T a (2 ^ (5 + p)) < 2 ^ (5 + p) := Nat.mod_lt _ hpp0
  constructor
  · obtain ⟨d1, evs1, hstart, _, hend⟩ := StartBeaconReserved_schedules_end bT rxWindow d0 hguard
    obtain ⟨d2, cbs, hrunEnd, _, _⟩ := EndBeaconReserved_schedules_pings host
      (bT + MilliSeconds 2120) phy d hres hbs hcls hphy (by rw [hppd]; exact hpp0)
    rw [hbcn, getSecondsUInt32_Seconds T hT, ha, hppd, randWord_mod_eq_spec] at hrunEnd
    refine ⟨d1, evs1, d2, _, cbs, hstart, hend, hrunEnd, ?_⟩
    apply List.mem_append_left
    apply List.getElem?_mem
    rw [pingSlotLoop_getElem? _ _ _ _ i (by omega) (by omega),
      slotTime_eq _ _ i (by nlinarith) (by nlinarith)]
  · have htS : tS = bT + MilliSeconds 2120 :=
      (BroadcastBeacon_downlink_instant bT true bcnTime T s _ hsrv rfl).1
    obtain ⟨_, hgroup⟩ := ScheduleClassBDownlink_spec host drawn tS T a members mac hmem
      groups sd s2 devs hrun
    obtain ⟨offset, hoff, hev, hgen⟩ := hgroup hgrp
    rw [hmacpp, GetPingOffset_eq_spec host T a _ hT hpp0 (by omega)] at hoff
    obtain rfl := Option.some.inj hoff
    have hmod : 2 ^ (7 - p) % 256 = 2 ^ (7 - p) := Nat.mod_eq_of_lt (by omega)
    rw [hmacpp, hmacnb, hmod] at hev
    obtain ⟨s3, hchain⟩ := pingChain_trace radio a (2 ^ (5 + p)) (2 ^ (7 - p)) (by omega)
      (2 ^ (7 - p) - 1) 256
      (tS + ((SlotOffsetFunction host T a (2 ^ (5 + p)) : Nat) : Int) * MilliSeconds 30) 0 s2
      (by omega) (by omega) hgen
    refine ⟨htS, _, _, s3, hev, rfl, hchain, ?_⟩
    rw [List.mem_map]
    refine ⟨i, List.mem_range.mpr (by omega), ?_⟩
    rw [htS]
    simp only [Prod.mk.injEq, Nat.zero_add, and_true]
    push_cast
    ring

/-- C3 at the sample device and scheduler (periodicity 2, time stamp 1000), slot index 5. -/
theorem C3_device_and_server_slot_instants_agree_witness :
    5 < sampleClassBDevice.GetPingNb ∧
      (∃ d1 evs1 d2 evs cbs,
        sampleGuardDevice.StartBeaconReserved sampleBeaconInstant (MilliSeconds 33) =
          some (d1, evs1) ∧
        ({ time := sampleBeaconInstant + MilliSeconds 2120, callee := MacEvent.EndBeaconReserved } :
          ScheduledEvent) ∈ evs1 ∧
        sampleClassBDevice.EndBeaconReserved sampleHost (sampleBeaconInstant + MilliSeconds 2120)
          PhyState.SLEEP = some (d2, evs, cbs) ∧
        ({ time := sampleBeaconInstant + MilliSeconds 2120 +
              ((SlotOffsetFunction sampleHost 1000 2864434397 sampleClassBDevice.GetPingPeriod
                + 5 * sampleClassBDevice.GetPingPeriod : Nat) : Int) * MilliSeconds 30,
           callee := MacEvent.OpenPingSlotReceiveWindow 5 } : ScheduledEvent) ∈ evs) ∧
      (sampleBeaconInstant + MilliSeconds 2120 = sampleBeaconInstant + MilliSeconds 2120 ∧
        ∃ ev trace s3, ev ∈ sampleDownlink.2 ∧
          ev.callee = SchedulerEvent.SendPingDownlink 2864434397 true
            sampleClassBDevice.GetPingPeriod sampleClassBDevice.GetPingNb 0 ∧
          NetworkScheduler.pingChain sampleRadio 2864434397 true
            sampleClassBDevice.GetPingPeriod sampleClassBDevice.GetPingNb 256 ev.time 0
            sampleDownlink.1 = some (trace, s3) ∧
          (sampleBeaconInstant + MilliSeconds 2120 +
              ((SlotOffsetFunction sampleHost 1000 2864434397 sampleClassBDevice.GetPingPeriod
                + 5 * sampleClassBDevice.GetPingPeriod : Nat) : Int) * MilliSeconds 30, 5)
            ∈ trace) :=
  ⟨by decide, C3_device_and_server_slot_instants_agree sampleHost (fun _ => 10) sampleRadio
    sampleBeaconInstant (MilliSeconds 33) (sampleBeaconInstant + MilliSeconds 2120)
    1000 2864434397 2 1000 PhyState.SLEEP sampleGuardDevice sampleClassBDevice sampleClassBDevice
    sampleScheduler sampleSchedulerAfterBeacon sampleDownlink.1 sampleGroups
    [sampleClassBDevice, sampleClassBDevice] sampleDownlink.2
    (by decide) (by decide) (by decide) (by decide) (by decide)
    (by simp [sampleClassBDevice]) (by decide) (by decide) (by decide) (by decide)
    (by decide) (by decide) (by decide) (by decide) (by decide) (by decide) (by decide)
    (by decide) 5 (by decide)⟩

theorem seconds_128 : Seconds 128 = 128000000000 := by decide

theorem beaconIndexLoop_eq (now : Int) (_hnow : 0 ≤ now) :
    ∀ (fuel : Nat) (k : Int), 0 ≤ k → k ≤ now / 128000000000 + 1 →
      (now / 128000000000 + 1 - k).toNat < fuel →
      EndDeviceLoraMac.beaconIndexLoop now fuel k = now / 128000000000 + 1 := by
  intro fuel
  induction fuel with
  | zero => intro k _ _ hf; omega
  | succ f ih =>
    intro k hk0 hk hf
    unfold EndDeviceLoraMac.beaconIndexLoop
    simp only [Seconds]
    by_cases hle : (now : Int) ≥ k * 128 * 1000000000
    · rw [if_pos hle]
      exact ih (k + 1) (by omega) (by omega) (by omega)
    · rw [if_neg hle]
      omega

theorem firstBeaconIndex_eq (now : Int) (hnow : 0 ≤ now) :
    EndDeviceLoraMac.firstBeaconIndex now = now / 128000000000 + 1 := by
  unfold EndDeviceLoraMac.firstBeaconIndex
  rw [seconds_128]
  exact beaconIndexLoop_eq now hnow _ 0 (le_refl 0) (by omega) (by omega)

/-- C12: `SwitchToClassB` called when the device class is not A or the beacon state is
not Unlocked returns with the whole object state unchanged (device class, beacon
state, MAC mode, window durations, attempt counter) and schedules no event. -/
theorem C12_SwitchToClassB_refused (now : Time) (m : EndDeviceLoraMac)
    (h : m.m_deviceClass ≠ DeviceClass.CLASS_A ∨
      m.m_beaconState ≠ BeaconState.BEACON_UNLOCKED) :
    m.SwitchToClassB now = some (m, []) := by
  unfold EndDeviceLoraMac.SwitchToClassB
  rcases h with h | h
  · cases hc : m.m_deviceClass
    · exact absurd hc h
    · simp
    · simp
  · cases hc : m.m_deviceClass <;> simp [h]

/-- C12 at the sample Class B device, called at 500 s. -/
theorem C12_SwitchToClassB_refused_witness :
    sampleClassBDevice.SwitchToClassB (Seconds 500) = some (sampleClassBDevice, []) :=
  C12_SwitchToClassB_refused (Seconds 500) sampleClassBDevice (Or.inl (by decide))

theorem guard_delay_arith (now : Int) :
    ((now / 128000000000 + 1) * 128 * 1000000000 + 15 * 1000000 - 3 * 1000000000 - now < 0 ↔
      now % 128000000000 > 125015 * 1000000) := by
  omega

theorem nextBeaconGuard_eq (now : Time) (hnow : 0 ≤ now) :
    EndDeviceLoraMac.nextBeaconGuard now =
      Seconds ((now / Seconds 128 + 1) * 128) + MilliSeconds 15 - Seconds 3 - now := by
  unfold EndDeviceLoraMac.nextBeaconGuard
  rw [firstBeaconIndex_eq now hnow, seconds_128]
  rfl

theorem nextBeaconGuard_neg_iff (now : Time) (hnow : 0 ≤ now) :
    EndDeviceLoraMac.nextBeaconGuard now < 0 ↔ now % Seconds 128 > MilliSeconds 125015 := by
  rw [nextBeaconGuard_eq now hnow, seconds_128]
  exact guard_delay_arith now

theorem firstBeaconIndex_in_range (now : Time) (hnow : 0 ≤ now)
    (hrange : now < Seconds (2 ^ 31 - 128)) :
    ¬ (EndDeviceLoraMac.firstBeaconIndex now * 128 ≥ 2 ^ 31) := by
  rw [firstBeaconIndex_eq now hnow]
  have key : ∀ x : Int, 0 ≤ x → x < 2147483520000000000 →
      ¬ ((x / 128000000000 + 1) * 128 ≥ 2 ^ 31) := by
    intro x h1 h2; omega
  exact key now hnow (lt_of_lt_of_eq hrange (by decide))

theorem SwitchToClassB_asserts (now : Time) (m : EndDeviceLoraMac)
    (hnow : 0 ≤ now) (hrange : now < Seconds (2 ^ 31 - 128))
    (hcls : m.m_deviceClass = DeviceClass.CLASS_A)
    (hst : m.m_beaconState = BeaconState.BEACON_UNLOCKED)
    (hneg : EndDeviceLoraMac.nextBeaconGuard now < 0) :
    m.SwitchToClassB now = none := by
  unfold EndDeviceLoraMac.SwitchToClassB
  rw [if_neg (by simp [hcls]), if_neg (by simp [hcls]), if_neg (by simp [hst]),
    if_neg (firstBeaconIndex_in_range now hnow hrange), if_pos hneg]

theorem SwitchToClassB_accepted (now : Time) (m : EndDeviceLoraMac)
    (hnow : 0 ≤ now) (hrange : now < Seconds (2 ^ 31 - 128))
    (hguard : ¬ EndDeviceLoraMac.nextBeaconGuard now < 0)
    (hcls : m.m_deviceClass = DeviceClass.CLASS_A)
    (hst : m.m_beaconState = BeaconState.BEACON_UNLOCKED) :
    m.SwitchToClassB now =
      some ({ m with
              m_beaconState := BeaconState.BEACON_SEARCH
              m_classBReceiveWindowInfo := { m.m_classBReceiveWindowInfo with
                beaconReceiveWindowDurationInSymbols := 8
                pingReceiveWindowDurationInSymbols := 8 }
              m_attemptToClassB := (m.m_attemptToClassB + 1) % 2 ^ 32 },
            [{ time := Seconds (EndDeviceLoraMac.firstBeaconIndex now * 128) + MilliSeconds 15
                        - Seconds 3,
               callee := MacEvent.StartBeaconGuard }]) := by
  unfold EndDeviceLoraMac.SwitchToClassB
  rw [if_neg (by simp [hcls]), if_neg (by simp [hcls]), if_neg (by simp [hst]),
    if_neg (firstBeaconIndex_in_range now hnow hrange), if_neg hguard]
  simp only [EndDeviceLoraMac.nextBeaconGuard, BeaconInfo.tBeaconDelay, BeaconInfo.beaconGuard,
    Option.some.injEq, Prod.mk.injEq, true_and, List.cons.injEq, and_true,
    ScheduledEvent.mk.injEq]
  ring

/-- C14 (evaluation of the code): `BroadcastBeacon (true)` first called at 1 s schedules
its first broadcast for 129.015 s: the absolute instant `k * 128 s + 0.015 s` is
handed to `Simulator::Schedule` as a delay. A device calling `SwitchToClassB` at
1 s schedules its guard for 125.015 s, that is, expects the beacon at 128.015 s. -/
theorem C14_first_broadcast_instant_at_one_second :
    (NetworkScheduler.BroadcastBeacon (Seconds 1) true 0 {}).2.1 =
        [{ time := Seconds 129 + MilliSeconds 15, callee := SchedulerEvent.BroadcastBeacon true }] ∧
      (EndDeviceLoraMac.new.SwitchToClassB (Seconds 1)).map (fun r => r.2) =
        some [{ time := Seconds 128 + MilliSeconds 15 - Seconds 3,
                callee := MacEvent.StartBeaconGuard }] := by
  decide

theorem recordBroadcastOutcome_stamp (bcnTime : Nat) (s : NetworkScheduler)
    (hstamp : bcnTime ≠ 0) (hstamp32 : bcnTime < 2 ^ 32)
    (htotal : s.m_totalBeaconsBroadcasted + 1 < 2 ^ 32)
    (hcount : s.m_beaconStatus.continuousCount + 1 < 2 ^ 32) :
    (NetworkScheduler.recordBroadcastOutcome bcnTime s).1 =
      { s with
        m_lastBeaconTime := bcnTime
        m_totalBeaconsBroadcasted := s.m_totalBeaconsBroadcasted + 1
        m_beaconStatus :=
          { isSent := true
            continuousCount :=
              if s.m_beaconStatus.isSent then s.m_beaconStatus.continuousCount + 1 else 1 } } := by
  obtain ⟨en, tb, tbl, last, mx, sq, sz, ⟨cnt, sent⟩, dl⟩ := s
  simp only [] at hstamp32 htotal hcount
  have h1 : bcnTime % 2 ^ 32 = bcnTime := Nat.mod_eq_of_lt hstamp32
  have h2 : (tb + 1) % 2 ^ 32 = tb + 1 := Nat.mod_eq_of_lt htotal
  have h3 : (cnt + 1) % 2 ^ 32 = cnt + 1 := Nat.mod_eq_of_lt hcount
  unfold NetworkScheduler.recordBroadcastOutcome
  simp only [h1, h2, h3, if_neg hstamp]
  cases sent <;> simp

theorem recordBroadcastOutcome_blocked (s : NetworkScheduler)
    (hlast : s.m_lastBeaconTime + 128 < 2 ^ 32)
    (htotal : s.m_totalBeaconsBlocked + 1 < 2 ^ 32)
    (hcount : s.m_beaconStatus.continuousCount + 1 < 2 ^ 32) :
    (NetworkScheduler.recordBroadcastOutcome 0 s).1 =
      { s with
        m_lastBeaconTime := s.m_lastBeaconTime + 128
        m_totalBeaconsBlocked := s.m_totalBeaconsBlocked + 1
        m_beaconStatus :=
          { isSent := false
            continuousCount :=
              if s.m_beaconStatus.isSent then 1 else s.m_beaconStatus.continuousCount + 1 } } := by
  obtain ⟨en, tb, tbl, last, mx, sq, sz, ⟨cnt, sent⟩, dl⟩ := s
  simp only [] at hlast htotal hcount
  have h1 : (last + 128) % 2 ^ 32 = last + 128 := Nat.mod_eq_of_lt hlast
  have h2 : (tbl + 1) % 2 ^ 32 = tbl + 1 := Nat.mod_eq_of_lt htotal
  have h3 : (cnt + 1) % 2 ^ 32 = cnt + 1 := Nat.mod_eq_of_lt hcount
  unfold NetworkScheduler.recordBroadcastOutcome
  simp only [h1, h2, h3, Nat.zero_mod, if_true]
  cases sent
  · simp only [Bool.false_eq_true, if_false]
    split <;> rfl
  · simp

theorem BroadcastBeacon_enabled_state (now : Time) (bcnTime : Nat) (s : NetworkScheduler)
    (hen : s.m_beaconBroadcastEnabled = true) :
    (NetworkScheduler.BroadcastBeacon now true bcnTime s).1 =
      (NetworkScheduler.recordBroadcastOutcome bcnTime s).1 := by
  unfold NetworkScheduler.BroadcastBeacon
  simp only [hen, Bool.true_eq_false, false_and, if_false, and_self, if_true]
  split <;> rfl

theorem BroadcastBeacon_enabled_events (now : Time) (bcnTime : Nat) (s : NetworkScheduler)
    (hen : s.m_beaconBroadcastEnabled = true) :
    (NetworkScheduler.BroadcastBeacon now true bcnTime s).2.1 =
      if (NetworkScheduler.recordBroadcastOutcome bcnTime s).1.m_beaconStatus.isSent = true ∨
          NetworkScheduler.skippedWithinBeaconless
            (NetworkScheduler.recordBroadcastOutcome bcnTime s).1.m_beaconStatus.continuousCount
      then
        [{ time := now + Seconds 128, callee := SchedulerEvent.BroadcastBeacon true },
         { time := now + MilliSeconds 2120,
           callee := SchedulerEvent.ScheduleClassBDownlink
             (NetworkScheduler.recordBroadcastOutcome bcnTime s).1.m_lastBeaconTime }]
      else [{ time := now + Seconds 128, callee := SchedulerEvent.BroadcastBeacon true }] := by
  unfold NetworkScheduler.BroadcastBeacon
  simp only [hen, Bool.true_eq_false, false_and, if_false, and_self, if_true]
  split <;> rfl

/-- The server's integer comparison `(c + 1) * 128 < 7200` is `c ≤ 55` for a
count below `2 ^ 32 - 1`. -/
theorem skippedWithinBeaconless_iff (c : Nat) (hc : c + 1 < 2 ^ 32) :
    NetworkScheduler.skippedWithinBeaconless c ↔ c ≤ 55 := by
  unfold NetworkScheduler.skippedWithinBeaconless
    BeaconRelatedConstants.beaconWindowSeconds
    BeaconRelatedConstants.minimalBeaconLessOperationModeSeconds
  rw [Nat.mod_eq_of_lt hc]
  omega

/-- C15: an enabled `BroadcastBeacon` invocation that obtains a non-zero time stamp adds
1 to `TotalBeaconsBroadcasted`, leaves `TotalBeaconsBlocked`, records the stamp
as beacon time, ends with the run tracker in the sending state (count 1 if it
was skipping, count + 1 otherwise), and schedules exactly the next
`BroadcastBeacon` 128 s later and one `ScheduleClassBDownlink (stamp)` 2.12 s
later. -/
theorem C15_broadcast_with_stamp (now : Time) (bcnTime : Nat) (s : NetworkScheduler)
    (hen : s.m_beaconBroadcastEnabled = true)
    (hstamp : bcnTime ≠ 0) (hstamp32 : bcnTime < 2 ^ 32)
    (htotal : s.m_totalBeaconsBroadcasted + 1 < 2 ^ 32)
    (hcount : s.m_beaconStatus.continuousCount + 1 < 2 ^ 32) :
    (NetworkScheduler.BroadcastBeacon now true bcnTime s).1.m_totalBeaconsBroadcasted =
        s.m_totalBeaconsBroadcasted + 1 ∧
      (NetworkScheduler.BroadcastBeacon now true bcnTime s).1.m_totalBeaconsBlocked =
        s.m_totalBeaconsBlocked ∧
      (NetworkScheduler.BroadcastBeacon now true bcnTime s).1.m_lastBeaconTime = bcnTime ∧
      (NetworkScheduler.BroadcastBeacon now true bcnTime s).1.m_beaconStatus.isSent = true ∧
      (NetworkScheduler.BroadcastBeacon now true bcnTime s).1.m_beaconStatus.continuousCount =
        (if s.m_beaconStatus.isSent then s.m_beaconStatus.continuousCount + 1 else 1) ∧
      (NetworkScheduler.BroadcastBeacon now true bcnTime s).2.1 =
        [{ time := now + Seconds 128, callee := SchedulerEvent.BroadcastBeacon true },
         { time := now + MilliSeconds 2120,
           callee := SchedulerEvent.ScheduleClassBDownlink bcnTime }] := by
  have hr := recordBroadcastOutcome_stamp bcnTime s hstamp hstamp32 htotal hcount
  rw [BroadcastBeacon_enabled_events now bcnTime s hen,
    BroadcastBeacon_enabled_state now bcnTime s hen, hr]
  simp

/-- C15 at the sample scheduler (sending, count 6) and time stamp 1152. -/
theorem C15_broadcast_with_stamp_witness :
    (NetworkScheduler.BroadcastBeacon sampleBeaconInstant true 1152
        sampleScheduler).1.m_totalBeaconsBroadcasted =
        sampleScheduler.m_totalBeaconsBroadcasted + 1 ∧
      (NetworkScheduler.BroadcastBeacon sampleBeaconInstant true 1152
        sampleScheduler).1.m_beaconStatus.continuousCount =
        (if sampleScheduler.m_beaconStatus.isSent
          then sampleScheduler.m_beaconStatus.continuousCount + 1 else 1) ∧
      (NetworkScheduler.BroadcastBeacon sampleBeaconInstant true 1152 sampleScheduler).2.1 =
        [{ time := sampleBeaconInstant + Seconds 128,
           callee := SchedulerEvent.BroadcastBeacon true },
         { time := sampleBeaconInstant + MilliSeconds 2120,
           callee := SchedulerEvent.ScheduleClassBDownlink 1152 }] :=
  have h := C15_broadcast_with_stamp sampleBeaconInstant 1152 sampleScheduler
    (by decide) (by decide) (by decide) (by decide) (by decide)
  ⟨h.1, h.2.2.2.2.1, h.2.2.2.2.2⟩

/-- C16: an enabled `BroadcastBeacon` invocation that obtains time stamp 0 adds 128 to the
recorded beacon time and 1 to `TotalBeaconsBlocked`, leaves
`TotalBeaconsBroadcasted`, ends with the run tracker in the skipping state
(count 1 if it was sending, count + 1 otherwise), schedules the next
`BroadcastBeacon` 128 s later, and schedules `ScheduleClassBDownlink` 2.12 s
later if and only if the updated count `c` satisfies `c + 1 < 7200 / 128`, that
is `c ≤ 55`. -/
theorem C16_broadcast_blocked (now : Time) (s : NetworkScheduler)
    (hen : s.m_beaconBroadcastEnabled = true)
    (hlast : s.m_lastBeaconTime + 128 < 2 ^ 32)
    (htotal : s.m_totalBeaconsBlocked + 1 < 2 ^ 32)
    (hcount : s.m_beaconStatus.continuousCount + 2 < 2 ^ 32) :
    (NetworkScheduler.BroadcastBeacon now true 0 s).1.m_lastBeaconTime =
        s.m_lastBeaconTime + 128 ∧
      (NetworkScheduler.BroadcastBeacon now true 0 s).1.m_totalBeaconsBlocked =
        s.m_totalBeaconsBlocked + 1 ∧
      (NetworkScheduler.BroadcastBeacon now true 0 s).1.m_totalBeaconsBroadcasted =
        s.m_totalBeaconsBroadcasted ∧
      (NetworkScheduler.BroadcastBeacon now true 0 s).1.m_beaconStatus.isSent = false ∧
      (NetworkScheduler.BroadcastBeacon now true 0 s).1.m_beaconStatus.continuousCount =
        (if s.m_beaconStatus.isSent then 1 else s.m_beaconStatus.continuousCount + 1) ∧
      (NetworkScheduler.BroadcastBeacon now true 0 s).2.1 =
        (if (NetworkScheduler.BroadcastBeacon now true 0 s).1.m_beaconStatus.continuousCount ≤ 55
         then
          [{ time := now + Seconds 128, callee := SchedulerEvent.BroadcastBeacon true },
           { time := now + MilliSeconds 2120,
             callee := SchedulerEvent.ScheduleClassBDownlink (s.m_lastBeaconTime + 128) }]
         else
          [{ time := now + Seconds 128, callee := SchedulerEvent.BroadcastBeacon true }]) ∧
      ((NetworkScheduler.BroadcastBeacon now true 0 s).1.m_beaconStatus.continuousCount ≤ 55 ↔
        (((NetworkScheduler.BroadcastBeacon now true 0 s).1.m_beaconStatus.continuousCount : ℚ)
          + 1 < 7200 / 128)) := by
  have hr := recordBroadcastOutcome_blocked s hlast htotal (by omega)
  have hq : ∀ c : Nat, c ≤ 55 ↔ ((c : ℚ) + 1 < 7200 / 128) := by
    intro c
    constructor
    · intro h
      have : (c : ℚ) ≤ 55 := by exact_mod_cast h
      linarith
    · intro h
      have h5 : (c : ℚ) < 56 := by linarith
      have h6 : c < 56 := by exact_mod_cast h5
      omega
  have hc : (if s.m_beaconStatus.isSent = true then 1 else s.m_beaconStatus.continuousCount + 1)
      + 1 < 2 ^ 32 := by
    split <;> omega
  refine ⟨?_, ?_, ?_, ?_, ?_, ?_, hq _⟩
  · rw [BroadcastBeacon_enabled_state now 0 s hen, hr]
  · rw [BroadcastBeacon_enabled_state now 0 s hen, hr]
  · rw [BroadcastBeacon_enabled_state now 0 s hen, hr]
  · rw [BroadcastBeacon_enabled_state now 0 s hen, hr]
  · rw [BroadcastBeacon_enabled_state now 0 s hen, hr]
  · rw [BroadcastBeacon_enabled_events now 0 s hen,
      BroadcastBeacon_enabled_state now 0 s hen, hr]
    simp only [Bool.false_eq_true, false_or]
    simp only [skippedWithinBeaconless_iff _ hc]

/-- C16 at the sample scheduler that has skipped 54 beacons in a row. -/
theorem C16_broadcast_blocked_witness :
    (NetworkScheduler.BroadcastBeacon sampleBeaconInstant true 0
        sampleSkippingScheduler).1.m_beaconStatus.continuousCount =
        (if sampleSkippingScheduler.m_beaconStatus.isSent then 1
          else sampleSkippingScheduler.m_beaconStatus.continuousCount + 1) ∧
      (NetworkScheduler.BroadcastBeacon sampleBeaconInstant true 0
        sampleSkippingScheduler).2.1 =
        (if (NetworkScheduler.BroadcastBeacon sampleBeaconInstant true 0
            sampleSkippingScheduler).1.m_beaconStatus.continuousCount ≤ 55
         then
          [{ time := sampleBeaconInstant + Seconds 128,
             callee := SchedulerEvent.BroadcastBeacon true },
           { time := sampleBeaconInstant + MilliSeconds 2120,
             callee := SchedulerEvent.ScheduleClassBDownlink
               (sampleSkippingScheduler.m_lastBeaconTime + 128) }]
         else
          [{ time := sampleBeaconInstant + Seconds 128,
             callee := SchedulerEvent.BroadcastBeacon true }]) :=
  have h := C16_broadcast_blocked sampleBeaconInstant sampleSkippingScheduler
    (by decide) (by decide) (by decide) (by decide)
  ⟨h.2.2.2.2.1, h.2.2.2.2.2.1⟩

/-- The result of `SetMacState` as a function of the current mode. -/
theorem SetMacState_table (m : EndDeviceLoraMac) (cur target : MacState)
    (hcur : m.m_macState = cur) :
    m.SetMacState target =
      if allowedTransition cur target = true then { m with m_macState := target } else m := by
  unfold EndDeviceLoraMac.SetMacState
  rw [hcur]
  cases cur <;> cases target <;> simp [allowedTransition]

/-- The result of `StartBeaconGuard` as a function of the class and the current mode. -/
theorem StartBeaconGuard_table (now : Time) (m : EndDeviceLoraMac) (c : DeviceClass)
    (cur : MacState) (hclass : m.m_deviceClass = c) (hcur : m.m_macState = cur)
    (hc : c ≠ DeviceClass.CLASS_C) :
    match guardEntry c cur with
    | some target =>
      (m.StartBeaconGuard now).1.m_macState = target ∧
        (m.StartBeaconGuard now).2 =
          [{ time := now + Seconds 3, callee := MacEvent.EndBeaconGuard }]
    | none => m.StartBeaconGuard now = (m, []) := by
  cases c <;> cases cur <;>
    simp [guardEntry, EndDeviceLoraMac.StartBeaconGuard, EndDeviceLoraMac.SetMacState, hclass,
      hcur, BeaconInfo.beaconGuard] at hc ⊢

/-- C17: for a device of class A or B, `StartBeaconGuard` maps the MAC mode as the table
`guardEntry` says (class A: Idle to BeaconGuard; class B: Idle to BeaconGuard,
Rx1 and Rx2 to RxDuringBeaconGuard, PingSlot to PingSlotDuringBeaconGuard) and
in exactly these cases schedules `EndBeaconGuard` 3.0 s later; for every other
pair of class and mode the state is unchanged and nothing is scheduled. -/
theorem C17_StartBeaconGuard_mode_map (now : Time) (m : EndDeviceLoraMac)
    (hc : m.m_deviceClass ≠ DeviceClass.CLASS_C) :
    match guardEntry m.m_deviceClass m.m_macState with
    | some target =>
      (m.StartBeaconGuard now).1.m_macState = target ∧
        (m.StartBeaconGuard now).2 =
          [{ time := now + Seconds 3, callee := MacEvent.EndBeaconGuard }]
    | none => m.StartBeaconGuard now = (m, []) :=
  StartBeaconGuard_table now m m.m_deviceClass m.m_macState rfl rfl hc

/-- C17 at the sample Class B device in a ping slot, 125 s into a beacon period. -/
theorem C17_StartBeaconGuard_mode_map_witness :
    samplePingSlotDevice.m_deviceClass ≠ DeviceClass.CLASS_C ∧
      (samplePingSlotDevice.StartBeaconGuard (Seconds 1277 + MilliSeconds 15)).1.m_macState =
        MacState.MAC_PING_SLOT_BEACON_GUARD ∧
      (samplePingSlotDevice.StartBeaconGuard (Seconds 1277 + MilliSeconds 15)).2 =
        [{ time := Seconds 1277 + MilliSeconds 15 + Seconds 3,
           callee := MacEvent.EndBeaconGuard }] :=
  ⟨by decide,
    C17_StartBeaconGuard_mode_map (Seconds 1277 + MilliSeconds 15) samplePingSlotDevice
      (by decide)⟩

/-- C18: `SetMacState (target)` sets the mode to `target` exactly when the pair of the
current mode and `target` is in the transition table `allowedTransition`; any
other request leaves the whole state, hence the mode, unchanged. -/
theorem C18_SetMacState_transition_table (m : EndDeviceLoraMac) (target : MacState) :
    m.SetMacState target =
      if allowedTransition m.m_macState target = true then { m with m_macState := target }
      else m :=
  SetMacState_table m m.m_macState target rfl

/-- C19: `OpenPingSlotReceiveWindow` returns the state unchanged, schedules nothing and
sends nothing when the radio is receiving, or the beacon state is neither
Locked nor Beaconless, or the class is not B, or the MAC mode is not Idle; in
every other case the MAC mode becomes PingSlot. -/
theorem C19_OpenPingSlotReceiveWindow_guards (now : Time) (phy : PhyState) (rxWindow : Time)
    (slotIndex : Nat) (m : EndDeviceLoraMac) :
    ((phy = PhyState.RX ∨
        ¬ (m.m_beaconState = BeaconState.BEACON_LOCKED ∨
            m.m_beaconState = BeaconState.BEACONLESS) ∨
        m.m_deviceClass ≠ DeviceClass.CLASS_B ∨ m.m_macState ≠ MacState.MAC_IDLE) →
      m.OpenPingSlotReceiveWindow now phy rxWindow slotIndex = (m, [], [])) ∧
    (¬ (phy = PhyState.RX ∨
        ¬ (m.m_beaconState = BeaconState.BEACON_LOCKED ∨
            m.m_beaconState = BeaconState.BEACONLESS) ∨
        m.m_deviceClass ≠ DeviceClass.CLASS_B ∨ m.m_macState ≠ MacState.MAC_IDLE) →
      (m.OpenPingSlotReceiveWindow now phy rxWindow slotIndex).1.m_macState =
        MacState.MAC_PING_SLOT) := by
  constructor
  · intro h
    unfold EndDeviceLoraMac.OpenPingSlotReceiveWindow
    by_cases h1 : phy = PhyState.RX
    · simp [h1]
    · by_cases h2 : m.m_beaconState = BeaconState.BEACONLESS ∨
          m.m_beaconState = BeaconState.BEACON_LOCKED
      · by_cases h3 : m.m_deviceClass = DeviceClass.CLASS_B
        · have h4 : ¬ m.m_macState = MacState.MAC_IDLE := by
            rcases h with h | h | h | h
            · exact absurd h h1
            · exact absurd (Or.symm h2) h
            · exact absurd h3 h
            · exact h
          simp [h1, h2, h3, h4]
        · simp [h1, h2, h3]
      · simp [h1, h2]
  · intro h
    have h1 : ¬ phy = PhyState.RX := fun e => h (Or.inl e)
    have h2 : m.m_beaconState = BeaconState.BEACONLESS ∨
        m.m_beaconState = BeaconState.BEACON_LOCKED := by
      by_contra e
      exact h (Or.inr (Or.inl (fun e2 => e (Or.symm e2))))
    have h3 : m.m_deviceClass = DeviceClass.CLASS_B := by
      by_contra e
      exact h (Or.inr (Or.inr (Or.inl e)))
    have h4 : m.m_macState = MacState.MAC_IDLE := by
      by_contra e
      exact h (Or.inr (Or.inr (Or.inr e)))
    unfold EndDeviceLoraMac.OpenPingSlotReceiveWindow
    simp only [h1, h2, h3, h4, not_true_eq_false, if_false]
    split <;> simp [EndDeviceLoraMac.SetMacState, h4]

/-- C19 at the sample idle Class B device: with the radio receiving the call changes
nothing; with the radio in standby the mode becomes PingSlot. -/
theorem C19_OpenPingSlotReceiveWindow_guards_witness :
    sampleIdleClassBDevice.OpenPingSlotReceiveWindow (Seconds 1160) PhyState.RX
        (MilliSeconds 8) 5 = (sampleIdleClassBDevice, [], []) ∧
      (sampleIdleClassBDevice.OpenPingSlotReceiveWindow (Seconds 1160) PhyState.STANDBY
        (MilliSeconds 8) 5).1.m_macState = MacState.MAC_PING_SLOT :=
  ⟨(C19_OpenPingSlotReceiveWindow_guards (Seconds 1160) PhyState.RX (MilliSeconds 8) 5
      sampleIdleClassBDevice).1 (Or.inl rfl),
    (C19_OpenPingSlotReceiveWindow_guards (Seconds 1160) PhyState.STANDBY (MilliSeconds 8) 5
      sampleIdleClassBDevice).2 (by decide)⟩

theorem EndBeaconReserved_unlocked (host : Host) (now : Time) (phy : PhyState)
    (d : EndDeviceLoraMac) (hres : d.m_macState = MacState.MAC_BEACON_RESERVED)
    (hbs : d.m_beaconState = BeaconState.BEACON_UNLOCKED) :
    d.EndBeaconReserved host now phy =
      some ({ d with m_macState := MacState.MAC_IDLE }, [], []) := by
  simp [EndDeviceLoraMac.EndBeaconReserved, EndDeviceLoraMac.SetMacState, hres, hbs]

theorem EndBeaconReserved_runs_SchedulePingSlots (host : Host) (now : Time) (phy : PhyState)
    (d : EndDeviceLoraMac)
    (hres : d.m_macState = MacState.MAC_BEACON_RESERVED)
    (hbs : d.m_beaconState = BeaconState.BEACON_LOCKED ∨ d.m_beaconState = BeaconState.BEACONLESS)
    (hcls : d.m_deviceClass ≠ DeviceClass.CLASS_C) (hphy : phy ≠ PhyState.RX)
    (hP : d.m_pingSlotInfo.pingPeriod ≠ 0) :
    match d.SchedulePingSlots host now, d.EndBeaconReserved host now phy with
    | some (dS, pings), some (d2, evs, _) =>
      evs = pings ++
          [{ time := now + MilliSeconds 122880, callee := MacEvent.StartBeaconGuard }] ∧
        d2.m_deviceClass = DeviceClass.CLASS_B ∧ d2.m_macState = MacState.MAC_IDLE ∧
        d2.m_beaconState = d.m_beaconState ∧ d2.m_pingSlotInfo = dS.m_pingSlotInfo
    | _, _ => False := by
  have hidle : d.SetMacState MacState.MAC_IDLE = { d with m_macState := MacState.MAC_IDLE } := by
    simp [EndDeviceLoraMac.SetMacState, hres]
  unfold EndDeviceLoraMac.EndBeaconReserved
  rw [if_neg (by simp [hres]), hidle]
  simp only []
  rcases hbs with hb | hb
  · rw [if_neg (by simp [hb]), if_pos (Or.inl hb), if_neg hphy]
    by_cases hmax : d.m_currentConsecutiveBeaconsMissed > d.m_maximumConsecutiveBeaconsMissed <;>
      cases hc : d.m_deviceClass <;>
      first
      | exact absurd hc hcls
      | simp [hb, hc, hmax, EndDeviceLoraMac.SchedulePingSlots, hP,
          EndDeviceLoraMac.effectiveAddress, EndDeviceLoraMac.IsMulticastEnabled,
          BeaconInfo.beaconWindow]
  · rw [if_neg (by simp [hb]), if_pos (Or.inr hb), if_neg hphy]
    cases hc : d.m_deviceClass <;>
      first
      | exact absurd hc hcls
      | simp [hb, hc, EndDeviceLoraMac.SchedulePingSlots, hP,
          EndDeviceLoraMac.effectiveAddress, EndDeviceLoraMac.IsMulticastEnabled,
          BeaconInfo.beaconWindow]

theorem guard_cycle_stages (g rxWindow : Time) (m0 : EndDeviceLoraMac) (c : DeviceClass)
    (cur : MacState) (hclass : m0.m_deviceClass = c) (hcur : m0.m_macState = cur)
    (hc : c ≠ DeviceClass.CLASS_C)
    (hentry : guardEntry c cur = some MacState.MAC_BEACON_GUARD) :
    (m0.StartBeaconGuard g).2 =
        [{ time := g + Seconds 3, callee := MacEvent.EndBeaconGuard }] ∧
      ((m0.StartBeaconGuard g).1.EndBeaconGuard (g + Seconds 3)).2 =
        [{ time := g + Seconds 3 + Seconds 0, callee := MacEvent.StartBeaconReserved }] ∧
      (((m0.StartBeaconGuard g).1.EndBeaconGuard (g + Seconds 3)).1.StartBeaconReserved
          (g + Seconds 3 + Seconds 0) rxWindow).map (fun r => r.2) =
        some [{ time := g + Seconds 3 + Seconds 0 + rxWindow,
                callee := MacEvent.CloseBeaconReceiveWindow },
              { time := g + Seconds 3 + Seconds 0 + MilliSeconds 2120,
                callee := MacEvent.EndBeaconReserved }] ∧
      (((m0.StartBeaconGuard g).1.EndBeaconGuard (g + Seconds 3)).1.StartBeaconReserved
          (g + Seconds 3 + Seconds 0) rxWindow).map (fun r => r.1.m_macState) =
        some MacState.MAC_BEACON_RESERVED := by
  cases c <;> cases cur <;>
    simp [guardEntry] at hc hentry <;>
    simp [EndDeviceLoraMac.StartBeaconGuard, EndDeviceLoraMac.EndBeaconGuard,
      EndDeviceLoraMac.StartBeaconReserved, EndDeviceLoraMac.SetMacState, hclass, hcur,
      BeaconInfo.beaconGuard, BeaconInfo.beaconReserved]

/-- C20: `EndBeaconReserved` run in mode BeaconReserved: with beacon state Unlocked it
only sets the mode to Idle and schedules nothing; with beacon state Locked or
Beaconless, the radio not receiving, a class other than C and a non-zero ping
period, it returns with the mode Idle and the class B, its events are those of
`SchedulePingSlots` followed by `StartBeaconGuard` 122.88 s later, and its
ping-slot record is the one `SchedulePingSlots` leaves. A guard started at `g`
from an idle MAC leads through `EndBeaconGuard` at `g + 3 s` and
`StartBeaconReserved` at the same instant to `EndBeaconReserved` at
`g + 3 s + 2.12 s`, so the next guard starts at `g + 128 s`. -/
theorem C20_EndBeaconReserved_cycle (host : Host) (now : Time) (phy : PhyState)
    (d : EndDeviceLoraMac) (hres : d.m_macState = MacState.MAC_BEACON_RESERVED) :
    (d.m_beaconState = BeaconState.BEACON_UNLOCKED →
      d.EndBeaconReserved host now phy =
        some ({ d with m_macState := MacState.MAC_IDLE }, [], [])) ∧
    ((d.m_beaconState = BeaconState.BEACON_LOCKED ∨ d.m_beaconState = BeaconState.BEACONLESS) →
      phy ≠ PhyState.RX → d.m_deviceClass ≠ DeviceClass.CLASS_C →
      d.m_pingSlotInfo.pingPeriod ≠ 0 →
      match d.SchedulePingSlots host now, d.EndBeaconReserved host now phy with
      | some (dS, pings), some (d2, evs, _) =>
        evs = pings ++
            [{ time := now + MilliSeconds 122880, callee := MacEvent.StartBeaconGuard }] ∧
          d2.m_deviceClass = DeviceClass.CLASS_B ∧ d2.m_macState = MacState.MAC_IDLE ∧
          d2.m_beaconState = d.m_beaconState ∧ d2.m_pingSlotInfo = dS.m_pingSlotInfo
      | _, _ => False) ∧
    (∀ (g rxWindow : Time) (m0 : EndDeviceLoraMac),
      m0.m_deviceClass ≠ DeviceClass.CLASS_C →
      guardEntry m0.m_deviceClass m0.m_macState = some MacState.MAC_BEACON_GUARD →
      (m0.StartBeaconGuard g).2 =
          [{ time := g + Seconds 3, callee := MacEvent.EndBeaconGuard }] ∧
        ((m0.StartBeaconGuard g).1.EndBeaconGuard (g + Seconds 3)).2 =
          [{ time := g + Seconds 3 + Seconds 0, callee := MacEvent.StartBeaconReserved }] ∧
        (((m0.StartBeaconGuard g).1.EndBeaconGuard (g + Seconds 3)).1.StartBeaconReserved
            (g + Seconds 3 + Seconds 0) rxWindow).map (fun r => r.2) =
          some [{ time := g + Seconds 3 + Seconds 0 + rxWindow,
                  callee := MacEvent.CloseBeaconReceiveWindow },
                { time := g + Seconds 3 + Seconds 0 + MilliSeconds 2120,
                  callee := MacEvent.EndBeaconReserved }] ∧
        (((m0.StartBeaconGuard g).1.EndBeaconGuard (g + Seconds 3)).1.StartBeaconReserved
            (g + Seconds 3 + Seconds 0) rxWindow).map (fun r => r.1.m_macState) =
          some MacState.MAC_BEACON_RESERVED ∧
        (now = g + Seconds 3 + Seconds 0 + MilliSeconds 2120 →
          now + MilliSeconds 122880 = g + Seconds 128)) ∧
    BeaconInfo.beaconGuard + BeaconInfo.beaconReserved + BeaconInfo.beaconWindow =
      BeaconInfo.beaconPeriod := by
  refine ⟨EndBeaconReserved_unlocked host now phy d hres,
    fun hbs hphy hcls hP =>
      EndBeaconReserved_runs_SchedulePingSlots host now phy d hres hbs hcls hphy hP,
    ?_, by decide⟩
  intro g rxWindow m0 hc hentry
  obtain ⟨h1, h2, h3, h4⟩ := guard_cycle_stages g rxWindow m0 _ _ rfl rfl hc hentry
  refine ⟨h1, h2, h3, h4, ?_⟩
  intro hnow
  rw [hnow]
  show ((g : Int) + Seconds 3 + Seconds 0 + MilliSeconds 2120 + MilliSeconds 122880 : Int) =
    g + Seconds 128
  simp only [Seconds, MilliSeconds]
  ring

/-- C20 at the sample Class B device (beacon locked, ping period 128) at the end of
the beacon-reserved interval of the beacon at 1152.015 s. -/
theorem C20_EndBeaconReserved_cycle_witness :
    sampleClassBDevice.m_macState = MacState.MAC_BEACON_RESERVED ∧
      (match sampleClassBDevice.SchedulePingSlots sampleHost
          (sampleBeaconInstant + MilliSeconds 2120),
        sampleClassBDevice.EndBeaconReserved sampleHost
          (sampleBeaconInstant + MilliSeconds 2120) PhyState.STANDBY with
      | some (dS, pings), some (d2, evs, _) =>
        evs = pings ++
            [{ time := sampleBeaconInstant + MilliSeconds 2120 + MilliSeconds 122880,
               callee := MacEvent.StartBeaconGuard }] ∧
          d2.m_deviceClass = DeviceClass.CLASS_B ∧ d2.m_macState = MacState.MAC_IDLE ∧
          d2.m_beaconState = sampleClassBDevice.m_beaconState ∧
          d2.m_pingSlotInfo = dS.m_pingSlotInfo
      | _, _ => False) :=
  ⟨by decide,
    (C20_EndBeaconReserved_cycle sampleHost (sampleBeaconInstant + MilliSeconds 2120)
      PhyState.STANDBY sampleClassBDevice (by decide)).2.1
      (Or.inl (by decide)) (by decide) (by decide) (by decide)⟩

theorem missesInRow_append (a b : List Time) :
    ∀ m : EndDeviceLoraMac, missesInRow m (a ++ b) = missesInRow (missesInRow m a) b := by
  induction a with
  | nil => intro m; rfl
  | cons t rest ih => intro m; simp only [List.cons_append, missesInRow]; exact ih _

theorem window_within_tolerance (G bT t : Int) (j : Nat) (hG1 : bT < G + 1000000000)
    (hj : j ≤ 59) (h2 : t ≤ bT + 128 * (j : Int) * 1000000000 + 2120 * 1000000) :
    t - G ≤ 128 * 60000000000 := by
  omega

theorem window_beyond_tolerance (G bT t : Int) (j : Nat) (hG : G ≤ bT)
    (hj : 60 ≤ j) (h1 : bT + 128 * (j : Int) * 1000000000 < t) :
    t - G > 128 * 60000000000 := by
  omega

theorem detectedInReservedWindows_getElem (bT : Time) :
    ∀ (ts : List Time) (j i : Nat) (hi : i < ts.length),
      detectedInReservedWindows bT j ts = true →
      bT + Seconds (128 * ((j + i : Nat) : Int)) < ts[i] ∧
        ts[i] ≤ bT + Seconds (128 * ((j + i : Nat) : Int)) + MilliSeconds 2120 := by
  intro ts
  induction ts with
  | nil => intro j i hi; simp at hi
  | cons t rest ih =>
    intro j i hi h
    simp only [detectedInReservedWindows, Bool.and_eq_true, decide_eq_true_eq] at h
    cases i with
    | zero => simpa using h.1
    | succ k =>
      have := ih (j + 1) k (by simpa using hi) h.2
      simpa [Nat.add_assoc, Nat.add_comm 1 k] using this

theorem detectedInReservedWindows_take (bT : Time) :
    ∀ (ts : List Time) (j n : Nat), detectedInReservedWindows bT j ts = true →
      detectedInReservedWindows bT j (ts.take n) = true := by
  intro ts
  induction ts with
  | nil => intro j n _; simp [detectedInReservedWindows]
  | cons t rest ih =>
    intro j n h
    cases n with
    | zero => simp [detectedInReservedWindows]
    | succ k =>
      simp only [detectedInReservedWindows, Bool.and_eq_true, decide_eq_true_eq,
        List.take_succ_cons] at h ⊢
      exact ⟨h.1, ih (j + 1) k h.2⟩

theorem detected_missesWithinTolerance (bT : Time) :
    ∀ (ts : List Time) (m : EndDeviceLoraMac) (j : Nat),
      (m.m_beaconState = BeaconState.BEACON_LOCKED ∨
        m.m_beaconState = BeaconState.BEACONLESS) →
      bT < m.m_beaconInfo.gwBcnTime + Seconds 1 → j + ts.length ≤ 60 →
      detectedInReservedWindows bT j ts = true → missesWithinTolerance m ts = true := by
  intro ts
  induction ts with
  | nil => intro m j _ _ _ _; rfl
  | cons t rest ih =>
    intro m j hstate hG1 hlen h
    simp only [detectedInReservedWindows, Bool.and_eq_true, decide_eq_true_eq] at h
    simp only [List.length_cons] at hlen
    have htol : missWithinTolerance t m := by
      rcases hstate with hs | hs
      · exact Or.inl hs
      · refine Or.inr ⟨hs, ?_⟩
        have h2 := h.1.2
        simp only [Seconds, MilliSeconds, Minutes] at h2 hG1 ⊢
        exact window_within_tolerance _ bT t j (by simpa using hG1) (by omega) h2
    obtain ⟨s1, -, s3, -, -, -⟩ := BeaconMissed_within_tolerance t m htol
    simp only [missesWithinTolerance, Bool.and_eq_true, decide_eq_true_eq]
    refine ⟨htol, ih _ (j + 1) (Or.inr s1) (by rw [s3]; exact hG1) (by omega) h.2⟩

theorem BeaconMissed_beyond_tolerance (now : Time) (m : EndDeviceLoraMac)
    (hs : m.m_beaconState = BeaconState.BEACONLESS)
    (hlate : now - m.m_beaconInfo.gwBcnTime > Minutes 128) :
    (m.BeaconMissed now).1.m_deviceClass = DeviceClass.CLASS_A ∧
      (m.BeaconMissed now).1.m_beaconState = BeaconState.BEACON_UNLOCKED := by
  unfold EndDeviceLoraMac.BeaconMissed
  simp only [BeaconInfo.minimalBeaconLessOperationTime]
  have hl : Minutes 128 < now - m.m_beaconInfo.gwBcnTime := hlate
  simp [hs, hl]

/-- The beaconless cutoff: after a beacon whose time stamp `gwBcnTime` is at most
one second before the instant `bT` at which its beacon-reserved window opened,
the first 59 consecutive misses, each detected inside its beacon-reserved
window, leave the class unchanged and the state beaconless, and the 60th sets
class A and the state unlocked. -/
theorem beaconless_cutoff (m : EndDeviceLoraMac) (bT : Time) (ts : List Time)
    (hlocked : m.m_beaconState = BeaconState.BEACON_LOCKED)
    (hG : m.m_beaconInfo.gwBcnTime ≤ bT) (hG1 : bT < m.m_beaconInfo.gwBcnTime + Seconds 1)
    (hwin : detectedInReservedWindows bT 1 ts = true) :
    (∀ n, 1 ≤ n → n ≤ 59 → n ≤ ts.length →
      (missesInRow m (ts.take n)).m_deviceClass = m.m_deviceClass ∧
        (missesInRow m (ts.take n)).m_beaconState = BeaconState.BEACONLESS) ∧
    (60 ≤ ts.length →
      (missesInRow m (ts.take 60)).m_deviceClass = DeviceClass.CLASS_A ∧
        (missesInRow m (ts.take 60)).m_beaconState = BeaconState.BEACON_UNLOCKED) := by
  have hfirst : ∀ n, 1 ≤ n → n ≤ 59 → n ≤ ts.length →
      (missesInRow m (ts.take n)).m_deviceClass = m.m_deviceClass ∧
        (missesInRow m (ts.take n)).m_beaconState = BeaconState.BEACONLESS ∧
        (missesInRow m (ts.take n)).m_beaconInfo.gwBcnTime = m.m_beaconInfo.gwBcnTime := by
    intro n h1 h59 hn
    have hlen : (ts.take n).length = n := by simp [hn]
    have htol := detected_missesWithinTolerance bT (ts.take n) m 1 (Or.inl hlocked) hG1
      (by rw [hlen]; omega) (detectedInReservedWindows_take bT ts 1 n hwin)
    obtain ⟨r1, -, r3, r4, -, -⟩ := missesInRow_within_tolerance (ts.take n) m htol
    refine ⟨r4, r1 ?_, r3⟩
    intro hnil
    rw [hnil] at hlen
    simp at hlen
    omega
  refine ⟨fun n h1 h59 hn => ⟨(hfirst n h1 h59 hn).1, (hfirst n h1 h59 hn).2.1⟩, ?_⟩
  intro h60
  obtain ⟨-, p2, p3⟩ := hfirst 59 (by omega) (by omega) (by omega)
  have hi : 59 < ts.length := by omega
  have htake : ts.take 60 = ts.take 59 ++ [ts[59]] := by
    rw [List.take_succ, List.getElem?_eq_getElem hi]
    rfl
  rw [htake, missesInRow_append]
  simp only [missesInRow]
  apply BeaconMissed_beyond_tolerance _ _ p2
  rw [p3]
  have hw := (detectedInReservedWindows_getElem bT ts 1 59 hi hwin).1
  simp only [Seconds, MilliSeconds, Minutes] at hw hG ⊢
  exact window_beyond_tolerance _ bT _ 60 hG (by omega) (by simpa using hw)

theorem sampleCutoff_facts :
    sampleCutoffDevice.m_deviceClass = DeviceClass.CLASS_B ∧
      sampleCutoffDevice.m_beaconState = BeaconState.BEACON_LOCKED ∧
      sampleCutoffDevice.m_beaconInfo.gwBcnTime = Seconds 1152 ∧
      sampleCutoffMissInstants.length = 60 ∧
      detectedInReservedWindows sampleBeaconInstant 1 sampleCutoffMissInstants = true := by
  refine ⟨by decide, by decide, by decide, by decide, by decide⟩

/-- C11 (evaluation of the code at 60 consecutive misses): the sample Class B
device locked on the beacon stamped 1152 (broadcast at 1152.015 s) misses the
next 60 beacons, each miss detected when the receive window closes inside the
beacon-reserved window; it is still in class B and beaconless after the 59th
miss, and the 60th miss, 7680.015 s + 1.04448 s after the time stamp, already
sets class A and beacon state Unlocked. -/
theorem C11_counterexample_sixtieth_miss :
    sampleCutoffDevice.m_deviceClass = DeviceClass.CLASS_B ∧
      sampleCutoffDevice.m_beaconState = BeaconState.BEACON_LOCKED ∧
      sampleCutoffMissInstants.length = 60 ∧
      detectedInReservedWindows sampleBeaconInstant 1 sampleCutoffMissInstants = true ∧
      (missesInRow sampleCutoffDevice (sampleCutoffMissInstants.take 59)).m_deviceClass =
        DeviceClass.CLASS_B ∧
      (missesInRow sampleCutoffDevice (sampleCutoffMissInstants.take 59)).m_beaconState =
        BeaconState.BEACONLESS ∧
      (missesInRow sampleCutoffDevice sampleCutoffMissInstants).m_deviceClass =
        DeviceClass.CLASS_A ∧
      (missesInRow sampleCutoffDevice sampleCutoffMissInstants).m_beaconState =
        BeaconState.BEACON_UNLOCKED ∧
      ¬ ((missesInRow sampleCutoffDevice sampleCutoffMissInstants).m_deviceClass =
          DeviceClass.CLASS_B ∧
        (missesInRow sampleCutoffDevice sampleCutoffMissInstants).m_beaconState =
          BeaconState.BEACONLESS) := by
  obtain ⟨f1, f2, f3, f4, f5⟩ := sampleCutoff_facts
  have h := beaconless_cutoff sampleCutoffDevice sampleBeaconInstant sampleCutoffMissInstants
    f2 (by rw [f3]; decide) (by rw [f3]; decide) f5
  have h59 := h.1 59 (by decide) (by decide) (by rw [f4]; decide)
  have h60 := h.2 (by rw [f4])
  rw [List.take_of_length_le (by rw [f4])] at h60
  refine ⟨f1, f2, f4, f5, h59.1.trans f1, h59.2, h60.1, h60.2, ?_⟩
  rintro ⟨hB, -⟩
  rw [h60.1] at hB
  exact absurd hB (by decide)

/-- C11 (amended): a Class B device locked on a beacon whose time stamp is at most
one second before the instant `bT` at which the beacon-reserved window of that
beacon opened, which then misses 60 consecutive beacons, each miss detected
inside its beacon-reserved window (after `bT + j * 128 s`, at most 2.12 s
later), is in class B with beacon state Beaconless after each of the first 59
misses; the 60th miss sets the class to A and the beacon state to Unlocked. -/
theorem C11_beaconless_cutoff_at_sixtieth_miss (m : EndDeviceLoraMac) (bT : Time)
    (ts : List Time)
    (hclass : m.m_deviceClass = DeviceClass.CLASS_B)
    (hlocked : m.m_beaconState = BeaconState.BEACON_LOCKED)
    (hG : m.m_beaconInfo.gwBcnTime ≤ bT) (hG1 : bT < m.m_beaconInfo.gwBcnTime + Seconds 1)
    (hlen : ts.length = 60)
    (hwin : detectedInReservedWindows bT 1 ts = true) :
    (∀ n, 1 ≤ n → n ≤ 59 →
      (missesInRow m (ts.take n)).m_deviceClass = DeviceClass.CLASS_B ∧
        (missesInRow m (ts.take n)).m_beaconState = BeaconState.BEACONLESS) ∧
    (missesInRow m ts).m_deviceClass = DeviceClass.CLASS_A ∧
    (missesInRow m ts).m_beaconState = BeaconState.BEACON_UNLOCKED := by
  have h := beaconless_cutoff m bT ts hlocked hG hG1 hwin
  have h60 := h.2 (by rw [hlen])
  rw [List.take_of_length_le (by rw [hlen])] at h60
  refine ⟨fun n h1 h59 => ?_, h60.1, h60.2⟩
  have hn := h.1 n h1 h59 (by rw [hlen]; omega)
  exact ⟨hn.1.trans hclass, hn.2⟩

/-- C11 (amended) at the sample device and the 60 instants at which its beacon receive
window closes after the beacon at 1152.015 s. -/
theorem C11_beaconless_cutoff_at_sixtieth_miss_witness :
    sampleCutoffDevice.m_beaconInfo.gwBcnTime ≤ sampleBeaconInstant ∧
      sampleBeaconInstant < sampleCutoffDevice.m_beaconInfo.gwBcnTime + Seconds 1 ∧
      ((missesInRow sampleCutoffDevice (sampleCutoffMissInstants.take 59)).m_deviceClass =
          DeviceClass.CLASS_B ∧
        (missesInRow sampleCutoffDevice (sampleCutoffMissInstants.take 59)).m_beaconState =
          BeaconState.BEACONLESS) ∧
      (missesInRow sampleCutoffDevice sampleCutoffMissInstants).m_deviceClass =
        DeviceClass.CLASS_A ∧
      (missesInRow sampleCutoffDevice sampleCutoffMissInstants).m_beaconState =
        BeaconState.BEACON_UNLOCKED :=
  have h := C11_beaconless_cutoff_at_sixtieth_miss sampleCutoffDevice sampleBeaconInstant
    sampleCutoffMissInstants (by decide) (by decide) (by decide) (by decide) (by decide)
    (by decide)
  ⟨by decide, by decide, h.1 59 (by decide) (by decide), h.2.1, h.2.2⟩



/-- C21: `BeaconReceived` with the beacon unlocked returns the state unchanged and fires
nothing; in the states Search, Locked and Beaconless it sets `gwBcnTime` and
`deviceBcnTime` to the time stamp of the payload, both window durations to 8
symbols, the beacon state to Locked, adds 1 to the successful-beacon counter
and leaves the device class unchanged. -/
theorem C21_BeaconReceived (bcnTime : Nat) (m : EndDeviceLoraMac)
    (hstamp : bcnTime < 2 ^ 32) (hcount : m.m_totalSuccessfulBeaconPackets + 1 < 2 ^ 32) :
    (m.m_beaconState = BeaconState.BEACON_UNLOCKED → m.BeaconReceived bcnTime = (m, [])) ∧
    (m.m_beaconState ≠ BeaconState.BEACON_UNLOCKED →
      (m.BeaconReceived bcnTime).1.m_beaconInfo.gwBcnTime = Seconds (bcnTime : Int) ∧
      (m.BeaconReceived bcnTime).1.m_beaconInfo.deviceBcnTime = Seconds (bcnTime : Int) ∧
      (m.BeaconReceived bcnTime).1.m_classBReceiveWindowInfo.beaconReceiveWindowDurationInSymbols
        = 8 ∧
      (m.BeaconReceived bcnTime).1.m_classBReceiveWindowInfo.pingReceiveWindowDurationInSymbols
        = 8 ∧
      (m.BeaconReceived bcnTime).1.m_beaconState = BeaconState.BEACON_LOCKED ∧
      (m.BeaconReceived bcnTime).1.m_totalSuccessfulBeaconPackets =
        m.m_totalSuccessfulBeaconPackets + 1 ∧
      (m.BeaconReceived bcnTime).1.m_deviceClass = m.m_deviceClass ∧
      (m.BeaconReceived bcnTime).1.m_macState = m.m_macState) := by
  constructor
  · intro h
    simp [EndDeviceLoraMac.BeaconReceived, h]
  · intro h
    unfold EndDeviceLoraMac.BeaconReceived
    rw [if_neg h]
    have h3 : (bcnTime : Int) % 4294967296 = (bcnTime : Int) := by omega
    have h4 : m.m_totalSuccessfulBeaconPackets + 1 < 4294967296 := by omega
    simp [h3, h4]

/-- C21 at the sample searching device (class A) and the beacon stamped 1000. -/
theorem C21_BeaconReceived_witness :
    (sampleSearchingDevice.BeaconReceived 1000).1.m_beaconInfo.gwBcnTime = Seconds 1000 ∧
      (sampleSearchingDevice.BeaconReceived 1000).1.m_beaconState =
        BeaconState.BEACON_LOCKED ∧
      (sampleSearchingDevice.BeaconReceived 1000).1.m_totalSuccessfulBeaconPackets =
        sampleSearchingDevice.m_totalSuccessfulBeaconPackets + 1 ∧
      (sampleSearchingDevice.BeaconReceived 1000).1.m_deviceClass =
        sampleSearchingDevice.m_deviceClass :=
  have h := (C21_BeaconReceived 1000 sampleSearchingDevice (by decide) (by decide)).2
    (by decide)
  ⟨h.1, h.2.2.2.2.1, h.2.2.2.2.2.1, h.2.2.2.2.2.2.1⟩

/-- While multicast is enabled the multicast address is not the sentinel 1, after
any sequence of calls of the address interface on a new device. -/
theorem multicast_sentinel_invariant :
    ∀ (calls : List AddressCall) (m m1 : EndDeviceLoraMac),
      (m.m_enableMulticast = true → m.m_mcAddress ≠ 1) →
      runAddressCalls m calls = some m1 →
      m1.m_enableMulticast = true → m1.m_mcAddress ≠ 1 := by
  intro calls
  induction calls with
  | nil =>
    intro m m1 hinv hrun
    simp only [runAddressCalls, Option.some.injEq] at hrun
    subst hrun
    exact hinv
  | cons c rest ih =>
    intro m m1 hinv hrun
    simp only [runAddressCalls] at hrun
    cases hc : c.run m with
    | none => simp [hc] at hrun
    | some m2 =>
      rw [hc] at hrun
      refine ih m2 m1 ?_ hrun
      cases c with
      | SetDeviceAddress a =>
        simp only [AddressCall.run, Option.some.injEq] at hc
        subst hc
        exact hinv
      | SetMulticastDeviceAddress a =>
        simp only [AddressCall.run, EndDeviceLoraMac.SetMulticastDeviceAddress] at hc
        split_ifs at hc with h1 h2
        · simp only [Option.some.injEq] at hc
          subst hc
          exact hinv
        · simp only [Option.some.injEq] at hc
          subst hc
          intro _
          exact h1
      | EnableMulticast =>
        simp only [AddressCall.run, Option.some.injEq, EndDeviceLoraMac.EnableMulticast] at hc
        split_ifs at hc with h1
        · subst hc
          exact hinv
        · subst hc
          intro _
          exact h1
      | DisableMulticast =>
        simp only [AddressCall.run, Option.some.injEq, EndDeviceLoraMac.DisableMulticast] at hc
        subst hc
        intro h
        simp at h

/-- C29 (evaluation of the code): on a new device the calls
`SetMulticastDeviceAddress (5)`, `EnableMulticast ()`, `SetDeviceAddress (5)` all
return normally and leave multicast enabled with the multicast address equal
to the unicast address: `SetDeviceAddress` has no check against `m_mcAddress`. -/
theorem C29_unicast_address_set_to_multicast_address :
    ∃ m, runAddressCalls EndDeviceLoraMac.new
        [AddressCall.SetMulticastDeviceAddress 5, AddressCall.EnableMulticast,
         AddressCall.SetDeviceAddress 5] = some m ∧
      m.IsMulticastEnabled = true ∧ m.GetMulticastDeviceAddress = 5 ∧
      m.GetDeviceAddress = 5 ∧ m.GetMulticastDeviceAddress = m.GetDeviceAddress :=
  ⟨_, rfl, by decide, by decide, by decide, by decide⟩

/-- C30 (evaluation of the code): `GetBeaconRecieveWindowDataRate` returns the ping-slot
data rate: after `SetPingSlotReceiveWindowDataRate (5)` and
`SetBeaconReceiveWindowDataRate (0)` on a new device it returns 5, and after
`SetBeaconReceiveWindowDataRate (d)` on any device it returns what
`GetPingSlotReceiveWindowDataRate` returned before the call. -/
theorem C30_beacon_data_rate_getter_returns_ping_slot_rate :
    ((EndDeviceLoraMac.new.SetPingSlotReceiveWindowDataRate 5).SetBeaconReceiveWindowDataRate
        0).GetBeaconRecieveWindowDataRate = 5 ∧
      ((EndDeviceLoraMac.new.SetPingSlotReceiveWindowDataRate 5).SetBeaconReceiveWindowDataRate
        0).m_classBReceiveWindowInfo.beaconReceiveWindowDataRate = 0 ∧
      ∀ (m : EndDeviceLoraMac) (d : Nat),
        (m.SetBeaconReceiveWindowDataRate d).GetBeaconRecieveWindowDataRate =
          m.GetPingSlotReceiveWindowDataRate :=
  ⟨by decide, by decide, fun _ _ => rfl⟩



theorem findGenerator_updateGenerator_self (a : LoraDeviceAddress)
    (g : DownlinkPacketGenerator) (l : List (LoraDeviceAddress × DownlinkPacketGenerator))
    (h : (NetworkScheduler.findGenerator a l).isSome) :
    NetworkScheduler.findGenerator a (NetworkScheduler.updateGenerator a g l) = some g := by
  induction l with
  | nil => simp [NetworkScheduler.findGenerator] at h
  | cons e rest ih =>
    obtain ⟨c, k⟩ := e
    simp only [NetworkScheduler.updateGenerator]
    by_cases hca : c = a
    · rw [if_pos hca]
      simp [NetworkScheduler.findGenerator, hca]
    · rw [if_neg hca]
      simp only [NetworkScheduler.findGenerator, if_neg hca] at h ⊢
      exact ih h

/-- The result of one `SendPingDownlink` invocation whose generator exists and, for
unicast, whose best gateway is known. -/
theorem SendPingDownlink_result (now : Time) (radio : RadioOutcome) (s : NetworkScheduler)
    (a : LoraDeviceAddress) (isMulticast : Bool) (pingPeriod pingNb slotIndex : Nat)
    (g : DownlinkPacketGenerator)
    (hgen : NetworkScheduler.findGenerator a s.m_downlinkPacket = some g)
    (hgw : isMulticast = false → radio.bestGatewayFound = true) :
    NetworkScheduler.SendPingDownlink now radio s a isMulticast pingPeriod pingNb slotIndex =
      some
        (if (if isMulticast = true then radio.successfulGateways % 256 > 0
             else radio.classBTransmissionEnabled = true ∧ radio.availableForTransmission = true)
         then { s with m_downlinkPacket :=
                  NetworkScheduler.updateGenerator a (g.PacketSent true) s.m_downlinkPacket }
         else s,
         if (slotIndex + 1) % 256 < pingNb then
           [{ time := now + (pingPeriod : Int) * MilliSeconds 30,
              callee := SchedulerEvent.SendPingDownlink a isMulticast pingPeriod pingNb
                ((slotIndex + 1) % 256) }]
         else [],
         if isMulticast = true then
           if radio.successfulGateways % 256 > 0 then
             [SchedulerCallback.mcPingSent a (radio.successfulGateways % 256) pingNb slotIndex
               now (decide (g.m_downlinkType = DownlinkType.SEQUENCED))
               (if g.m_downlinkType = DownlinkType.SEQUENCED then g.m_sequence else 0)]
           else []
         else if radio.classBTransmissionEnabled = true ∧
             radio.availableForTransmission = true then
           [SchedulerCallback.ucPingSent a pingNb slotIndex now
             (decide (g.m_downlinkType = DownlinkType.SEQUENCED))
             (if g.m_downlinkType = DownlinkType.SEQUENCED then g.m_sequence else 0)]
         else []) := by
  unfold NetworkScheduler.SendPingDownlink
  rw [hgen]
  cases isMulticast with
  | true =>
    by_cases hs : radio.successfulGateways % 256 > 0 <;>
      by_cases hn : (slotIndex + 1) % 256 < pingNb <;> simp [hs, hn]
  | false =>
    have hb := hgw rfl
    by_cases hs : radio.classBTransmissionEnabled = true ∧
        radio.availableForTransmission = true <;>
      by_cases hn : (slotIndex + 1) % 256 < pingNb <;> simp [hs, hn, hb]



/-- C23: one `SendPingDownlink` invocation whose generator exists: the sequence counter
of the destination's generator is one more than before if the transmission
succeeded (multicast: at least one gateway transmitted; unicast: the best
gateway is Class B enabled and available) and unchanged otherwise; on multicast
success exactly one `McPingSent` is fired, carrying the address, the number of
gateways that transmitted, the slot index and the sequence number before the
increment (0 when the generator is not sequenced); on multicast failure nothing
is fired. -/
theorem C23_SendPingDownlink_sequence (now : Time) (radio : RadioOutcome)
    (s : NetworkScheduler) (a : LoraDeviceAddress) (isMulticast : Bool)
    (pingPeriod pingNb slotIndex : Nat) (g : DownlinkPacketGenerator)
    (hgen : NetworkScheduler.findGenerator a s.m_downlinkPacket = some g)
    (hgw : isMulticast = false → radio.bestGatewayFound = true)
    (hseq : g.m_sequence + 1 < 2 ^ 32) (hcount : radio.successfulGateways < 256) :
    ∃ s1 evs cbs,
      NetworkScheduler.SendPingDownlink now radio s a isMulticast pingPeriod pingNb slotIndex =
        some (s1, evs, cbs) ∧
      NetworkScheduler.findGenerator a s1.m_downlinkPacket =
        some { g with m_sequence :=
          if (if isMulticast = true then radio.successfulGateways > 0
              else radio.classBTransmissionEnabled = true ∧
                radio.availableForTransmission = true)
          then g.m_sequence + 1 else g.m_sequence } ∧
      (isMulticast = true →
        cbs = if radio.successfulGateways > 0 then
            [SchedulerCallback.mcPingSent a radio.successfulGateways pingNb slotIndex now
              (decide (g.m_downlinkType = DownlinkType.SEQUENCED))
              (if g.m_downlinkType = DownlinkType.SEQUENCED then g.m_sequence else 0)]
          else []) := by
  have hmod : radio.successfulGateways % 256 = radio.successfulGateways :=
    Nat.mod_eq_of_lt hcount
  have hsent : g.PacketSent true = { g with m_sequence := g.m_sequence + 1 } := by
    unfold DownlinkPacketGenerator.PacketSent
    rw [if_pos rfl, Nat.mod_eq_of_lt hseq]
  have hsome : (NetworkScheduler.findGenerator a s.m_downlinkPacket).isSome := by
    rw [hgen]; rfl
  refine ⟨_, _, _,
    SendPingDownlink_result now radio s a isMulticast pingPeriod pingNb slotIndex g hgen hgw,
    ?_, ?_⟩
  · rw [hmod]
    split_ifs <;>
      first
      | exact hgen
      | (show NetworkScheduler.findGenerator a
            (NetworkScheduler.updateGenerator a (g.PacketSent true) s.m_downlinkPacket) = _
         rw [findGenerator_updateGenerator_self a _ _ hsome, hsent])
  · intro hm
    rw [hmod, if_pos hm]

/-- C23 at the sample sequenced generator (41 packets sent), slot 0, one gateway
transmitting. -/
theorem C23_SendPingDownlink_sequence_witness :
    ∃ s1 evs cbs,
      NetworkScheduler.SendPingDownlink (Seconds 1155) { successfulGateways := 1 }
          sampleSequencedScheduler 2864434397 true 128 32 0 = some (s1, evs, cbs) ∧
      NetworkScheduler.findGenerator 2864434397 s1.m_downlinkPacket =
        some { m_downlinkType := DownlinkType.SEQUENCED, m_packetSize := 115,
               m_sequence := 42 } ∧
      cbs = [SchedulerCallback.mcPingSent 2864434397 1 32 0 (Seconds 1155) true 41] :=
  have h := C23_SendPingDownlink_sequence (Seconds 1155) { successfulGateways := 1 }
    sampleSequencedScheduler 2864434397 true 128 32 0
    { m_downlinkType := DownlinkType.SEQUENCED, m_packetSize := 115, m_sequence := 41 }
    (by decide) (by decide) (by decide) (by decide)
  match h with
  | ⟨s1, evs, cbs, h1, h2, h3⟩ => ⟨s1, evs, cbs, h1, h2, h3 rfl⟩

theorem SendPingDownlink_any (now : Time) (radio : RadioOutcome) (s : NetworkScheduler)
    (a : LoraDeviceAddress) (isMulticast : Bool) (pingPeriod pingNb slotIndex : Nat)
    (hgen : (NetworkScheduler.findGenerator a s.m_downlinkPacket).isSome)
    (hgw : isMulticast = false → radio.bestGatewayFound = true) :
    ∃ s1 cbs,
      NetworkScheduler.SendPingDownlink now radio s a isMulticast pingPeriod pingNb slotIndex =
        some (s1,
          (if (slotIndex + 1) % 256 < pingNb then
            [{ time := now + (pingPeriod : Int) * MilliSeconds 30,
               callee := SchedulerEvent.SendPingDownlink a isMulticast pingPeriod pingNb
                 ((slotIndex + 1) % 256) }]
           else []), cbs) ∧
      (NetworkScheduler.findGenerator a s1.m_downlinkPacket).isSome := by
  obtain ⟨g, hg⟩ := Option.isSome_iff_exists.mp hgen
  refine ⟨_, _,
    SendPingDownlink_result now radio s a isMulticast pingPeriod pingNb slotIndex g hg hgw, ?_⟩
  split_ifs <;>
    first
    | exact hgen
    | (show (NetworkScheduler.findGenerator a
          (NetworkScheduler.updateGenerator a (g.PacketSent true) s.m_downlinkPacket)).isSome
          = true
       rw [findGenerator_updateGenerator]
       exact hgen)

theorem pingChain_trace_any (radio : Time → Nat → RadioOutcome) (a : LoraDeviceAddress)
    (isMulticast : Bool) (pingPeriod pingNb : Nat) (hnb : pingNb ≤ 255)
    (hgw : isMulticast = false → ∀ t i, (radio t i).bestGatewayFound = true) :
    ∀ (r fuel : Nat) (now : Time) (slotIndex : Nat) (s : NetworkScheduler),
      slotIndex + r + 1 = pingNb → r + 1 ≤ fuel →
      (NetworkScheduler.findGenerator a s.m_downlinkPacket).isSome →
      ∃ s2, NetworkScheduler.pingChain radio a isMulticast pingPeriod pingNb fuel now slotIndex
          s =
        some ((List.range (r + 1)).map (fun (k : Nat) =>
          (now + (k : Int) * ((pingPeriod : Int) * MilliSeconds 30), slotIndex + k)), s2) := by
  intro r
  induction r with
  | zero =>
    intro fuel now slotIndex s hidx hfuel hgen
    obtain ⟨f, rfl⟩ : ∃ f, fuel = f + 1 := ⟨fuel - 1, by omega⟩
    obtain ⟨s1, cbs, hsend, _⟩ :=
      SendPingDownlink_any now (radio now slotIndex) s a isMulticast pingPeriod pingNb slotIndex
        hgen (fun h => hgw h now slotIndex)
    have hlast : ¬ (slotIndex + 1) % 256 < pingNb := by
      rw [Nat.mod_eq_of_lt (by omega)]; omega
    rw [if_neg hlast] at hsend
    refine ⟨s1, ?_⟩
    have hr1 : List.range (0 + 1) = [0] := rfl
    simp [NetworkScheduler.pingChain, hsend, hr1]
  | succ r ih =>
    intro fuel now slotIndex s hidx hfuel hgen
    obtain ⟨f, rfl⟩ : ∃ f, fuel = f + 1 := ⟨fuel - 1, by omega⟩
    obtain ⟨s1, cbs, hsend, hgen1⟩ :=
      SendPingDownlink_any now (radio now slotIndex) s a isMulticast pingPeriod pingNb slotIndex
        hgen (fun h => hgw h now slotIndex)
    have hmod : (slotIndex + 1) % 256 = slotIndex + 1 := Nat.mod_eq_of_lt (by omega)
    have hnext : (slotIndex + 1) % 256 < pingNb := by rw [hmod]; omega
    rw [if_pos hnext, hmod] at hsend
    obtain ⟨s2, hrec⟩ := ih f (now + (pingPeriod : Int) * MilliSeconds 30) (slotIndex + 1) s1
      (by omega) (by omega) hgen1
    refine ⟨s2, ?_⟩
    simp only [NetworkScheduler.pingChain, hsend, hrec]
    rw [List.range_succ_eq_map (r + 1), List.map_cons, List.map_map]
    simp only [Option.some.injEq, Prod.mk.injEq, and_true]
    refine congrArg₂ List.cons (by simp) ?_
    apply List.map_congr_left
    intro k _
    simp only [Function.comp, Nat.succ_eq_add_one, Prod.mk.injEq]
    constructor
    · push_cast; ring
    · omega

/-- C24: for `pingNb` in `[1, 128]` the chain of invocations started by
`SendPingDownlink (address, isMulticast, pingPeriod, pingNb, 0)` at instant `now`
ends, with `pingNb` units of fuel, after exactly `pingNb` invocations: the
`k`-th one (`k = 0 .. pingNb - 1`) has slot index `k` and runs at
`now + k * pingPeriod * 30 ms`, whatever the radio side answers. The generator
of the address exists and, for unicast, the best gateway is known. -/
theorem C24_ping_chain_visits_every_slot_once (radio : Time → Nat → RadioOutcome)
    (a : LoraDeviceAddress) (isMulticast : Bool) (pingPeriod pingNb : Nat) (now : Time)
    (s : NetworkScheduler) (h1 : 1 ≤ pingNb) (h128 : pingNb ≤ 128)
    (hgen : (NetworkScheduler.findGenerator a s.m_downlinkPacket).isSome)
    (hgw : isMulticast = false → ∀ t i, (radio t i).bestGatewayFound = true) :
    ∃ s2, NetworkScheduler.pingChain radio a isMulticast pingPeriod pingNb pingNb now 0 s =
        some ((List.range pingNb).map (fun (k : Nat) =>
          (now + (k : Int) * ((pingPeriod : Int) * MilliSeconds 30), k)), s2) ∧
      ((List.range pingNb).map (fun (k : Nat) =>
          (now + (k : Int) * ((pingPeriod : Int) * MilliSeconds 30), k))).length = pingNb ∧
      ((List.range pingNb).map (fun (k : Nat) =>
          (now + (k : Int) * ((pingPeriod : Int) * MilliSeconds 30), k))).map (fun e => e.2) =
        List.range pingNb := by
  obtain ⟨r, rfl⟩ : ∃ r, pingNb = r + 1 := ⟨pingNb - 1, by omega⟩
  obtain ⟨s2, h⟩ := pingChain_trace_any radio a isMulticast pingPeriod (r + 1) (by omega) hgw
    r (r + 1) now 0 s (by omega) (le_refl _) hgen
  refine ⟨s2, ?_, by simp, ?_⟩
  · simpa using h
  · rw [List.map_map]
    exact List.map_id'' (fun _ => rfl) _

/-- C24 at the sample sequenced scheduler: 32 slots, ping period 128, every slot
transmitted by one gateway. -/
theorem C24_ping_chain_visits_every_slot_once_witness :
    ∃ s2, NetworkScheduler.pingChain sampleRadio 2864434397 true 128 32 32 (Seconds 1155) 0
        sampleSequencedScheduler =
        some ((List.range 32).map (fun (k : Nat) =>
          (Seconds 1155 + (k : Int) * (((128 : Nat) : Int) * MilliSeconds 30), k)), s2) :=
  match C24_ping_chain_visits_every_slot_once sampleRadio 2864434397 true 128 32 (Seconds 1155)
    sampleSequencedScheduler (by decide) (by decide) (by decide) (fun h => by simp at h) with
  | ⟨s2, h, _, _⟩ => ⟨s2, h⟩

theorem sizeOfAppPayload_cases (s M drawn : Nat) (hM : M ≤ 255) :
    (s = 0 → NetworkScheduler.sizeOfAppPayload s M drawn = some (drawn % 256)) ∧
    (1 ≤ s → s ≤ 255 → s ≠ M → NetworkScheduler.sizeOfAppPayload s M drawn = some (min s M)) ∧
    (1 ≤ s → s = M → NetworkScheduler.sizeOfAppPayload s M drawn = none) := by
  unfold NetworkScheduler.sizeOfAppPayload
  refine ⟨fun h => by simp [h], fun h1 h2 h3 => ?_, fun h1 h2 => ?_⟩
  · have h0 : s ≠ 0 := by omega
    rw [if_neg h0]
    by_cases hgt : s > M
    · rw [if_pos ⟨h2, hgt⟩, Nat.min_eq_right (by omega)]
    · rw [if_neg (fun h => hgt h.2), if_pos ⟨by omega, by omega⟩, Nat.min_eq_left (by omega)]
  · have h0 : s ≠ 0 := by omega
    subst h2
    rw [if_neg h0, if_neg (fun h => absurd h.2 (lt_irrefl _)),
      if_neg (fun h => absurd h.2 (lt_irrefl _))]

/-- C25 (evaluation of the code): a configured ping downlink packet size equal to the
maximum application payload of the group's data rate (115 for data rate 3)
selects the `NS_ASSERT_MSG (false, ...)` branch, whatever the random draw:
`ScheduleClassBDownlink` aborts when it creates the generator of the sample
group. The two assigning branches compare with strict `>` and `<`. -/
theorem C25_size_equal_to_maximum_aborts (drawn : LoraDeviceAddress → Nat) (d : Nat) :
    NetworkScheduler.sizeOfAppPayload 115 115 d = none ∧
      (sampleGroups.head?.map (fun gr => gr.2.head?.map
        (fun mac => sampleExactSizeScheduler.m_maxAppPayloadForDataRate.get?
          mac.GetPingSlotReceiveWindowDataRate))) = some (some (some 115)) ∧
      NetworkScheduler.ScheduleClassBDownlink sampleHost drawn
        (sampleBeaconInstant + MilliSeconds 2120) 1152 sampleGroups sampleExactSizeScheduler =
        none := by
  refine ⟨by simp [NetworkScheduler.sizeOfAppPayload], by decide, ?_⟩
  simp [NetworkScheduler.ScheduleClassBDownlink, NetworkScheduler.scheduleGroup, sampleGroups,
    sampleExactSizeScheduler, NetworkScheduler.findGenerator,
    NetworkScheduler.sizeOfAppPayload, NetworkScheduler.GetPingOffset,
    EndDeviceLoraMac.GetPingPeriod, EndDeviceLoraMac.GetPingNb,
    EndDeviceLoraMac.GetPingSlotReceiveWindowDataRate, sampleClassBDevice,
    EndDeviceLoraMac.new]



/-- C28 (evaluation of the code): in mode PingSlot with ping offset 0 the jitter is drawn
from the empty range `[0, 0 * slotLen)`, so it is zero,
`ResolveWithClassBAndGetTime` returns `Seconds (0)` and `DoSend` goes on to
transmit instead of rescheduling itself. -/
theorem C28_transmission_during_ping_slot (now rx jitter : Time) (packet : Packet)
    (m : EndDeviceLoraMac)
    (hmode : m.m_macState = MacState.MAC_PING_SLOT)
    (hoff : m.m_pingSlotInfo.pingOffset = 0)
    (hjitter : 0 ≤ jitter ∧ jitter ≤ (m.m_pingSlotInfo.pingOffset : Int) * PingSlotInfo.slotLen) :
    m.ResolveWithClassBAndGetTime now rx jitter = Seconds 0 ∧
      m.DoSend now rx jitter packet = EndDeviceLoraMac.DoSendStep.transmits := by
  have hj : jitter = 0 := by
    rw [hoff] at hjitter
    have h2 : jitter ≤ 0 := by simpa using hjitter.2
    exact le_antisymm h2 hjitter.1
  have hres : m.ResolveWithClassBAndGetTime now rx jitter = Seconds 0 := by
    unfold EndDeviceLoraMac.ResolveWithClassBAndGetTime
    simp [hmode, hj, Seconds]
  refine ⟨hres, ?_⟩
  unfold EndDeviceLoraMac.DoSend
  simp [hres]

/-- C28 at the sample device with an open ping slot and ping offset 0. -/
theorem C28_transmission_during_ping_slot_witness :
    sampleZeroOffsetDevice.m_macState = MacState.MAC_PING_SLOT ∧
      sampleZeroOffsetDevice.ResolveWithClassBAndGetTime (Seconds 1160) (MilliSeconds 163) 0 =
        Seconds 0 ∧
      sampleZeroOffsetDevice.DoSend (Seconds 1160) (MilliSeconds 163) 0 {} =
        EndDeviceLoraMac.DoSendStep.transmits :=
  ⟨by decide,
    C28_transmission_during_ping_slot (Seconds 1160) (MilliSeconds 163) 0 {}
      sampleZeroOffsetDevice (by decide) (by decide) (by decide)⟩

theorem mem_Cancel (id : EventId) (pending : List ScheduledEvent) (x : ScheduledEvent) :
    x ∈ EndDeviceLoraMac.Cancel id pending ↔ x ∈ pending ∧ id ≠ some x := by
  cases id with
  | none => simp [EndDeviceLoraMac.Cancel]
  | some ev =>
    simp only [EndDeviceLoraMac.Cancel, List.mem_filter, decide_eq_true_eq, ne_eq,
      Option.some.injEq]
    constructor
    · rintro ⟨h1, h2⟩
      exact ⟨h1, fun h => h2 h.symm⟩
    · rintro ⟨h1, h2⟩
      exact ⟨h1, fun h => h2 h.symm⟩

theorem mem_foldl_Cancel (x : ScheduledEvent) :
    ∀ (ids : List EventId) (pending : List ScheduledEvent),
      x ∈ ids.foldl (fun p ping => EndDeviceLoraMac.Cancel ping p) pending ↔
        x ∈ pending ∧ some x ∉ ids := by
  intro ids
  induction ids with
  | nil => intro pending; simp
  | cons id rest ih =>
    intro pending
    simp only [List.foldl_cons, ih, mem_Cancel, List.mem_cons, not_or]
    constructor
    · rintro ⟨⟨h1, h2⟩, h3⟩
      exact ⟨h1, fun h => h2 h.symm, h3⟩
    · rintro ⟨h1, h2, h3⟩
      exact ⟨⟨h1, fun h => h2 h.symm⟩, h3⟩

/-- The events that remain after `SwitchFromClassB` on a Class B device: those that
are neither tracked in `pendingPingSlotEvents` nor the tracked next beacon
guard. -/
theorem mem_SwitchFromClassB (pending : List ScheduledEvent) (m : EndDeviceLoraMac)
    (hB : m.m_deviceClass = DeviceClass.CLASS_B) (x : ScheduledEvent) :
    (m.SwitchFromClassB pending).1.m_deviceClass = DeviceClass.CLASS_A ∧
      (m.SwitchFromClassB pending).1.m_beaconState = BeaconState.BEACON_UNLOCKED ∧
      (x ∈ (m.SwitchFromClassB pending).2 ↔
        x ∈ pending ∧ some x ∉ m.m_pingSlotInfo.pendingPingSlotEvents ∧
          m.m_beaconInfo.nextBeaconGuardEvent ≠ some x) := by
  unfold EndDeviceLoraMac.SwitchFromClassB
  rw [if_neg (by simp [hB])]
  refine ⟨rfl, rfl, ?_⟩
  simp only [mem_Cancel, mem_foldl_Cancel]
  tauto

theorem EndBeaconReserved_records_events (host : Host) (now : Time) (phy : PhyState)
    (d : EndDeviceLoraMac)
    (hres : d.m_macState = MacState.MAC_BEACON_RESERVED)
    (hbs : d.m_beaconState = BeaconState.BEACON_LOCKED ∨ d.m_beaconState = BeaconState.BEACONLESS)
    (hcls : d.m_deviceClass ≠ DeviceClass.CLASS_C) (hphy : phy ≠ PhyState.RX)
    (hP : d.m_pingSlotInfo.pingPeriod ≠ 0) :
    ∃ d2 cbs, d.EndBeaconReserved host now phy =
        some (d2,
          EndDeviceLoraMac.pingSlotLoop now
            (randWord host d.m_beaconInfo.deviceBcnTime.GetSecondsUInt32 d.effectiveAddress %
              d.m_pingSlotInfo.pingPeriod)
            d.m_pingSlotInfo.pingPeriod d.m_pingSlotInfo.pendingPingSlotEvents 0 ++
          [{ time := now + MilliSeconds 122880, callee := MacEvent.StartBeaconGuard }], cbs) ∧
      d2.m_deviceClass = DeviceClass.CLASS_B ∧
      d2.m_pingSlotInfo.pendingPingSlotEvents =
        (EndDeviceLoraMac.pingSlotLoop now
            (randWord host d.m_beaconInfo.deviceBcnTime.GetSecondsUInt32 d.effectiveAddress %
              d.m_pingSlotInfo.pingPeriod)
            d.m_pingSlotInfo.pingPeriod d.m_pingSlotInfo.pendingPingSlotEvents 0).map some ∧
      d2.m_beaconInfo.nextBeaconGuardEvent =
        some { time := now + MilliSeconds 122880, callee := MacEvent.StartBeaconGuard } := by
  have hidle : d.SetMacState MacState.MAC_IDLE = { d with m_macState := MacState.MAC_IDLE } := by
    simp [EndDeviceLoraMac.SetMacState, hres]
  unfold EndDeviceLoraMac.EndBeaconReserved
  rw [if_neg (by simp [hres]), hidle]
  simp only []
  rcases hbs with hb | hb
  · rw [if_neg (by simp [hb]), if_pos (Or.inl hb), if_neg hphy]
    by_cases hmax : d.m_currentConsecutiveBeaconsMissed > d.m_maximumConsecutiveBeaconsMissed <;>
      cases hc : d.m_deviceClass <;>
      first
      | exact absurd hc hcls
      | simp [hb, hc, hmax, EndDeviceLoraMac.SchedulePingSlots, hP,
          EndDeviceLoraMac.effectiveAddress, EndDeviceLoraMac.IsMulticastEnabled,
          BeaconInfo.beaconWindow]
  · rw [if_neg (by simp [hb]), if_pos (Or.inr hb), if_neg hphy]
    cases hc : d.m_deviceClass <;>
      first
      | exact absurd hc hcls
      | simp [hb, hc, EndDeviceLoraMac.SchedulePingSlots, hP,
          EndDeviceLoraMac.effectiveAddress, EndDeviceLoraMac.IsMulticastEnabled,
          BeaconInfo.beaconWindow]



theorem stale_slot_arith (o1 o2 P : Nat) (hP : 64 ≤ P) :
    (128 * 1000000000 : Int) < ((o1 + 127 * P : Nat) : Int) * (30 * 1000000) ∧
      ((o1 + 127 * P : Nat) : Int) * (30 * 1000000) ≠
        128 * 1000000000 + ((o2 + 127 * P : Nat) : Int) * (30 * 1000000) := by
  constructor
  · push_cast; omega
  · push_cast; omega

theorem stalePingEvent_facts (host : Host) (t0 : Time) (d0 : EndDeviceLoraMac) (o2 : Nat)
    (hP64 : 64 ≤ d0.m_pingSlotInfo.pingPeriod) (hP4096 : d0.m_pingSlotInfo.pingPeriod ≤ 4096)
    (ho2 : o2 < d0.m_pingSlotInfo.pingPeriod) :
    t0 + Seconds 128 < (stalePingEvent host t0 d0).time ∧
      (stalePingEvent host t0 d0).time ≠
        t0 + Seconds 128 + EndDeviceLoraMac.slotTime o2 d0.m_pingSlotInfo.pingPeriod 127 := by
  have ho1 : randWord host d0.m_beaconInfo.deviceBcnTime.GetSecondsUInt32 d0.effectiveAddress %
      d0.m_pingSlotInfo.pingPeriod < d0.m_pingSlotInfo.pingPeriod := Nat.mod_lt _ (by omega)
  have h := stale_slot_arith
    (randWord host d0.m_beaconInfo.deviceBcnTime.GetSecondsUInt32 d0.effectiveAddress %
      d0.m_pingSlotInfo.pingPeriod) o2 d0.m_pingSlotInfo.pingPeriod hP64
  unfold stalePingEvent
  simp only []
  rw [slotTime_eq _ _ 127 (by omega) (by omega), slotTime_eq _ _ 127 (by omega) (by omega)]
  simp only [Seconds, MilliSeconds]
  constructor
  · have h1 := h.1
    linarith
  · intro heq
    apply h.2
    linarith

/-- C22 (evaluation of the code): a Class B device whose ping period is at least 64
(periodicity 1 or more) ends beacon-reserved at `t0` (state `d0`) and again one
beacon period later (state `dY`). The `OpenPingSlotReceiveWindow (127)` event
scheduled at `t0` lies later than `t0 + 128 s`; the second `SchedulePingSlots`
overwrites the 128 tracked events without cancelling it. `SwitchFromClassB`
(also through `SetDeviceClass (CLASS_A)`) right after the second
`EndBeaconReserved` sets class A and beacon state Unlocked and cancels every
event of the second batch and the next beacon guard, but the event of the first
batch stays among the events still to run. -/
theorem C22_stale_ping_event_survives_switch (host : Host) (t0 : Time) (phy1 phy2 : PhyState)
    (d0 dY : EndDeviceLoraMac) (pending : List ScheduledEvent)
    (h0mode : d0.m_macState = MacState.MAC_BEACON_RESERVED)
    (h0bs : d0.m_beaconState = BeaconState.BEACON_LOCKED ∨
      d0.m_beaconState = BeaconState.BEACONLESS)
    (h0cls : d0.m_deviceClass ≠ DeviceClass.CLASS_C) (h0phy : phy1 ≠ PhyState.RX)
    (hYmode : dY.m_macState = MacState.MAC_BEACON_RESERVED)
    (hYbs : dY.m_beaconState = BeaconState.BEACON_LOCKED ∨
      dY.m_beaconState = BeaconState.BEACONLESS)
    (hYcls : dY.m_deviceClass ≠ DeviceClass.CLASS_C) (hYphy : phy2 ≠ PhyState.RX)
    (hP64 : 64 ≤ d0.m_pingSlotInfo.pingPeriod) (hP4096 : d0.m_pingSlotInfo.pingPeriod ≤ 4096)
    (hPY : dY.m_pingSlotInfo.pingPeriod = d0.m_pingSlotInfo.pingPeriod)
    (hlen0 : d0.m_pingSlotInfo.pendingPingSlotEvents.length = 128)
    (hlenY : dY.m_pingSlotInfo.pendingPingSlotEvents.length = 128)
    (hpend : stalePingEvent host t0 d0 ∈ pending) :
    match d0.EndBeaconReserved host t0 phy1,
      dY.EndBeaconReserved host (t0 + Seconds 128) phy2 with
    | some (_, evs1, _), some (d2, evs2, _) =>
      stalePingEvent host t0 d0 ∈ evs1 ∧
        t0 + Seconds 128 < (stalePingEvent host t0 d0).time ∧
        d2.SetDeviceClass DeviceClass.CLASS_A (pending ++ evs2) =
          (true, (d2.SwitchFromClassB (pending ++ evs2)).1,
            (d2.SwitchFromClassB (pending ++ evs2)).2) ∧
        (d2.SwitchFromClassB (pending ++ evs2)).1.m_deviceClass = DeviceClass.CLASS_A ∧
        (d2.SwitchFromClassB (pending ++ evs2)).1.m_beaconState =
          BeaconState.BEACON_UNLOCKED ∧
        (∀ x ∈ evs2, x ∉ (d2.SwitchFromClassB (pending ++ evs2)).2) ∧
        stalePingEvent host t0 d0 ∈ (d2.SwitchFromClassB (pending ++ evs2)).2
    | _, _ => False := by
  obtain ⟨d1, cbs1, h1, -, -, -⟩ :=
    EndBeaconReserved_records_events host t0 phy1 d0 h0mode h0bs h0cls h0phy (by omega)
  obtain ⟨d2, cbs2, h2, hB, hvec, hguard⟩ :=
    EndBeaconReserved_records_events host (t0 + Seconds 128) phy2 dY hYmode hYbs hYcls hYphy
      (by omega)
  rw [h1, h2]
  simp only []
  have hfacts := stalePingEvent_facts host t0 d0
    (randWord host dY.m_beaconInfo.deviceBcnTime.GetSecondsUInt32 dY.effectiveAddress %
      d0.m_pingSlotInfo.pingPeriod) hP64 hP4096 (Nat.mod_lt _ (by omega))
  have hstale1 : stalePingEvent host t0 d0 ∈
      EndDeviceLoraMac.pingSlotLoop t0
        (randWord host d0.m_beaconInfo.deviceBcnTime.GetSecondsUInt32 d0.effectiveAddress %
          d0.m_pingSlotInfo.pingPeriod)
        d0.m_pingSlotInfo.pingPeriod d0.m_pingSlotInfo.pendingPingSlotEvents 0 := by
    have hget := pingSlotLoop_getElem? t0
      (randWord host d0.m_beaconInfo.deviceBcnTime.GetSecondsUInt32 d0.effectiveAddress %
        d0.m_pingSlotInfo.pingPeriod)
      d0.m_pingSlotInfo.pingPeriod d0.m_pingSlotInfo.pendingPingSlotEvents 127
      (by omega) (by omega)
    exact List.mem_iff_getElem?.mpr ⟨127, hget⟩
  have hstale2 : some (stalePingEvent host t0 d0) ∉ d2.m_pingSlotInfo.pendingPingSlotEvents := by
    rw [hvec, pingSlotLoop_eq_map _ _ _ _ 0 (by omega), hlenY]
    simp only [List.mem_map, List.mem_range', Option.some.injEq, not_exists, not_and]
    rintro x ⟨i, ⟨k, hk, rfl⟩, rfl⟩ heq
    have hcal := congrArg ScheduledEvent.callee heq
    have htime := congrArg ScheduledEvent.time heq
    simp only [stalePingEvent, MacEvent.OpenPingSlotReceiveWindow.injEq] at hcal
    simp only [Nat.zero_add, Nat.one_mul] at hcal htime
    subst hcal
    rw [hPY] at htime
    exact hfacts.2 htime.symm
  have hstale3 : d2.m_beaconInfo.nextBeaconGuardEvent ≠ some (stalePingEvent host t0 d0) := by
    rw [hguard]
    intro heq
    have hcal := congrArg ScheduledEvent.callee (Option.some.inj heq)
    simp [stalePingEvent] at hcal
  have hsw := fun x => mem_SwitchFromClassB (pending ++
    (EndDeviceLoraMac.pingSlotLoop (t0 + Seconds 128)
      (randWord host dY.m_beaconInfo.deviceBcnTime.GetSecondsUInt32 dY.effectiveAddress %
        dY.m_pingSlotInfo.pingPeriod)
      dY.m_pingSlotInfo.pingPeriod dY.m_pingSlotInfo.pendingPingSlotEvents 0 ++
      [{ time := t0 + Seconds 128 + MilliSeconds 122880,
         callee := MacEvent.StartBeaconGuard }])) d2 hB x
  refine ⟨List.mem_append_left _ hstale1, hfacts.1, ?_, (hsw (stalePingEvent host t0 d0)).1,
    (hsw (stalePingEvent host t0 d0)).2.1, ?_, ?_⟩
  · simp [EndDeviceLoraMac.SetDeviceClass, hB]
  · intro x hx hmem
    have h3 := ((hsw x).2.2.mp hmem)
    rcases List.mem_append.mp hx with hp | hg
    · exact h3.2.1 (by rw [hvec]; exact List.mem_map_of_mem _ hp)
    · simp only [List.mem_singleton] at hg
      exact h3.2.2 (by rw [hguard, hg])
  · exact ((hsw _).2.2).mpr ⟨List.mem_append_left _ hpend, hstale2, hstale3⟩

/-- C22 at the sample device with periodicity 1: the stale event is
`OpenPingSlotReceiveWindow (127)` scheduled at the end of the first
beacon-reserved. -/
theorem C22_stale_ping_event_survives_switch_witness :
    match samplePeriodicityOneDevice.EndBeaconReserved sampleHost
        (sampleBeaconInstant + MilliSeconds 2120) PhyState.STANDBY,
      sampleNextPeriodDevice.EndBeaconReserved sampleHost
        (sampleBeaconInstant + MilliSeconds 2120 + Seconds 128) PhyState.STANDBY with
    | some (_, evs1, _), some (d2, evs2, _) =>
      stalePingEvent sampleHost (sampleBeaconInstant + MilliSeconds 2120)
          samplePeriodicityOneDevice ∈ evs1 ∧
        sampleBeaconInstant + MilliSeconds 2120 + Seconds 128 <
          (stalePingEvent sampleHost (sampleBeaconInstant + MilliSeconds 2120)
            samplePeriodicityOneDevice).time ∧
        (d2.SwitchFromClassB
          ([stalePingEvent sampleHost (sampleBeaconInstant + MilliSeconds 2120)
            samplePeriodicityOneDevice] ++ evs2)).1.m_deviceClass = DeviceClass.CLASS_A ∧
        (∀ x ∈ evs2, x ∉ (d2.SwitchFromClassB
          ([stalePingEvent sampleHost (sampleBeaconInstant + MilliSeconds 2120)
            samplePeriodicityOneDevice] ++ evs2)).2) ∧
        stalePingEvent sampleHost (sampleBeaconInstant + MilliSeconds 2120)
            samplePeriodicityOneDevice ∈
          (d2.SwitchFromClassB
            ([stalePingEvent sampleHost (sampleBeaconInstant + MilliSeconds 2120)
              samplePeriodicityOneDevice] ++ evs2)).2
    | _, _ => False := by
  have h := C22_stale_ping_event_survives_switch sampleHost
    (sampleBeaconInstant + MilliSeconds 2120) PhyState.STANDBY PhyState.STANDBY
    samplePeriodicityOneDevice sampleNextPeriodDevice
    [stalePingEvent sampleHost (sampleBeaconInstant + MilliSeconds 2120)
      samplePeriodicityOneDevice]
    (by decide) (by decide) (by decide) (by decide) (by decide) (by decide) (by decide)
    (by decide) (by decide) (by decide) (by decide) (by simp [samplePeriodicityOneDevice])
    (by simp [sampleNextPeriodDevice, pingSlotLoop_length]) (by simp)
  revert h
  cases samplePeriodicityOneDevice.EndBeaconReserved sampleHost
      (sampleBeaconInstant + MilliSeconds 2120) PhyState.STANDBY with
  | none => exact fun h => h
  | some r1 =>
    cases sampleNextPeriodDevice.EndBeaconReserved sampleHost
        (sampleBeaconInstant + MilliSeconds 2120 + Seconds 128) PhyState.STANDBY with
    | none => exact fun h => h
    | some r2 =>
      intro h
      exact ⟨h.1, h.2.1, h.2.2.2.1, h.2.2.2.2.2.1, h.2.2.2.2.2.2⟩



theorem testBit_false_of_lt (x w i : Nat) (h : x < 2 ^ w) (hi : w ≤ i) : x.testBit i = false :=
  Nat.testBit_lt_two_pow (lt_of_lt_of_le h (Nat.pow_le_pow_right (by decide) hi))

/-- Masking with `w` one bits at position `s` and shifting right by `s` is
division and remainder. -/
theorem mask_then_shiftRight (t w s : Nat) :
    (t &&& ((2 ^ w - 1) <<< s)) >>> s = t / 2 ^ s % 2 ^ w := by
  apply Nat.eq_of_testBit_eq
  intro i
  rw [← Nat.shiftRight_eq_div_pow]
  simp only [Nat.testBit_shiftRight, Nat.testBit_and, Nat.testBit_shiftLeft,
    Nat.testBit_two_pow_sub_one, Nat.testBit_mod_two_pow]
  have h1 : s + i ≥ s := Nat.le_add_right s i
  have h2 : s + i - s = i := by omega
  simp only [h1, h2, decide_True, Bool.true_and]
  cases decide (i < w) <;> simp

/-- Shifting a `w`-bit value left by `s` and masking with `w` one bits at position
`s` changes nothing. -/
theorem shiftLeft_then_mask (x w s : Nat) (h : x < 2 ^ w) :
    (x <<< s) &&& ((2 ^ w - 1) <<< s) = x <<< s := by
  apply Nat.eq_of_testBit_eq
  intro i
  simp only [Nat.testBit_and, Nat.testBit_shiftLeft, Nat.testBit_two_pow_sub_one]
  by_cases hi : i ≥ s
  · by_cases hw : i - s < w
    · simp [hi, hw]
    · simp [hi, hw, testBit_false_of_lt x w (i - s) h (by omega)]
  · simp [hi]

theorem shiftRight_then_mask (v w s : Nat) :
    (v >>> s) &&& (2 ^ w - 1) = v / 2 ^ s % 2 ^ w := by
  rw [Nat.and_pow_two_sub_one_eq_mod, Nat.shiftRight_eq_div_pow]

theorem shiftLeft_or_low (hi lo s : Nat) (h : lo < 2 ^ s) :
    (hi <<< s) ||| lo = hi * 2 ^ s + lo := by
  rw [Nat.shiftLeft_eq, Nat.mul_comm hi, ← Nat.mul_add_lt_is_or h]

theorem serializedPart1_eq (t : Nat) :
    BcnPayload.serializedPart1 t =
      [0, 0, t / 2 ^ 24 % 256, t / 2 ^ 16 % 256, t / 2 ^ 8 % 256, t % 256] := by
  have h3 := mask_then_shiftRight t 8 24
  have h2 := mask_then_shiftRight t 8 16
  have h1 := mask_then_shiftRight t 8 8
  have h0 := Nat.and_pow_two_sub_one_eq_mod t 8
  have e3 : (2 ^ 8 - 1) <<< 24 = 0xff000000 := by decide
  have e2 : (2 ^ 8 - 1) <<< 16 = 0x00ff0000 := by decide
  have e1 : (2 ^ 8 - 1) <<< 8 = 0x0000ff00 := by decide
  have e0 : 2 ^ 8 - 1 = 0x000000ff := by decide
  rw [e3] at h3
  rw [e2] at h2
  rw [e1] at h1
  rw [e0] at h0
  unfold BcnPayload.serializedPart1
  rw [h3, h2, h1, h0]
  simp

theorem reconstructedBcnTime_eq (b2 b3 b4 b5 : Nat) (h2 : b2 < 256) (h3 : b3 < 256)
    (h4 : b4 < 256) (h5 : b5 < 256) :
    BcnPayload.reconstructedBcnTime b2 b3 b4 b5 =
      b2 * 2 ^ 24 + b3 * 2 ^ 16 + b4 * 2 ^ 8 + b5 := by
  have m2 := shiftLeft_then_mask b2 8 24 h2
  have m3 := shiftLeft_then_mask b3 8 16 h3
  have m4 := shiftLeft_then_mask b4 8 8 h4
  have m5 := shiftLeft_then_mask b5 8 0 h5
  have e3 : (2 ^ 8 - 1) <<< 24 = 0xff000000 := by decide
  have e2 : (2 ^ 8 - 1) <<< 16 = 0x00ff0000 := by decide
  have e1 : (2 ^ 8 - 1) <<< 8 = 0x0000ff00 := by decide
  have e0 : (2 ^ 8 - 1) <<< 0 = 0x000000ff := by decide
  rw [e3] at m2
  rw [e2] at m3
  rw [e1] at m4
  rw [e0] at m5
  unfold BcnPayload.reconstructedBcnTime
  have s3 : 8 * 3 = 24 := rfl
  have s2 : 8 * 2 = 16 := rfl
  have s1 : 8 * 1 = 8 := rfl
  have s0 : 8 * 0 = 0 := rfl
  rw [s3, s2, s1, s0, m2, m3, m4, m5]
  have p5 : b5 <<< 0 = b5 := by simp
  rw [p5]
  have q1 : (b2 <<< 24 ||| b3 <<< 16) = (b2 * 2 ^ 8 + b3) <<< 16 := by
    rw [shiftLeft_or_low b2 (b3 <<< 16) 24 (by rw [Nat.shiftLeft_eq]; omega),
      Nat.shiftLeft_eq, Nat.shiftLeft_eq]
    omega
  rw [q1]
  have q2 : ((b2 * 2 ^ 8 + b3) <<< 16 ||| b4 <<< 8) = ((b2 * 2 ^ 8 + b3) * 2 ^ 8 + b4) <<< 8 := by
    rw [shiftLeft_or_low _ (b4 <<< 8) 16 (by rw [Nat.shiftLeft_eq]; omega),
      Nat.shiftLeft_eq, Nat.shiftLeft_eq]
    omega
  rw [q2, shiftLeft_or_low _ b5 8 (by omega)]
  omega

theorem stamp_round_trip (t : Nat) (ht : t < 2 ^ 32) :
    BcnPayload.reconstructedBcnTime (t / 2 ^ 24 % 256) (t / 2 ^ 16 % 256) (t / 2 ^ 8 % 256)
      (t % 256) = t := by
  rw [reconstructedBcnTime_eq _ _ _ _ (Nat.mod_lt _ (by decide)) (Nat.mod_lt _ (by decide))
    (Nat.mod_lt _ (by decide)) (Nat.mod_lt _ (by decide))]
  omega



theorem byteAt_lt (buf : List Nat) (i : Nat) : byteAt buf i < 256 :=
  Nat.mod_lt _ (by decide)

theorem crcStep_lt (a d : Nat) : BcnPayload.crcStep a d < 2 ^ 16 := by
  unfold BcnPayload.crcStep
  exact Nat.mod_lt _ (by decide)

theorem GenerateCrc16_lt (data : List Nat) (length : Nat) :
    BcnPayload.GenerateCrc16 data length < 2 ^ 16 := by
  unfold BcnPayload.GenerateCrc16
  generalize data.take length = l
  induction l using List.reverseRecOn with
  | nil => simp
  | append_singleton l a _ => rw [List.foldl_append]; exact crcStep_lt _ _

theorem getD_append_cons (pre rest : List Nat) (x d n : Nat) (h : pre.length = n) :
    (pre ++ x :: rest).getD n d = x := by
  subst h
  induction pre with
  | nil => rfl
  | cons a l ih => simpa [List.getD_cons_succ] using ih

theorem firstSix_eq_take (bytes : List Nat) (hlen : 6 ≤ bytes.length)
    (hbytes : ∀ b ∈ bytes, b < 256) :
    (List.range 6).map (byteAt bytes) = bytes.take 6 := by
  apply List.ext_getElem
  · simp [hlen]
  · intro i h1 h2
    simp only [List.length_map, List.length_range] at h1
    have hi : i < bytes.length := by omega
    simp only [List.getElem_map, List.getElem_range, List.getElem_take, byteAt,
      List.getD_eq_getElem?_getD, List.getElem?_eq_getElem hi, Option.getD_some]
    exact Nat.mod_eq_of_lt (hbytes _ (List.getElem_mem _))

theorem before_second_arith (t s : Int) (h : t + 1000 ≤ s * 1000000000) :
    t < s * 1000000000 := by
  omega

theorem exactClock_faithful : exactClock.Faithful := by
  refine ⟨?_, ?_, ?_⟩
  · intro t u h
    simp only [exactClock]
    exact div_le_div_of_nonneg_right (by exact_mod_cast h) (by norm_num)
  · intro s _
    simp only [exactClock, Seconds]
    push_cast
    exact mul_div_cancel_right₀ _ (by norm_num)
  · intro t s _ h
    simp only [exactClock]
    rw [div_lt_iff₀ (by norm_num)]
    have h2 : (t : Int) < (s : Int) * 1000000000 := before_second_arith t s h
    exact_mod_cast h2

theorem ClockHost_not_below (clock : ClockHost) (hclock : clock.Faithful) (now : Time)
    (s : Nat) (hs : s ≤ 2 ^ 32) (h : Seconds (s : Int) ≤ now) :
    ¬ clock.GetSeconds now < (s : ℚ) := by
  rw [not_lt, ← hclock.2.1 s hs]
  exact hclock.1 _ _ h

theorem embeddedStamp_le (bytes : List Nat) : embeddedStamp bytes ≤ 2 ^ 32 := by
  have h2 := byteAt_lt bytes 2
  have h3 := byteAt_lt bytes 3
  have h4 := byteAt_lt bytes 4
  have h5 := byteAt_lt bytes 5
  unfold embeddedStamp
  omega

/-- The result of `Deserialize` in terms of the embedded time stamp. -/
theorem Deserialize_cases (clock : ClockHost) (buf : BufferHost) (now : Time)
    (bytes : List Nat) (p : BcnPayload) :
    (BcnPayload.GenerateCrc16 ((List.range 6).map (byteAt bytes)) 6 ≠
        buf.readU16 ((bytes.drop 6).take 2) →
      p.Deserialize clock buf now bytes = (0, p)) ∧
    (BcnPayload.GenerateCrc16 ((List.range 6).map (byteAt bytes)) 6 =
        buf.readU16 ((bytes.drop 6).take 2) →
      clock.GetSeconds now < (embeddedStamp bytes : ℚ) →
      p.Deserialize clock buf now bytes = (0, { p with m_bcnTime := 0 })) ∧
    (BcnPayload.GenerateCrc16 ((List.range 6).map (byteAt bytes)) 6 =
        buf.readU16 ((bytes.drop 6).take 2) →
      ¬ clock.GetSeconds now < (embeddedStamp bytes : ℚ) →
      (p.Deserialize clock buf now bytes).1 = 17 ∧
      (p.Deserialize clock buf now bytes).2.m_bcnTime = embeddedStamp bytes ∧
      (p.Deserialize clock buf now bytes).2.m_infoDesc = byteAt bytes 8 ∧
      (byteAt bytes 8 < 3 →
        (p.Deserialize clock buf now bytes).2.m_latitude =
          buf.readU64 ((bytes.drop 9).take 8) / 2 ^ 40 % 2 ^ 24 ∧
        (p.Deserialize clock buf now bytes).2.m_longitude =
          buf.readU64 ((bytes.drop 9).take 8) / 2 ^ 16 % 2 ^ 24) ∧
      (p.Deserialize clock buf now bytes).2.m_info =
        buf.readU64 ((bytes.drop 9).take 8) / 2 ^ 16 % 2 ^ 48) := by
  have hstamp : BcnPayload.reconstructedBcnTime (byteAt bytes 2) (byteAt bytes 3)
      (byteAt bytes 4) (byteAt bytes 5) = embeddedStamp bytes :=
    reconstructedBcnTime_eq _ _ _ _ (byteAt_lt _ _) (byteAt_lt _ _) (byteAt_lt _ _)
      (byteAt_lt _ _)
  have e24 : (0x00ffffff : Nat) = 2 ^ 24 - 1 := by decide
  have e48 : (0x0000ffffffffffff : Nat) = 2 ^ 48 - 1 := by decide
  have hl := shiftRight_then_mask (buf.readU64 ((bytes.drop 9).take 8)) 24 40
  have hg := shiftRight_then_mask (buf.readU64 ((bytes.drop 9).take 8)) 24 16
  have hi := shiftRight_then_mask (buf.readU64 ((bytes.drop 9).take 8)) 48 16
  rw [← e24] at hl hg
  rw [← e48] at hi
  have hl32 : buf.readU64 ((bytes.drop 9).take 8) / 2 ^ 40 % 2 ^ 24 % 2 ^ 32 =
      buf.readU64 ((bytes.drop 9).take 8) / 2 ^ 40 % 2 ^ 24 := by omega
  have hg32 : buf.readU64 ((bytes.drop 9).take 8) / 2 ^ 16 % 2 ^ 24 % 2 ^ 32 =
      buf.readU64 ((bytes.drop 9).take 8) / 2 ^ 16 % 2 ^ 24 := by omega
  refine ⟨fun hcrc => ?_, fun hcrc hlate => ?_, fun hcrc hok => ?_⟩
  · unfold BcnPayload.Deserialize
    simp only []
    rw [if_pos hcrc]
  · unfold BcnPayload.Deserialize
    simp only []
    rw [if_neg (not_not.mpr hcrc), hstamp, if_pos hlate]
  · unfold BcnPayload.Deserialize
    simp only []
    rw [if_neg (not_not.mpr hcrc), hstamp, if_neg hok]
    have s5 : 5 * 8 = 40 := rfl
    have s2 : 2 * 8 = 16 := rfl
    rw [s5, s2]
    refine ⟨rfl, ?_, ?_, ?_, ?_⟩
    · split_ifs <;> rfl
    · split_ifs <;> rfl
    · intro h3
      rw [if_pos h3]
      simp only []
      rw [hl, hg, hl32, hg32]
      exact ⟨rfl, rfl⟩
    · split_ifs <;> simp only [] <;> exact hi



theorem sampleBuffer_faithful : sampleBuffer.Faithful := by
  constructor
  · intro x hx
    refine ⟨rfl, ?_⟩
    show x % 256 + 256 * (x / 256 % 256) = x
    omega
  · intro x hx
    refine ⟨by simp [sampleBuffer], ?_⟩
    simp only [sampleBuffer, List.range_succ, List.range_zero, List.nil_append, List.map_append,
      List.map_cons, List.map_nil, List.cons_append, List.getD_cons_zero, List.getD_cons_succ,
      List.sum_cons, List.sum_nil]
    norm_num
    omega

theorem serializedInfo_eq (p : BcnPayload) (hdesc : p.m_infoDesc < 256)
    (hlat : p.m_latitude < 2 ^ 24) (hlon : p.m_longitude < 2 ^ 24) (hinfo : p.m_info < 2 ^ 48) :
    BcnPayload.serializedInfo p =
      if p.m_infoDesc < 3 then p.m_latitude * 2 ^ 40 + p.m_longitude * 2 ^ 16
      else if p.m_infoDesc > 127 then p.m_info * 2 ^ 16
      else 0 := by
  have e1 : (0xffffff0000000000 : Nat) = (2 ^ 24 - 1) <<< 40 := by decide
  have e2 : (0x000000ffffff0000 : Nat) = (2 ^ 24 - 1) <<< 16 := by decide
  have s5 : 5 * 8 = 40 := rfl
  have s2 : 2 * 8 = 16 := rfl
  have hla : (p.m_latitude <<< 40) % 2 ^ 64 = p.m_latitude <<< 40 := by
    rw [Nat.shiftLeft_eq]; omega
  have hlo : (p.m_longitude <<< 16) % 2 ^ 64 = p.m_longitude <<< 16 := by
    rw [Nat.shiftLeft_eq]; omega
  have hin : (p.m_info <<< 16) % 2 ^ 64 = p.m_info <<< 16 := by
    rw [Nat.shiftLeft_eq]; omega
  unfold BcnPayload.serializedInfo
  simp only [Nat.mod_eq_of_lt hdesc, s5, s2, hla, hlo, hin, Nat.or_zero]
  split_ifs
  · rw [e1, e2, shiftLeft_then_mask _ 24 40 hlat, shiftLeft_then_mask _ 24 16 hlon,
      shiftLeft_or_low _ _ 40 (by rw [Nat.shiftLeft_eq]; omega), Nat.shiftLeft_eq]
  · rw [Nat.shiftLeft_eq]
  · rfl

theorem firstSix_of_cons (a0 a1 a2 a3 a4 a5 : Nat) (rest : List Nat) (h0 : a0 < 256)
    (h1 : a1 < 256) (h2 : a2 < 256) (h3 : a3 < 256) (h4 : a4 < 256) (h5 : a5 < 256) :
    (List.range 6).map (byteAt (a0 :: a1 :: a2 :: a3 :: a4 :: a5 :: rest)) =
      [a0, a1, a2, a3, a4, a5] := by
  simp [List.range_succ, byteAt, Nat.mod_eq_of_lt, h0, h1, h2, h3, h4, h5]

/-- C26: for a payload with a non-zero 32-bit time stamp not later than the receiver's
clock, an 8-bit descriptor, latitude and longitude below `2 ^ 24` and info below
`2 ^ 48`, `Serialize` writes 17 bytes: two zero bytes, the time stamp most
significant byte first, the two bytes of the CRC of these six bytes, the
descriptor and the eight bytes of the info field; `Deserialize` of these bytes
returns 17 and restores the time stamp and the descriptor, the latitude and the
longitude when the descriptor is below 3, and the info when it is above 127.
The `double` of `GetSeconds` that `Deserialize` compares with the stamp is not
below a whole second that the instant has reached. -/
theorem C26_beacon_payload_round_trip (clock : ClockHost) (buf : BufferHost) (now : Time)
    (p q : BcnPayload) (hclock : clock.Faithful)
    (hbuf : buf.Faithful) (ht0 : p.m_bcnTime ≠ 0) (ht32 : p.m_bcnTime < 2 ^ 32)
    (hnow : Seconds (p.m_bcnTime : Int) ≤ now) (hdesc : p.m_infoDesc < 256)
    (hlat : p.m_latitude < 2 ^ 24) (hlon : p.m_longitude < 2 ^ 24)
    (hinfo : p.m_info < 2 ^ 48) :
    ∃ crcBytes infoBytes,
      crcBytes.length = 2 ∧ infoBytes.length = 8 ∧
      buf.readU16 crcBytes =
        BcnPayload.GenerateCrc16
          [0, 0, p.m_bcnTime / 2 ^ 24 % 256, p.m_bcnTime / 2 ^ 16 % 256,
           p.m_bcnTime / 2 ^ 8 % 256, p.m_bcnTime % 256] 6 ∧
      p.Serialize buf =
        some ([0, 0, p.m_bcnTime / 2 ^ 24 % 256, p.m_bcnTime / 2 ^ 16 % 256,
               p.m_bcnTime / 2 ^ 8 % 256, p.m_bcnTime % 256] ++ crcBytes ++
              [p.m_infoDesc] ++ infoBytes) ∧
      (p.Serialize buf).map List.length = some 17 ∧
      (p.Serialize buf).map (fun bytes => (q.Deserialize clock buf now bytes).1) = some 17 ∧
      (p.Serialize buf).map (fun bytes => (q.Deserialize clock buf now bytes).2.m_bcnTime) =
        some p.m_bcnTime ∧
      (p.Serialize buf).map (fun bytes => (q.Deserialize clock buf now bytes).2.m_infoDesc) =
        some p.m_infoDesc ∧
      (p.m_infoDesc < 3 →
        (p.Serialize buf).map (fun bytes => (q.Deserialize clock buf now bytes).2.m_latitude) =
          some p.m_latitude ∧
        (p.Serialize buf).map (fun bytes => (q.Deserialize clock buf now bytes).2.m_longitude) =
          some p.m_longitude) ∧
      (p.m_infoDesc > 127 →
        (p.Serialize buf).map (fun bytes => (q.Deserialize clock buf now bytes).2.m_info) =
          some p.m_info) := by
  have hpart := serializedPart1_eq p.m_bcnTime
  have hinfoEq := serializedInfo_eq p hdesc hlat hlon hinfo
  have hinfo64 : BcnPayload.serializedInfo p < 2 ^ 64 := by
    rw [hinfoEq]; split_ifs <;> omega
  obtain ⟨hw16len, hw16⟩ := hbuf.1 _ (GenerateCrc16_lt
    [0, 0, p.m_bcnTime / 2 ^ 24 % 256, p.m_bcnTime / 2 ^ 16 % 256,
     p.m_bcnTime / 2 ^ 8 % 256, p.m_bcnTime % 256] 6)
  obtain ⟨hw64len, hw64⟩ := hbuf.2 _ hinfo64
  have hser : p.Serialize buf =
      some ([0, 0, p.m_bcnTime / 2 ^ 24 % 256, p.m_bcnTime / 2 ^ 16 % 256,
             p.m_bcnTime / 2 ^ 8 % 256, p.m_bcnTime % 256] ++
            buf.writeU16 (BcnPayload.GenerateCrc16
              [0, 0, p.m_bcnTime / 2 ^ 24 % 256, p.m_bcnTime / 2 ^ 16 % 256,
               p.m_bcnTime / 2 ^ 8 % 256, p.m_bcnTime % 256] 6) ++
            [p.m_infoDesc] ++ buf.writeU64 (BcnPayload.serializedInfo p)) := by
    unfold BcnPayload.Serialize
    rw [if_neg ht0]
    simp only [hpart, Nat.mod_eq_of_lt hdesc]
  generalize hcb : buf.writeU16 (BcnPayload.GenerateCrc16
      [0, 0, p.m_bcnTime / 2 ^ 24 % 256, p.m_bcnTime / 2 ^ 16 % 256,
       p.m_bcnTime / 2 ^ 8 % 256, p.m_bcnTime % 256] 6) = crcBytes at hser hw16len hw16
  generalize hib : buf.writeU64 (BcnPayload.serializedInfo p) = infoBytes at hser hw64len hw64
  have hb : ∀ k : Nat, k % 256 < 256 := fun k => Nat.mod_lt _ (by decide)

  have hsix : (List.range 6).map (byteAt
      ([0, 0, p.m_bcnTime / 2 ^ 24 % 256, p.m_bcnTime / 2 ^ 16 % 256,
        p.m_bcnTime / 2 ^ 8 % 256, p.m_bcnTime % 256] ++ crcBytes ++
        [p.m_infoDesc] ++ infoBytes)) =
      [0, 0, p.m_bcnTime / 2 ^ 24 % 256, p.m_bcnTime / 2 ^ 16 % 256,
       p.m_bcnTime / 2 ^ 8 % 256, p.m_bcnTime % 256] := by
    simp only [List.cons_append, List.nil_append, List.append_assoc]
    exact firstSix_of_cons _ _ _ _ _ _ _ (by decide) (by decide) (hb _) (hb _) (hb _) (hb _)
  have hcrcBytes : (([0, 0, p.m_bcnTime / 2 ^ 24 % 256, p.m_bcnTime / 2 ^ 16 % 256,
        p.m_bcnTime / 2 ^ 8 % 256, p.m_bcnTime % 256] ++ crcBytes ++
        [p.m_infoDesc] ++ infoBytes).drop 6).take 2 = crcBytes := by
    rw [List.append_assoc, List.append_assoc, List.drop_left' (by rfl), List.take_left' hw16len]
  have hinfoBytes : (([0, 0, p.m_bcnTime / 2 ^ 24 % 256, p.m_bcnTime / 2 ^ 16 % 256,
        p.m_bcnTime / 2 ^ 8 % 256, p.m_bcnTime % 256] ++ crcBytes ++
        [p.m_infoDesc] ++ infoBytes).drop 9).take 8 = infoBytes := by
    rw [List.drop_left' (by simp [hw16len]), List.take_of_length_le (by omega)]
  have hdescByte : byteAt ([0, 0, p.m_bcnTime / 2 ^ 24 % 256, p.m_bcnTime / 2 ^ 16 % 256,
        p.m_bcnTime / 2 ^ 8 % 256, p.m_bcnTime % 256] ++ crcBytes ++
        [p.m_infoDesc] ++ infoBytes) 8 = p.m_infoDesc := by
    unfold byteAt
    rw [List.append_assoc _ [p.m_infoDesc] infoBytes, List.singleton_append,
      getD_append_cons _ _ _ _ 8 (by simp [hw16len]), Nat.mod_eq_of_lt hdesc]
  have hstampBytes : embeddedStamp ([0, 0, p.m_bcnTime / 2 ^ 24 % 256,
        p.m_bcnTime / 2 ^ 16 % 256, p.m_bcnTime / 2 ^ 8 % 256, p.m_bcnTime % 256] ++
        crcBytes ++ [p.m_infoDesc] ++ infoBytes) = p.m_bcnTime := by
    simp only [embeddedStamp, byteAt, List.cons_append, List.nil_append, List.append_assoc,
      List.getD_cons_succ, List.getD_cons_zero, Nat.mod_mod]
    omega
  obtain ⟨-, -, hcase⟩ := Deserialize_cases clock buf now
    ([0, 0, p.m_bcnTime / 2 ^ 24 % 256, p.m_bcnTime / 2 ^ 16 % 256,
      p.m_bcnTime / 2 ^ 8 % 256, p.m_bcnTime % 256] ++ crcBytes ++
      [p.m_infoDesc] ++ infoBytes) q
  rw [hsix, hcrcBytes, hinfoBytes, hdescByte, hstampBytes, hw64, hinfoEq] at hcase
  obtain ⟨r1, r2, r3, r4, r5⟩ := hcase hw16.symm
    (ClockHost_not_below clock hclock now p.m_bcnTime (le_of_lt ht32) hnow)
  refine ⟨crcBytes, infoBytes, hw16len, hw64len, hw16, hser, ?_, ?_, ?_, ?_, ?_, ?_⟩
  · rw [hser]; simp [hw16len, hw64len]
  · rw [hser]; exact congrArg some r1
  · rw [hser]; exact congrArg some r2
  · rw [hser]; exact congrArg some r3
  · intro h3
    obtain ⟨r4a, r4b⟩ := r4 h3
    rw [if_pos h3] at r4a r4b
    rw [hser]
    constructor
    · simp only [Option.map_some']
      rw [r4a]
      congr 1
      omega
    · simp only [Option.map_some']
      rw [r4b]
      congr 1
      omega
  · intro h127
    rw [if_neg (by omega), if_pos h127] at r5
    rw [hser]
    simp only [Option.map_some']
    rw [r5]
    congr 1
    omega



/-- C26 at the sample payload (time stamp 1152, first antenna location) read at
1152.015 s. -/
theorem C26_beacon_payload_round_trip_witness :
    (samplePayload.Serialize sampleBuffer).map List.length = some 17 ∧
      (samplePayload.Serialize sampleBuffer).map
        (fun bytes => (({} : BcnPayload).Deserialize exactClock sampleBuffer sampleBeaconInstant bytes).1) =
        some 17 ∧
      (samplePayload.Serialize sampleBuffer).map
        (fun bytes =>
          (({} : BcnPayload).Deserialize exactClock sampleBuffer sampleBeaconInstant bytes).2.m_bcnTime) =
        some samplePayload.m_bcnTime ∧
      (samplePayload.Serialize sampleBuffer).map
        (fun bytes =>
          (({} : BcnPayload).Deserialize exactClock sampleBuffer sampleBeaconInstant bytes).2.m_latitude) =
        some samplePayload.m_latitude :=
  match C26_beacon_payload_round_trip exactClock sampleBuffer sampleBeaconInstant samplePayload {}
    exactClock_faithful sampleBuffer_faithful (by decide) (by decide) (by decide) (by decide) (by decide)
    (by decide) (by decide) with
  | ⟨_, _, _, _, _, _, h5, h6, h7, _, h9, _⟩ => ⟨h5, h6, h7, (h9 (by decide)).1⟩

/-- C27: `Deserialize` on a freshly constructed `BcnPayload` and a buffer of at least 17
bytes returns 0 and leaves `GetBcnTime () = 0` if and only if the CRC-16
computed over the first 6 bytes differs from the stored 2-byte CRC or the
embedded time stamp is greater than the current time in seconds, which is the
`double` returned by `Simulator::Now ().GetSeconds ()`; in every other case it
returns 17 and `GetBcnTime ()` is the embedded time stamp. In exact time: a
stamp not after `now` is not greater than that `double`, and a stamp at least
1000 ns after `now` is greater. -/
theorem C27_Deserialize_rejects_iff (clock : ClockHost) (buf : BufferHost) (now : Time)
    (bytes : List Nat) (hclock : clock.Faithful)
    (hlen : 17 ≤ bytes.length) (hbytes : ∀ b ∈ bytes, b < 256) :
    (((({} : BcnPayload).Deserialize clock buf now bytes).1 = 0 ∧
        (({} : BcnPayload).Deserialize clock buf now bytes).2.GetBcnTime = 0) ↔
      (BcnPayload.GenerateCrc16 (bytes.take 6) 6 ≠ buf.readU16 ((bytes.drop 6).take 2) ∨
        clock.GetSeconds now < (embeddedStamp bytes : ℚ))) ∧
    (¬ (BcnPayload.GenerateCrc16 (bytes.take 6) 6 ≠ buf.readU16 ((bytes.drop 6).take 2) ∨
        clock.GetSeconds now < (embeddedStamp bytes : ℚ)) →
      (({} : BcnPayload).Deserialize clock buf now bytes).1 = 17 ∧
      (({} : BcnPayload).Deserialize clock buf now bytes).2.GetBcnTime = embeddedStamp bytes) ∧
    (Seconds (embeddedStamp bytes : Int) ≤ now →
      ¬ clock.GetSeconds now < (embeddedStamp bytes : ℚ)) ∧
    (now + 1000 ≤ Seconds (embeddedStamp bytes : Int) →
      clock.GetSeconds now < (embeddedStamp bytes : ℚ)) := by
  obtain ⟨c1, c2, c3⟩ := Deserialize_cases clock buf now bytes {}
  rw [firstSix_eq_take bytes (by omega) hbytes] at c1 c2 c3
  refine ⟨?_, ?_, ClockHost_not_below clock hclock now _ (embeddedStamp_le bytes),
    hclock.2.2 now _ (embeddedStamp_le bytes)⟩
  · by_cases hcrc : BcnPayload.GenerateCrc16 (bytes.take 6) 6 =
        buf.readU16 ((bytes.drop 6).take 2)
    · by_cases hlate : clock.GetSeconds now < (embeddedStamp bytes : ℚ)
      · have h := c2 hcrc hlate
        exact ⟨fun _ => Or.inr hlate, fun _ => by rw [h]; exact ⟨rfl, rfl⟩⟩
      · obtain ⟨r1, -, -⟩ := c3 hcrc hlate
        refine ⟨fun h => ?_, fun h => ?_⟩
        · rw [r1] at h
          exact absurd h.1 (by decide)
        · rcases h with h | h
          · exact absurd hcrc h
          · exact absurd h hlate
    · have h := c1 hcrc
      exact ⟨fun _ => Or.inl hcrc, fun _ => by rw [h]; exact ⟨rfl, rfl⟩⟩
  · intro hn
    rw [not_or, not_not] at hn
    obtain ⟨r1, r2, -⟩ := c3 hn.1 hn.2
    exact ⟨r1, r2⟩

/-- C27 at the 17 bytes of the sample payload (time stamp 1152) and a clock without
rounding: read at 1000 s they are rejected, read at 1152.015 s they are
accepted. -/
theorem C27_Deserialize_rejects_iff_witness :
    samplePayloadBytes.length = 17 ∧
      ((({} : BcnPayload).Deserialize exactClock sampleBuffer (Seconds 1000)
          samplePayloadBytes).1 = 0 ∧
        (({} : BcnPayload).Deserialize exactClock sampleBuffer (Seconds 1000)
          samplePayloadBytes).2.GetBcnTime = 0) ∧
      ((({} : BcnPayload).Deserialize exactClock sampleBuffer sampleBeaconInstant
          samplePayloadBytes).1 = 17 ∧
        (({} : BcnPayload).Deserialize exactClock sampleBuffer sampleBeaconInstant
          samplePayloadBytes).2.GetBcnTime = embeddedStamp samplePayloadBytes) :=
  ⟨by decide,
    (C27_Deserialize_rejects_iff exactClock sampleBuffer (Seconds 1000) samplePayloadBytes
      exactClock_faithful (by decide) (by decide)).1.mpr
      (Or.inr ((C27_Deserialize_rejects_iff exactClock sampleBuffer (Seconds 1000)
        samplePayloadBytes exactClock_faithful (by decide) (by decide)).2.2.2 (by decide))),
    (C27_Deserialize_rejects_iff exactClock sampleBuffer sampleBeaconInstant samplePayloadBytes
      exactClock_faithful (by decide) (by decide)).2.1
      (not_or.mpr ⟨by decide,
        (C27_Deserialize_rejects_iff exactClock sampleBuffer sampleBeaconInstant
          samplePayloadBytes exactClock_faithful (by decide) (by decide)).2.2.1 (by decide)⟩)⟩

theorem forwardedRequests_bounded (n : Nat) (hn : 0 < n) :
    ∀ (count : Nat) (app : EndDeviceClassBApp), app.m_nAttempt = n →
      app.m_countAttempt ≤ n + 1 → n + 1 < 2 ^ 64 →
      forwardedRequests app count = min count (n + 1 - app.m_countAttempt) := by
  intro count
  induction count with
  | zero => intro app _ _ _; simp [forwardedRequests]
  | succ k ih =>
    intro app hattempt hcount hbig
    by_cases hlim : app.m_countAttempt > n
    · have hc : app.m_countAttempt = n + 1 := by omega
      have hstep : app.SwitchToClassB = (app, false) := by
        unfold EndDeviceClassBApp.SwitchToClassB
        rw [if_pos]
        rw [hattempt]
        exact ⟨by omega, hlim⟩
      have hrec := ih app hattempt hcount hbig
      rw [forwardedRequests, hstep]
      simp only [Bool.false_eq_true, if_false, Nat.zero_add]
      rw [hrec, hc]
      simp
    · have hstep : app.SwitchToClassB =
          ({ app with m_countAttempt := app.m_countAttempt + 1 }, true) := by
        unfold EndDeviceClassBApp.SwitchToClassB
        rw [if_neg (by rw [hattempt]; intro h; exact hlim h.2)]
        rw [Nat.mod_eq_of_lt (by omega)]
      have hrec := ih { app with m_countAttempt := app.m_countAttempt + 1 } hattempt
        (by show app.m_countAttempt + 1 ≤ n + 1; omega) hbig
      rw [forwardedRequests, hstep]
      simp only [if_true]
      rw [hrec]
      show 1 + min k (n + 1 - (app.m_countAttempt + 1)) = _
      omega

theorem forwardedRequests_unlimited :
    ∀ (count : Nat) (app : EndDeviceClassBApp), app.m_nAttempt = 0 →
      forwardedRequests app count = count := by
  intro count
  induction count with
  | zero => intro app _; simp [forwardedRequests]
  | succ k ih =>
    intro app hattempt
    have hstep : app.SwitchToClassB =
        ({ app with m_countAttempt := (app.m_countAttempt + 1) % 2 ^ 64 }, true) := by
      unfold EndDeviceClassBApp.SwitchToClassB
      rw [if_neg (by rw [hattempt]; intro h; exact h.1 rfl)]
    rw [forwardedRequests, hstep]
    simp only [if_true]
    rw [ih { app with m_countAttempt := (app.m_countAttempt + 1) % 2 ^ 64 } hattempt]
    omega

theorem sequencedLoop_length : ∀ (count sequence : Nat), (sequencedLoop count sequence).length = count := by
  intro count
  induction count with
  | zero => intro _; rfl
  | succ k ih => intro s; simp [sequencedLoop, ih]

theorem sequencedLoop_getD : ∀ (count sequence i : Nat), i < count →
    (sequencedLoop count sequence).getD i 0 = sequence / 10 ^ i % 10 := by
  intro count
  induction count with
  | zero => intro _ i hi; omega
  | succ k ih =>
    intro s i hi
    cases i with
    | zero =>
      simp only [sequencedLoop, List.getD_cons_zero, pow_zero, Nat.div_one]
      omega
    | succ j =>
      simp only [sequencedLoop, List.getD_cons_succ]
      rw [ih (s / 10) j (by omega), Nat.div_div_eq_div_mul, pow_succ]
      congr 2
      ring

theorem decodeSequence_digits (buff : List Nat) (s : Nat) (hs : s < 2 ^ 32) :
    ∀ (k : Nat), (∀ i, i < k → byteAt buff i = s / 10 ^ i % 10) →
      (List.range k).foldlM (FragmentedPacketDecoder.decodeStep buff) 0 = some (s % 10 ^ k) := by
  intro k
  induction k with
  | zero => intro _; simp [Nat.mod_one]
  | succ j ih =>
    intro hbytes
    rw [List.range_succ, List.foldlM_append, ih (fun i hi => hbytes i (by omega))]
    have hstep : s % 10 ^ j + s / 10 ^ j % 10 * 10 ^ j = s % 10 ^ (j + 1) := by
      rw [Nat.mod_pow_succ]; ring
    have hle : s % 10 ^ (j + 1) ≤ s := Nat.mod_le _ _
    simp only [List.foldlM_cons, List.foldlM_nil, FragmentedPacketDecoder.decodeStep,
      hbytes j (Nat.lt_succ_self j), bind, Option.bind, pure, hstep]
    rw [if_pos (by omega)]

theorem toInt32_succ (x : Nat) (h : toInt32 x ≠ 2 ^ 31 - 1) :
    toInt32 ((x + 1) % 2 ^ 32) = toInt32 x + 1 := by
  unfold toInt32 at h ⊢
  norm_num at h ⊢
  split_ifs at h ⊢ <;> omega

theorem toInt32_range (x : Nat) : -(2 ^ 31) ≤ toInt32 x ∧ toInt32 x < 2 ^ 31 := by
  unfold toInt32
  norm_num
  split_ifs <;> omega

theorem missedLoop_returns (sequence : Nat) :
    ∀ (fuel : Nat) (dec : FragmentedPacketDecoder),
      -(2 ^ 31) ≤ toInt32 sequence - toInt32 dec.expectedFragment →
      toInt32 sequence - toInt32 dec.expectedFragment < 2 ^ 31 →
      (toInt32 sequence - toInt32 dec.expectedFragment).toNat < fuel →
      ∃ dec1, FragmentedPacketDecoder.missedLoop sequence fuel dec = some dec1 ∧
        dec1.maxSize = dec.maxSize := by
  intro fuel
  induction fuel with
  | zero => intro dec _ _ h; omega
  | succ f ih =>
    intro dec hlo hhi hfuel
    unfold FragmentedPacketDecoder.missedLoop
    simp only []
    rw [if_neg (by omega)]
    by_cases hpos : toInt32 sequence - toInt32 dec.expectedFragment > 0
    · rw [if_pos hpos]
      have hr := toInt32_range sequence
      have hsucc := toInt32_succ dec.expectedFragment (by omega)
      obtain ⟨dec1, h1, h2⟩ := ih { dec with
          missedFragments := dec.missedFragments ++ [dec.expectedFragment]
          lastNumberOfFragmentMissed := (dec.lastNumberOfFragmentMissed + 1) % 2 ^ 32
          expectedFragment := (dec.expectedFragment + 1) % 2 ^ 32 }
        (by show -(2 ^ 31) ≤ toInt32 sequence - toInt32 ((dec.expectedFragment + 1) % 2 ^ 32)
            omega)
        (by show toInt32 sequence - toInt32 ((dec.expectedFragment + 1) % 2 ^ 32) < 2 ^ 31
            omega)
        (by show (toInt32 sequence - toInt32 ((dec.expectedFragment + 1) % 2 ^ 32)).toNat < f
            omega)
      exact ⟨dec1, h1, h2⟩
    · rw [if_neg hpos]
      exact ⟨dec, rfl, rfl⟩

theorem missedLoop_no_iteration (sequence fuel : Nat) (dec : FragmentedPacketDecoder)
    (hseq : sequence < dec.expectedFragment) (hexp : dec.expectedFragment < 2 ^ 31) :
    FragmentedPacketDecoder.missedLoop sequence (fuel + 1) dec = some dec := by
  unfold FragmentedPacketDecoder.missedLoop
  have h1 : toInt32 sequence = sequence := by
    unfold toInt32; norm_num at hexp ⊢; split_ifs <;> omega
  have h2 : toInt32 dec.expectedFragment = dec.expectedFragment := by
    unfold toInt32; norm_num at hexp ⊢; split_ifs <;> omega
  simp only [h1, h2]
  rw [if_neg (by omega), if_neg (by omega)]

/-- C32 (round trip of a sequenced payload). For every sequence number `s < 2^32`
and payload size `10 <= n <= 255`, the payload that `GetPacket` produces in
sequenced mode has `n` bytes, byte `i` being the `i`-th decimal digit of `s`
counted from the least significant one; the decoding loop of `FragmentReceived`
with `maxSize = n` rebuilds `s`, and `FragmentReceived` returns with
`fragmentReceived = s` from every decoder state for which the `int32_t`
difference of its second loop is representable. -/
theorem C32_sequenced_payload_round_trip (s n : Nat) (dec : FragmentedPacketDecoder)
    (hs : s < 2 ^ 32) (hn : 10 ≤ n) (hn255 : n ≤ 255) (hsize : dec.maxSize = n)
    (hlow : -(2 ^ 31) ≤ toInt32 s - toInt32 dec.expectedFragment)
    (hhigh : toInt32 s - toInt32 dec.expectedFragment < 2 ^ 31) :
    ((DownlinkPacketGenerator.new DownlinkType.SEQUENCED n s).GetPacket).length = n ∧
    (∀ i, i < n →
      byteAt ((DownlinkPacketGenerator.new DownlinkType.SEQUENCED n s).GetPacket) i = s / 10 ^ i % 10) ∧
    FragmentedPacketDecoder.decodeSequence
      ((DownlinkPacketGenerator.new DownlinkType.SEQUENCED n s).GetPacket) n = some s ∧
    (dec.FragmentReceived
      ((DownlinkPacketGenerator.new DownlinkType.SEQUENCED n s).GetPacket)).map (fun r => r.2.1) = some s := by
  have hpacket : ((DownlinkPacketGenerator.new DownlinkType.SEQUENCED n s).GetPacket) = sequencedLoop n s := by
    unfold DownlinkPacketGenerator.GetPacket DownlinkPacketGenerator.new
    simp only [if_true]
    rw [Nat.mod_mod, Nat.mod_mod, Nat.mod_eq_of_lt (show n < 256 by omega), Nat.mod_eq_of_lt hs]
  rw [hpacket]
  have hbytes : ∀ i, i < n → byteAt (sequencedLoop n s) i = s / 10 ^ i % 10 := by
    intro i hi
    unfold byteAt
    rw [sequencedLoop_getD n s i hi]
    omega
  have hpow : s < 10 ^ n := by
    have h1 : (10 : Nat) ^ 10 ≤ 10 ^ n := Nat.pow_le_pow_right (by omega) hn
    have h2 : (2 : Nat) ^ 32 < 10 ^ 10 := by norm_num
    omega
  have hdecode : FragmentedPacketDecoder.decodeSequence (sequencedLoop n s) n = some s := by
    unfold FragmentedPacketDecoder.decodeSequence
    rw [Nat.mod_eq_of_lt (show n < 256 by omega),
      List.take_of_length_le (by rw [sequencedLoop_length])]
    rw [decodeSequence_digits (sequencedLoop n s) s hs n hbytes, Nat.mod_eq_of_lt hpow]
  refine ⟨sequencedLoop_length n s, hbytes, hdecode, ?_⟩
  unfold FragmentedPacketDecoder.FragmentReceived
  rw [hsize, hdecode]
  simp only [Nat.not_lt_zero, if_false]
  have hret : ∀ d2 : FragmentedPacketDecoder, d2.expectedFragment = dec.expectedFragment →
      ∃ dec1, FragmentedPacketDecoder.missedLoop s (2 ^ 32) d2 = some dec1 := by
    intro d2 h2
    have hr1 := toInt32_range s
    have hr2 := toInt32_range dec.expectedFragment
    obtain ⟨dec1, h1, _⟩ := missedLoop_returns s (2 ^ 32) d2 (by rw [h2]; exact hlow)
      (by rw [h2]; exact hhigh) (by rw [h2]; omega)
    exact ⟨dec1, h1⟩
  obtain ⟨dec1, h1⟩ := hret
    (if s > dec.expectedFragment then { dec with lastNumberOfFragmentMissed := 0 } else dec)
    (by split_ifs <;> rfl)
  rw [h1]
  rfl

/-- Witness for C32: sequence number 1234567890 in a 12-byte payload, decoder
expecting fragment 0. -/
theorem C32_sequenced_payload_round_trip_witness :
    ((DownlinkPacketGenerator.new DownlinkType.SEQUENCED 12 1234567890).GetPacket).length = 12 ∧
    (∀ i, i < 12 →
      byteAt ((DownlinkPacketGenerator.new DownlinkType.SEQUENCED 12 1234567890).GetPacket) i =
        1234567890 / 10 ^ i % 10) ∧
    FragmentedPacketDecoder.decodeSequence
      ((DownlinkPacketGenerator.new DownlinkType.SEQUENCED 12 1234567890).GetPacket) 12 =
        some 1234567890 ∧
    (({ maxSize := 12 } : FragmentedPacketDecoder).FragmentReceived
      ((DownlinkPacketGenerator.new DownlinkType.SEQUENCED 12 1234567890).GetPacket)).map
        (fun r => r.2.1) = some 1234567890 :=
  C32_sequenced_payload_round_trip 1234567890 12 { maxSize := 12 } (by decide) (by decide)
    (by decide) rfl (by decide) (by decide)

/-- C33 (code bug: the attempt limit is off by one). After `SetNumberOfAttempt (n)`
with `0 < n < 256` on a newly constructed application, `count` consecutive
invocations of `EndDeviceClassBApp::SwitchToClassB` forward `min count (n + 1)`
requests to the MAC, which is `n + 1` as soon as `count > n`; with `n = 0` every
invocation is forwarded. -/
theorem C33_attempt_limit_off_by_one (n count : Nat) (hn : 0 < n) (hn256 : n < 256) :
    forwardedRequests (({} : EndDeviceClassBApp).SetNumberOfAttempt n) count =
      min count (n + 1) ∧
    forwardedRequests (({} : EndDeviceClassBApp).SetNumberOfAttempt n) (n + 1) = n + 1 ∧
    forwardedRequests (({} : EndDeviceClassBApp).SetNumberOfAttempt 0) count = count := by
  have hattempt : (({} : EndDeviceClassBApp).SetNumberOfAttempt n).m_nAttempt = n := by
    show n % 256 = n
    exact Nat.mod_eq_of_lt hn256
  have hgen : ∀ c, forwardedRequests (({} : EndDeviceClassBApp).SetNumberOfAttempt n) c =
      min c (n + 1) := by
    intro c
    rw [forwardedRequests_bounded n hn c _ hattempt (Nat.zero_le _) (by omega)]
    rfl
  refine ⟨hgen count, ?_, forwardedRequests_unlimited count _ rfl⟩
  rw [hgen (n + 1)]
  simp

/-- Witness for C33: with `SetNumberOfAttempt (1)` three invocations forward two
requests. -/
theorem C33_attempt_limit_off_by_one_witness :
    forwardedRequests (({} : EndDeviceClassBApp).SetNumberOfAttempt 1) 3 = min 3 (1 + 1) ∧
    forwardedRequests (({} : EndDeviceClassBApp).SetNumberOfAttempt 1) (1 + 1) = 1 + 1 ∧
    forwardedRequests (({} : EndDeviceClassBApp).SetNumberOfAttempt 0) 3 = 3 :=
  C33_attempt_limit_off_by_one 1 3 (by decide) (by decide)

/-- C39 (code bug: the current number of missed fragments wraps). With fragment
decoding enabled, a packet whose sequence number is below the expected one
(a repeated or late fragment) makes `FragmentReceived` append nothing to the
missed list, while `ClassBDownlinkCallback` computes the positive value
`sequence - expected + 2^32` as the current number of missed fragments and
fires the `FragmentsMissed` trace source with it. -/
theorem C39_current_missed_fragments_wraps (mac : EndDeviceLoraMac) (payload : List Nat)
    (app : EndDeviceClassBApp) (sequence : Nat)
    (henable : app.m_enableFragmentedPacketDecoder.enable = true)
    (hdecode : FragmentedPacketDecoder.decodeSequence payload
      app.m_fragmentedPacketDecoder.maxSize = some sequence)
    (hseq : sequence < app.m_fragmentedPacketDecoder.expectedFragment)
    (hexp : app.m_fragmentedPacketDecoder.expectedFragment < 2 ^ 31) :
    app.ClassBDownlinkCallback mac payload =
      some ({ app with m_fragmentedPacketDecoder := { app.m_fragmentedPacketDecoder with
                expectedFragment := app.m_fragmentedPacketDecoder.expectedFragment + 1 } },
        [AppCallback.fragmentsMissed mac.m_mcAddress mac.m_address
          (sequence + 2 ^ 32 - app.m_fragmentedPacketDecoder.expectedFragment)
          (app.m_fragmentedPacketDecoder.missedFragments.length % 2 ^ 32)]) ∧
    0 < sequence + 2 ^ 32 - app.m_fragmentedPacketDecoder.expectedFragment := by
  refine ⟨?_, by omega⟩
  unfold EndDeviceClassBApp.ClassBDownlinkCallback FragmentedPacketDecoder.FragmentReceived
  rw [if_pos henable, hdecode]
  simp only [Nat.not_lt_zero, if_false]
  rw [if_neg (by omega)]
  rw [show (2 : Nat) ^ 32 = 4294967295 + 1 from by norm_num,
    missedLoop_no_iteration sequence 4294967295 _ hseq hexp]
  simp only []
  have h1 : (app.m_fragmentedPacketDecoder.expectedFragment + 1) % (4294967295 + 1) =
      app.m_fragmentedPacketDecoder.expectedFragment + 1 := Nat.mod_eq_of_lt (by omega)
  have h2 : (sequence + (4294967295 + 1) - app.m_fragmentedPacketDecoder.expectedFragment) %
      (4294967295 + 1) =
      sequence + (4294967295 + 1) - app.m_fragmentedPacketDecoder.expectedFragment :=
    Nat.mod_eq_of_lt (by omega)
  rw [h1, h2, if_pos (by omega)]
  rfl

/-- Witness for C39: fragments 0 to 4 were received and fragment 3 arrives
again; the trace source reports 4294967294 missed fragments. -/
theorem C39_current_missed_fragments_wraps_witness :
    sampleDecodingApp.ClassBDownlinkCallback sampleClassBDevice sampleGeneratorThree.GetPacket =
      some ({ sampleDecodingApp with m_fragmentedPacketDecoder :=
                { sampleDecodingApp.m_fragmentedPacketDecoder with
                  expectedFragment := sampleDecodingApp.m_fragmentedPacketDecoder.expectedFragment + 1 } },
        [AppCallback.fragmentsMissed sampleClassBDevice.m_mcAddress sampleClassBDevice.m_address
          (3 + 2 ^ 32 - sampleDecodingApp.m_fragmentedPacketDecoder.expectedFragment)
          (sampleDecodingApp.m_fragmentedPacketDecoder.missedFragments.length % 2 ^ 32)]) ∧
    0 < 3 + 2 ^ 32 - sampleDecodingApp.m_fragmentedPacketDecoder.expectedFragment :=
  C39_current_missed_fragments_wraps sampleClassBDevice sampleGeneratorThree.GetPacket
    sampleDecodingApp 3 rfl (by decide) (by decide) (by decide)


/-- C35 (code bug: the guard can be scheduled with a negative delay). For every
instant `now >= 0` the relative delay that `SwitchToClassB` hands to
`Simulator::Schedule` is `k * 128 s + 0.015 s - 3.0 s - now` with
`k = now / 128 s + 1`, and it is negative exactly when `now` lies more than
125.015 s after the last multiple of 128 s, that is, in the last 2.985 s before
the next one; the accepted request then fails the assertion of
`Simulator::Schedule`, and otherwise records the event `now + delay`. -/
theorem C35_guard_delay_can_be_negative (now : Time) (m : EndDeviceLoraMac)
    (hnow : 0 ≤ now) (hrange : now < Seconds (2 ^ 31 - 128))
    (hcls : m.m_deviceClass = DeviceClass.CLASS_A)
    (hst : m.m_beaconState = BeaconState.BEACON_UNLOCKED) :
    EndDeviceLoraMac.nextBeaconGuard now =
      Seconds ((now / Seconds 128 + 1) * 128) + MilliSeconds 15 - Seconds 3 - now ∧
    (EndDeviceLoraMac.nextBeaconGuard now < 0 ↔ now % Seconds 128 > MilliSeconds 125015) ∧
    (EndDeviceLoraMac.nextBeaconGuard now < 0 → m.SwitchToClassB now = none) ∧
    (¬ EndDeviceLoraMac.nextBeaconGuard now < 0 →
      (m.SwitchToClassB now).map (fun r => r.2) =
        some [{ time := now + EndDeviceLoraMac.nextBeaconGuard now,
                callee := MacEvent.StartBeaconGuard }]) := by
  refine ⟨nextBeaconGuard_eq now hnow, nextBeaconGuard_neg_iff now hnow,
    SwitchToClassB_asserts now m hnow hrange hcls hst, fun hguard => ?_⟩
  · rw [SwitchToClassB_accepted now m hnow hrange hguard hcls hst]
    simp only [Option.map_some', EndDeviceLoraMac.nextBeaconGuard, BeaconInfo.tBeaconDelay,
      BeaconInfo.beaconGuard, Option.some.injEq, List.cons.injEq, ScheduledEvent.mk.injEq,
      and_true]
    ring

/-- Witness for C35: `SwitchToClassB` called at 126 s on a new device hands the delay
-0.985 s to the scheduler and fails its assertion. -/
theorem C35_guard_delay_can_be_negative_witness :
    EndDeviceLoraMac.nextBeaconGuard (Seconds 126) < 0 ∧
    (EndDeviceLoraMac.nextBeaconGuard (Seconds 126) =
      Seconds ((Seconds 126 / Seconds 128 + 1) * 128) + MilliSeconds 15 - Seconds 3 -
        Seconds 126 ∧
    (EndDeviceLoraMac.nextBeaconGuard (Seconds 126) < 0 ↔
      Seconds 126 % Seconds 128 > MilliSeconds 125015) ∧
    EndDeviceLoraMac.new.SwitchToClassB (Seconds 126) = none) :=
  match C35_guard_delay_can_be_negative (Seconds 126) EndDeviceLoraMac.new (by decide)
    (by decide) (by decide) (by decide) with
  | ⟨h1, h2, h3, _⟩ => ⟨by decide, h1, h2, h3 (by decide)⟩

/-- C31 (dispatch of a received ping). `PingReceived` of a downlink frame addressed
to `d`, on a device with the downlink callback installed: the Class B downlink
callback is invoked tagged Unicast exactly when `d` is the unicast address,
tagged Multicast exactly when `d` differs from the unicast address, equals
the multicast address and multicast is enabled, and not at all otherwise; a
copy is queued for relaying only in the Multicast case with relaying
activated and the received hop count `h` below `maxHop`, and it carries hop
count `h + 1`, which does not exceed `maxHop`; the mode afterwards is Idle from
PingSlot and BeaconGuard from PingSlotDuringBeaconGuard. The received hop count
is that of a transmitted frame (at least 1) and no packet is waiting to be
relayed, as the assertions of the function require. -/
theorem C31_PingReceived_dispatch (packet : Packet) (m : EndDeviceLoraMac)
    (hmode : m.m_macState = MacState.MAC_PING_SLOT ∨
      m.m_macState = MacState.MAC_PING_SLOT_BEACON_GUARD)
    (hdown : packet.isUplink = false)
    (hcb : m.m_classBDownlinkCallbackSet = true)
    (hhop : 0 < packet.hopCount) (hhop256 : packet.hopCount < 256)
    (hmax : m.maxHop ≤ 255)
    (hqueue : m.m_packetToRelay = []) :
    match m.PingReceived packet with
    | none => False
    | some (m1, cbs) =>
      (∀ t p i, MacCallback.classBDownlink t p i ∈ cbs ↔
        (p = packet.payload ∧ i = m.m_slotIndexLastOpened ∧
          ((t = ServiceType.UNICAST ∧ packet.address = m.m_address) ∨
           (t = ServiceType.MULTICAST ∧ packet.address ≠ m.m_address ∧
              packet.address = m.m_mcAddress ∧ m.m_enableMulticast = true)))) ∧
      m1.m_packetToRelay =
        (if packet.address ≠ m.m_address ∧ packet.address = m.m_mcAddress ∧
            m.m_enableMulticast = true ∧ m.m_relayActivated = true ∧
            packet.hopCount < m.maxHop then
          [{ packet with hopCount := packet.hopCount + 1 }]
         else []) ∧
      (∀ q, q ∈ m1.m_packetToRelay → q.hopCount ≤ m.maxHop) ∧
      (m.m_macState = MacState.MAC_PING_SLOT → m1.m_macState = MacState.MAC_IDLE) ∧
      (m.m_macState = MacState.MAC_PING_SLOT_BEACON_GUARD →
        m1.m_macState = MacState.MAC_BEACON_GUARD) := by
  have hh : packet.hopCount % 256 = packet.hopCount := Nat.mod_eq_of_lt hhop256
  by_cases hu : m.m_address = packet.address
  · rcases hmode with hm | hm <;>
      simp [EndDeviceLoraMac.PingReceived, EndDeviceLoraMac.SetMacState, hm, hdown, hcb, hu,
        hqueue, hh] <;> (intro t p i; tauto)
  · have hu2 : ¬ packet.address = m.m_address := fun h => hu h.symm
    by_cases hmc : m.m_mcAddress = packet.address
    · cases hen : m.m_enableMulticast
      · rcases hmode with hm | hm <;>
          simp [EndDeviceLoraMac.PingReceived, EndDeviceLoraMac.SetMacState, hm, hdown, hcb, hu,
            hu2, hmc, hen, hqueue, hh]
      · by_cases hrelay : m.maxHop > packet.hopCount ∧ m.m_relayActivated = true
        · have h1 := hrelay.1
          rcases hmode with hm | hm <;>
            simp [EndDeviceLoraMac.PingReceived, EndDeviceLoraMac.SetMacState, hm, hdown, hcb, hu,
              hu2, hmc, hen, hqueue, hh, hrelay, hhop] <;>
            exact ⟨fun t p i => by tauto, by omega, by omega⟩
        · have h1 : m.m_relayActivated = true → m.maxHop ≤ packet.hopCount := by
            intro hact
            by_contra hlt
            exact hrelay ⟨by omega, hact⟩
          rcases hmode with hm | hm <;>
            simp [EndDeviceLoraMac.PingReceived, EndDeviceLoraMac.SetMacState, hm, hdown, hcb, hu,
              hu2, hmc, hen, hqueue, hh, hrelay, hhop] <;>
            exact ⟨fun t p i => by tauto, h1⟩
    · have hmc2 : ¬ packet.address = m.m_mcAddress := fun h => hmc h.symm
      rcases hmode with hm | hm <;>
        simp [EndDeviceLoraMac.PingReceived, EndDeviceLoraMac.SetMacState, hm, hdown, hcb, hu,
          hu2, hmc, hmc2, hqueue, hh]

/-- Witness for C31: the sample device, relaying activated, receives in an open
ping slot a multicast frame of its group with hop count 1. -/
theorem C31_PingReceived_dispatch_witness :
    match sampleRelayDevice.PingReceived sampleMulticastFrame with
    | none => False
    | some (m1, cbs) =>
      (∀ t p i, MacCallback.classBDownlink t p i ∈ cbs ↔
        (p = sampleMulticastFrame.payload ∧ i = sampleRelayDevice.m_slotIndexLastOpened ∧
          ((t = ServiceType.UNICAST ∧ sampleMulticastFrame.address = sampleRelayDevice.m_address) ∨
           (t = ServiceType.MULTICAST ∧ sampleMulticastFrame.address ≠ sampleRelayDevice.m_address ∧
              sampleMulticastFrame.address = sampleRelayDevice.m_mcAddress ∧
              sampleRelayDevice.m_enableMulticast = true)))) ∧
      m1.m_packetToRelay =
        (if sampleMulticastFrame.address ≠ sampleRelayDevice.m_address ∧
            sampleMulticastFrame.address = sampleRelayDevice.m_mcAddress ∧
            sampleRelayDevice.m_enableMulticast = true ∧
            sampleRelayDevice.m_relayActivated = true ∧
            sampleMulticastFrame.hopCount < sampleRelayDevice.maxHop then
          [{ sampleMulticastFrame with hopCount := sampleMulticastFrame.hopCount + 1 }]
         else []) ∧
      (∀ q, q ∈ m1.m_packetToRelay → q.hopCount ≤ sampleRelayDevice.maxHop) ∧
      (sampleRelayDevice.m_macState = MacState.MAC_PING_SLOT →
        m1.m_macState = MacState.MAC_IDLE) ∧
      (sampleRelayDevice.m_macState = MacState.MAC_PING_SLOT_BEACON_GUARD →
        m1.m_macState = MacState.MAC_BEACON_GUARD) :=
  C31_PingReceived_dispatch sampleMulticastFrame sampleRelayDevice (by decide) (by decide)
    (by decide) (by decide) (by decide) (by decide) (by decide)

theorem SetMacState_refused (m : EndDeviceLoraMac) (target : MacState)
    (h : allowedTransition m.m_macState target = false) :
    (m.SetMacState target).m_macState = m.m_macState := by
  unfold EndDeviceLoraMac.SetMacState
  cases hm : m.m_macState <;> cases target <;> simp_all [allowedTransition]

theorem SetMacState_accepted (m : EndDeviceLoraMac) (target : MacState)
    (h : allowedTransition m.m_macState target = true) :
    (m.SetMacState target).m_macState = target := by
  unfold EndDeviceLoraMac.SetMacState
  cases hm : m.m_macState <;> cases target <;> simp_all [allowedTransition]

theorem Send_mode_of_receiving (reachesPhy : Bool) (m : EndDeviceLoraMac)
    (hrx : m.m_macState = MacState.MAC_RX1 ∨ m.m_macState = MacState.MAC_RX2 ∨
      m.m_macState = MacState.MAC_RX_BEACON_GUARD) :
    (m.Send reachesPhy).m_macState = m.m_macState := by
  unfold EndDeviceLoraMac.Send EndDeviceLoraMac.SendToPhy
  cases reachesPhy
  · simp
  · simp only [if_true]
    rcases hrx with h | h | h <;>
      · rw [SetMacState_refused _ _ (by show allowedTransition m.m_macState _ = false; rw [h]; rfl)]

theorem retransmitOrGiveUp_mode_of_receiving (reachesPhy : Bool) (m : EndDeviceLoraMac)
    (hrx : m.m_macState = MacState.MAC_RX1 ∨ m.m_macState = MacState.MAC_RX2 ∨
      m.m_macState = MacState.MAC_RX_BEACON_GUARD) :
    (m.retransmitOrGiveUp reachesPhy).1.m_macState = m.m_macState := by
  unfold EndDeviceLoraMac.retransmitOrGiveUp
  split_ifs
  · exact Send_mode_of_receiving reachesPhy m hrx
  · rfl

theorem FailedReception_mode_of_receiving (now : Time) (secondWindowExpired reachesPhy : Bool)
    (m : EndDeviceLoraMac)
    (hrx : m.m_macState = MacState.MAC_RX1 ∨ m.m_macState = MacState.MAC_RX2 ∨
      m.m_macState = MacState.MAC_RX_BEACON_GUARD) :
    (m.FailedReception now secondWindowExpired reachesPhy).1.m_macState = m.m_macState := by
  have h1 : ¬ m.m_macState = MacState.MAC_BEACON_RESERVED := by
    rcases hrx with h | h | h <;> rw [h] <;> decide
  have h2 : ¬ (m.m_macState = MacState.MAC_PING_SLOT ∨
      m.m_macState = MacState.MAC_PING_SLOT_BEACON_GUARD) := by
    rcases hrx with h | h | h <;> rw [h] <;> decide
  unfold EndDeviceLoraMac.FailedReception
  simp only [if_neg h1, if_neg h2, if_pos hrx]
  split_ifs
  · exact retransmitOrGiveUp_mode_of_receiving reachesPhy m hrx
  · rfl

theorem receiveClassA_mode (secondWindowExpired reachesPhy : Bool) (packet : Packet)
    (m : EndDeviceLoraMac)
    (hrx : m.m_macState = MacState.MAC_RX1 ∨ m.m_macState = MacState.MAC_RX2 ∨
      m.m_macState = MacState.MAC_RX_BEACON_GUARD) :
    (m.receiveClassA secondWindowExpired reachesPhy packet).1.m_macState = m.m_macState := by
  unfold EndDeviceLoraMac.receiveClassA EndDeviceLoraMac.ParseCommands
  split_ifs <;>
    first
    | rfl
    | exact Send_mode_of_receiving reachesPhy m hrx
    | exact retransmitOrGiveUp_mode_of_receiving reachesPhy m hrx

theorem Receive_mode_of_receiving (now : Time) (secondWindowExpired reachesPhy : Bool)
    (bcnTime : Nat) (packet : Packet) (m : EndDeviceLoraMac)
    (hrx : m.m_macState = MacState.MAC_RX1 ∨ m.m_macState = MacState.MAC_RX2 ∨
      m.m_macState = MacState.MAC_RX_BEACON_GUARD) :
    (m.Receive now secondWindowExpired reachesPhy bcnTime packet).map (fun r => r.1.m_macState) =
      some (if m.m_macState = MacState.MAC_RX_BEACON_GUARD then MacState.MAC_BEACON_GUARD
            else MacState.MAC_IDLE) := by
  have h1 : ¬ m.m_macState = MacState.MAC_BEACON_RESERVED := by
    rcases hrx with h | h | h <;> rw [h] <;> decide
  have h2 : ¬ (m.m_macState = MacState.MAC_PING_SLOT ∨
      m.m_macState = MacState.MAC_PING_SLOT_BEACON_GUARD) := by
    rcases hrx with h | h | h <;> rw [h] <;> decide
  have h3 := receiveClassA_mode secondWindowExpired reachesPhy packet m hrx
  unfold EndDeviceLoraMac.Receive
  simp only [if_neg h1, if_neg h2, if_pos hrx]
  by_cases hb : bcnTime ≠ 0
  · simp only [if_pos hb]
    rcases hrx with h | h | h <;>
      simp [h, EndDeviceLoraMac.SetMacState]
  · simp only [if_neg hb, h3]
    rcases hrx with h | h | h
    · simp only [h, if_neg (by decide : ¬ MacState.MAC_RX1 = MacState.MAC_RX_BEACON_GUARD),
        Option.map_some']
      rw [SetMacState_accepted _ _ (by rw [h3, h]; rfl)]
    · simp only [h, if_neg (by decide : ¬ MacState.MAC_RX2 = MacState.MAC_RX_BEACON_GUARD),
        Option.map_some']
      rw [SetMacState_accepted _ _ (by rw [h3, h]; rfl)]
    · simp only [h, if_true, Option.map_some']
      rw [SetMacState_accepted _ _ (by rw [h3, h]; rfl)]

theorem CloseSecondReceiveWindow_mode_in_guard (reachesPhy : Bool) (m : EndDeviceLoraMac)
    (hrx : m.m_macState = MacState.MAC_RX_BEACON_GUARD) :
    (m.CloseSecondReceiveWindow PhyState.STANDBY reachesPhy).1.m_macState =
      MacState.MAC_RX_BEACON_GUARD := by
  have h0 : (m.SetMacState MacState.MAC_IDLE).m_macState = MacState.MAC_RX_BEACON_GUARD := by
    rw [SetMacState_refused _ _ (by rw [hrx]; rfl), hrx]
  unfold EndDeviceLoraMac.CloseSecondReceiveWindow
  simp only [if_neg (by decide : ¬ PhyState.STANDBY = PhyState.RX), if_true]
  split_ifs
  · rw [Send_mode_of_receiving reachesPhy _ (Or.inr (Or.inr h0)), h0]
  · exact h0
  · exact h0
  · exact h0

/-- C37 (code bug: two ways of ending a Class A receive activity leave the mode
as it is). For a device in mode Rx1, Rx2 or RxDuringBeaconGuard, `Receive` ends
in Idle (from Rx1, Rx2) or BeaconGuard (from RxDuringBeaconGuard), but
`FailedReception` returns with the mode unchanged, and from
RxDuringBeaconGuard `CloseFirstReceiveWindow` and `CloseSecondReceiveWindow`
finding the radio in standby ask for Idle, which `SetMacState` refuses, so the
mode stays RxDuringBeaconGuard. -/
theorem C37_receive_end_leaves_mode (now : Time) (secondWindowExpired reachesPhy : Bool)
    (bcnTime : Nat) (packet : Packet) (m : EndDeviceLoraMac)
    (hrx : m.m_macState = MacState.MAC_RX1 ∨ m.m_macState = MacState.MAC_RX2 ∨
      m.m_macState = MacState.MAC_RX_BEACON_GUARD) :
    (m.Receive now secondWindowExpired reachesPhy bcnTime packet).map (fun r => r.1.m_macState) =
      some (if m.m_macState = MacState.MAC_RX_BEACON_GUARD then MacState.MAC_BEACON_GUARD
            else MacState.MAC_IDLE) ∧
    (m.FailedReception now secondWindowExpired reachesPhy).1.m_macState = m.m_macState ∧
    (m.m_macState = MacState.MAC_RX_BEACON_GUARD →
      (m.CloseFirstReceiveWindow PhyState.STANDBY).map (fun r => r.m_macState) =
        some MacState.MAC_RX_BEACON_GUARD ∧
      (m.CloseSecondReceiveWindow PhyState.STANDBY reachesPhy).1.m_macState =
        MacState.MAC_RX_BEACON_GUARD) := by
  refine ⟨Receive_mode_of_receiving now secondWindowExpired reachesPhy bcnTime packet m hrx,
    FailedReception_mode_of_receiving now secondWindowExpired reachesPhy m hrx, ?_⟩
  intro hguard
  refine ⟨?_, CloseSecondReceiveWindow_mode_in_guard reachesPhy m hguard⟩
  show some (m.SetMacState MacState.MAC_IDLE).m_macState = _
  rw [SetMacState_refused _ _ (by rw [hguard]; rfl), hguard]

/-- Witness for C37: the sample device whose guard started during a receive
window; a failed reception, or a window closing with the radio in standby,
leaves it in RxDuringBeaconGuard. -/
theorem C37_receive_end_leaves_mode_witness :
    (sampleReceivingInGuardDevice.Receive (Seconds 1278) true false 0 {}).map
        (fun r => r.1.m_macState) =
      some (if sampleReceivingInGuardDevice.m_macState = MacState.MAC_RX_BEACON_GUARD then
              MacState.MAC_BEACON_GUARD
            else MacState.MAC_IDLE) ∧
    (sampleReceivingInGuardDevice.FailedReception (Seconds 1278) true false).1.m_macState =
      sampleReceivingInGuardDevice.m_macState ∧
    (sampleReceivingInGuardDevice.m_macState = MacState.MAC_RX_BEACON_GUARD →
      (sampleReceivingInGuardDevice.CloseFirstReceiveWindow PhyState.STANDBY).map
          (fun r => r.m_macState) = some MacState.MAC_RX_BEACON_GUARD ∧
      (sampleReceivingInGuardDevice.CloseSecondReceiveWindow PhyState.STANDBY false).1.m_macState =
        MacState.MAC_RX_BEACON_GUARD) :=
  C37_receive_end_leaves_mode (Seconds 1278) true false 0 {} sampleReceivingInGuardDevice
    (by decide)

theorem Send_mode_in_guard (reachesPhy : Bool) (m : EndDeviceLoraMac)
    (hguard : m.m_macState = MacState.MAC_BEACON_GUARD) :
    (m.Send reachesPhy).m_macState = MacState.MAC_BEACON_GUARD := by
  unfold EndDeviceLoraMac.Send EndDeviceLoraMac.SendToPhy
  cases reachesPhy
  · simpa using hguard
  · simp only [if_true]
    rw [SetMacState_refused _ _ (by show allowedTransition m.m_macState _ = false
                                    rw [hguard]; rfl)]
    exact hguard

theorem beacon_guard_mode_kept (now rxWindow : Time) (phy : PhyState)
    (secondWindowExpired reachesPhy : Bool) (bcnTime slotIndex : Nat) (packet : Packet)
    (m : EndDeviceLoraMac) (hguard : m.m_macState = MacState.MAC_BEACON_GUARD) :
    (m.TxFinished now).1.m_macState = MacState.MAC_BEACON_GUARD ∧
    (m.OpenFirstReceiveWindow now rxWindow).1.m_macState = MacState.MAC_BEACON_GUARD ∧
    (∀ m1, m.CloseFirstReceiveWindow phy = some m1 →
      m1.m_macState = MacState.MAC_BEACON_GUARD) ∧
    (m.OpenSecondReceiveWindow now phy rxWindow).1.m_macState = MacState.MAC_BEACON_GUARD ∧
    (m.CloseSecondReceiveWindow phy reachesPhy).1.m_macState = MacState.MAC_BEACON_GUARD ∧
    (m.OpenPingSlotReceiveWindow now phy rxWindow slotIndex).1.m_macState =
      MacState.MAC_BEACON_GUARD ∧
    (m.Receive now secondWindowExpired reachesPhy bcnTime packet).map
      (fun r => r.1.m_macState) = some MacState.MAC_BEACON_GUARD ∧
    (m.FailedReception now secondWindowExpired reachesPhy).1.m_macState =
      MacState.MAC_BEACON_GUARD := by
  have hset : ∀ (m0 : EndDeviceLoraMac) (target : MacState),
      m0.m_macState = MacState.MAC_BEACON_GUARD → target ≠ MacState.MAC_BEACON_RESERVED →
      (m0.SetMacState target).m_macState = MacState.MAC_BEACON_GUARD := by
    intro m0 target h0 ht
    rw [SetMacState_refused _ _ (by rw [h0]; cases target <;> simp_all [allowedTransition])]
    exact h0
  refine ⟨?_, ?_, ?_, ?_, ?_, ?_, ?_, ?_⟩
  · unfold EndDeviceLoraMac.TxFinished
    rw [if_neg (by rw [hguard]; decide), if_neg (by rw [hguard]; decide)]
    exact hset _ _ hguard (by decide)
  · exact hset _ _ hguard (by decide)
  · intro m1 h
    cases phy <;> simp only [EndDeviceLoraMac.CloseFirstReceiveWindow, Option.some.injEq] at h
    · rw [← h]; exact hguard
    · rw [← h]; exact hset _ _ hguard (by decide)
    · exact absurd h (by simp)
    · rw [← h]; exact hguard
  · unfold EndDeviceLoraMac.OpenSecondReceiveWindow
    split_ifs
    · exact hguard
    · exact hset _ _ hguard (by decide)
  · have h1 : (if phy = PhyState.STANDBY then m.SetMacState MacState.MAC_IDLE else m).m_macState
        = MacState.MAC_BEACON_GUARD := by
      split_ifs
      · exact hset _ _ hguard (by decide)
      · exact hguard
    have htail : ∀ (m1 : EndDeviceLoraMac) (phyAfter : PhyState),
        m1.m_macState = MacState.MAC_BEACON_GUARD →
        (if m1.m_retxParams.waitingAck = true then
          if m1.m_retxParams.retxLeft > 0 then (EndDeviceLoraMac.Send reachesPhy m1, [])
          else
            if m1.m_retxParams.retxLeft = 0 ∧ phyAfter ≠ PhyState.RX then
              (m1.resetRetransmissionParameters,
                [MacCallback.requiredTx m1.transmissionsUsed false])
            else (m1, [])
        else (m1.resetRetransmissionParameters,
          [MacCallback.requiredTx m1.transmissionsUsed true])).1.m_macState =
          MacState.MAC_BEACON_GUARD := by
      intro m1 phyAfter h
      split_ifs <;> first | exact Send_mode_in_guard reachesPhy m1 h | exact h
    unfold EndDeviceLoraMac.CloseSecondReceiveWindow
    by_cases hrx : phy = PhyState.RX
    · rw [if_pos hrx]; exact hguard
    · rw [if_neg hrx]
      exact htail _ _ h1
  · unfold EndDeviceLoraMac.OpenPingSlotReceiveWindow
    split_ifs <;> first | exact hguard | (exfalso; simp_all)
  · unfold EndDeviceLoraMac.Receive
    simp [hguard]
  · unfold EndDeviceLoraMac.FailedReception
    simp [hguard]

theorem TxFinished_leaves_beacon_reserved (now : Time) (m : EndDeviceLoraMac)
    (hres : m.m_macState = MacState.MAC_BEACON_RESERVED) :
    (m.TxFinished now).1.m_macState = MacState.MAC_IDLE := by
  unfold EndDeviceLoraMac.TxFinished
  rw [if_neg (by rw [hres]; decide), if_neg (by rw [hres]; decide)]
  simp [EndDeviceLoraMac.SetMacState, hres]

theorem EndBeaconReserved_asserts (host : Host) (now : Time) (phy : PhyState)
    (m : EndDeviceLoraMac) (hmode : m.m_macState ≠ MacState.MAC_BEACON_RESERVED) :
    m.EndBeaconReserved host now phy = none := by
  unfold EndDeviceLoraMac.EndBeaconReserved
  rw [if_pos hmode]

/-- C36 (code bug: the mode leaves BeaconReserved before `EndBeaconReserved`). The
sample Class B device, idle with ping offset 0, enters BeaconGuard at
1277.015 s. A `DoSend` during the guard is put off to the instant at which the
guard ends (the jitter range is empty for ping offset 0); run again at that
instant, before `StartBeaconReserved`, it finds no delay left and transmits,
`SendToPhy` leaving the mode at BeaconGuard. `StartBeaconReserved` then enters
BeaconReserved, `TxFinished` of that transmission sets the mode to Idle, and
`EndBeaconReserved` fails its assertion on the mode. -/
theorem C36_mode_left_during_beacon_reserved (host : Host) (rx rxWindow airTime : Time)
    (phy : PhyState) (packet : Packet) :
    (sampleIdleZeroOffsetDevice.StartBeaconGuard sampleGuardStart).1.m_macState =
      MacState.MAC_BEACON_GUARD ∧
    (sampleIdleZeroOffsetDevice.StartBeaconGuard sampleGuardStart).1.DoSend
        (sampleGuardStart + Seconds 1) rx 0 packet =
      EndDeviceLoraMac.DoSendStep.rescheduled
        { time := sampleGuardStart + Seconds 3, callee := MacEvent.DoSend packet } ∧
    (sampleIdleZeroOffsetDevice.StartBeaconGuard sampleGuardStart).1.DoSend
        (sampleGuardStart + Seconds 3) rx 0 packet = EndDeviceLoraMac.DoSendStep.transmits ∧
    (sampleIdleZeroOffsetDevice.StartBeaconGuard sampleGuardStart).1.SendToPhy.m_macState =
      MacState.MAC_BEACON_GUARD ∧
    match (sampleIdleZeroOffsetDevice.StartBeaconGuard sampleGuardStart).1.SendToPhy.StartBeaconReserved
        (sampleGuardStart + Seconds 3) rxWindow with
    | none => False
    | some (d3, _) =>
      d3.m_macState = MacState.MAC_BEACON_RESERVED ∧
      (d3.TxFinished (sampleGuardStart + Seconds 3 + airTime)).1.m_macState =
        MacState.MAC_IDLE ∧
      (d3.TxFinished (sampleGuardStart + Seconds 3 + airTime)).1.EndBeaconReserved host
        (sampleGuardStart + Seconds 3 + MilliSeconds 2120) phy = none := by
  have hmode : (sampleIdleZeroOffsetDevice.StartBeaconGuard sampleGuardStart).1.m_macState =
      MacState.MAC_BEACON_GUARD := by decide
  have hleft1 :
      EndDeviceLoraMac.GetDelayLeft (sampleGuardStart + Seconds 1)
          (sampleIdleZeroOffsetDevice.StartBeaconGuard
            sampleGuardStart).1.m_beaconInfo.endBeaconGuardEvent +
        EndDeviceLoraMac.GetDelayLeft (sampleGuardStart + Seconds 1)
          (sampleIdleZeroOffsetDevice.StartBeaconGuard
            sampleGuardStart).1.m_beaconInfo.endBeaconReservedEvent + 0 = Seconds 2 := by
    decide
  have hleft3 :
      EndDeviceLoraMac.GetDelayLeft (sampleGuardStart + Seconds 3)
          (sampleIdleZeroOffsetDevice.StartBeaconGuard
            sampleGuardStart).1.m_beaconInfo.endBeaconGuardEvent +
        EndDeviceLoraMac.GetDelayLeft (sampleGuardStart + Seconds 3)
          (sampleIdleZeroOffsetDevice.StartBeaconGuard
            sampleGuardStart).1.m_beaconInfo.endBeaconReservedEvent + 0 = Seconds 0 := by
    decide
  have hstart : ((sampleIdleZeroOffsetDevice.StartBeaconGuard
      sampleGuardStart).1.SendToPhy.StartBeaconReserved (sampleGuardStart + Seconds 3)
        rxWindow).map (fun r => r.1.m_macState) = some MacState.MAC_BEACON_RESERVED := by
    unfold EndDeviceLoraMac.StartBeaconReserved
    rw [if_neg (by decide)]
    rfl
  refine ⟨hmode, ?_, ?_, by decide, ?_⟩
  · unfold EndDeviceLoraMac.DoSend EndDeviceLoraMac.ResolveWithClassBAndGetTime
    simp only [if_pos hmode, hleft1]
    rw [if_pos (by decide)]
    have htime : sampleGuardStart + Seconds 1 + Seconds 2 = sampleGuardStart + Seconds 3 := by
      decide
    rw [htime]
  · unfold EndDeviceLoraMac.DoSend EndDeviceLoraMac.ResolveWithClassBAndGetTime
    simp only [if_pos hmode, hleft3]
    rw [if_neg (by decide)]
  · cases hres : (sampleIdleZeroOffsetDevice.StartBeaconGuard
        sampleGuardStart).1.SendToPhy.StartBeaconReserved (sampleGuardStart + Seconds 3) rxWindow with
    | none => rw [hres] at hstart; simp at hstart
    | some r =>
      obtain ⟨d3, evs⟩ := r
      rw [hres] at hstart
      have h3 : d3.m_macState = MacState.MAC_BEACON_RESERVED := by simpa using hstart
      have h4 := TxFinished_leaves_beacon_reserved (sampleGuardStart + Seconds 3 + airTime) d3 h3
      exact ⟨h3, h4, EndBeaconReserved_asserts host _ phy _ (by rw [h4]; decide)⟩

theorem multicastLoop_unregistered (groups : List (LoraDeviceAddress × List EndDeviceLoraMac))
    (mcAddress : LoraDeviceAddress) (hgroup : groups.lookup mcAddress = none) :
    ∀ (gateways : List GatewayStatus) (packetCopy : ServerPacket) (count : Nat)
      (sent : List (Nat × ServerPacket)),
      NetworkStatus.multicastLoop groups mcAddress gateways packetCopy count sent =
        some (count, sent) := by
  intro gateways
  induction gateways with
  | nil => intro _ _ _; rfl
  | cons gw rest ih =>
    intro packetCopy count sent
    unfold NetworkStatus.multicastLoop
    by_cases hserve : gw.mac.IsClassBTransmissionEnabled = true ∧
        gw.mac.CheckMulticastGroup mcAddress = true
    · rw [if_pos hserve, hgroup]
      exact ih packetCopy count sent
    · rw [if_neg hserve]
      exact ih packetCopy count sent

theorem multicastLoop_registered (groups : List (LoraDeviceAddress × List EndDeviceLoraMac))
    (mcAddress : LoraDeviceAddress) (devStatus : EndDeviceLoraMac)
    (others : List EndDeviceLoraMac)
    (hgroup : groups.lookup mcAddress = some (devStatus :: others)) :
    ∀ (gateways : List GatewayStatus) (packetCopy : ServerPacket) (count : Nat)
      (sent : List (Nat × ServerPacket)), count < 256 →
      NetworkStatus.multicastLoop groups mcAddress gateways packetCopy count sent =
        some ((count + (servingGateways gateways mcAddress).length) % 256,
          sent ++ handedFrames mcAddress devStatus.GetPingSlotReceiveWindowDataRate
            (servingGateways gateways mcAddress) packetCopy) := by
  intro gateways
  induction gateways with
  | nil =>
    intro packetCopy count sent hcount
    simp [NetworkStatus.multicastLoop, servingGateways, handedFrames, Nat.mod_eq_of_lt hcount]
  | cons gw rest ih =>
    intro packetCopy count sent hcount
    unfold NetworkStatus.multicastLoop
    by_cases hserve : gw.mac.IsClassBTransmissionEnabled = true ∧
        gw.mac.CheckMulticastGroup mcAddress = true
    · rw [if_pos hserve, hgroup]
      simp only [List.head?_cons]
      by_cases havail : gw.isAvailableForTransmission = true
      · rw [if_pos havail, ih _ _ _ (Nat.mod_lt _ (by norm_num))]
        have hfilter : servingGateways (gw :: rest) mcAddress =
            gw :: servingGateways rest mcAddress := by
          simp [servingGateways, List.filter_cons, hserve.1, hserve.2, havail]
        rw [hfilter]
        simp only [List.length_cons, handedFrames, List.append_assoc, List.singleton_append,
          Option.some.injEq, Prod.mk.injEq, and_true]
        omega
      · rw [if_neg havail, ih _ _ _ hcount]
        have hfilter : servingGateways (gw :: rest) mcAddress =
            servingGateways rest mcAddress := by
          simp [servingGateways, List.filter_cons, havail]
        rw [hfilter]
    · rw [if_neg hserve, ih _ _ _ hcount]
      have hfilter : servingGateways (gw :: rest) mcAddress =
          servingGateways rest mcAddress := by
        simp only [servingGateways, List.filter_cons]
        rw [if_neg]
        intro h
        simp only [Bool.and_eq_true] at h
        exact hserve h.1
      rw [hfilter]

theorem handedFrames_headers (mcAddress : LoraDeviceAddress) (dataRate : Nat) :
    ∀ (serving : List GatewayStatus) (packetCopy : ServerPacket) (j : Nat),
      j < serving.length →
      ((handedFrames mcAddress dataRate serving packetCopy).get? j).map
          (fun x => (x.1, x.2.headers, x.2.payload)) =
        (serving.get? j).map (fun gw =>
          (gw.address,
            (List.replicate (j + 1)
              [PacketHeader.macHeader, PacketHeader.frameHeader mcAddress]).flatten ++
              packetCopy.headers,
            packetCopy.payload)) := by
  intro serving
  induction serving with
  | nil => intro _ j hj; simp at hj
  | cons gw rest ih =>
    intro packetCopy j hj
    cases j with
    | zero =>
      simp [handedFrames, NetworkStatus.prepareForGateway, ServerPacket.AddHeader,
        ServerPacket.AddPacketTag]
    | succ i =>
      simp only [handedFrames, List.get?_cons_succ]
      rw [ih _ i (by simpa using hj)]
      simp [NetworkStatus.prepareForGateway, ServerPacket.AddHeader,
        ServerPacket.AddPacketTag, List.replicate_succ' ]

/-- C38 (code bug: the multicast frame accumulates headers from gateway to
gateway). `MulticastPacket` returns 0 and sends nothing when the group has no
registered member; for a registered group it returns the number (modulo 256,
the counter being a `uint8_t`) of gateways that are Class B enabled, serve the
group and are available, and hands one packet to each of them, in order. The
packet handed to the `j`-th of these gateways (counted from 0) carries `j + 1`
MAC headers and `j + 1` frame headers in front of the payload, because the same
`packetCopy` is extended in every iteration: only the first gateway receives the
payload preceded by exactly one frame header and one MAC header. -/
theorem C38_multicast_frames_accumulate_headers (gateways : List GatewayStatus)
    (groups : List (LoraDeviceAddress × List EndDeviceLoraMac)) (packet : ServerPacket)
    (mcAddress : LoraDeviceAddress) :
    (groups.lookup mcAddress = none →
      NetworkStatus.MulticastPacket gateways groups packet mcAddress = some (0, [])) ∧
    (∀ (devStatus : EndDeviceLoraMac) (others : List EndDeviceLoraMac),
      groups.lookup mcAddress = some (devStatus :: others) →
      ∃ sent : List (Nat × ServerPacket),
        NetworkStatus.MulticastPacket gateways groups packet mcAddress =
          some ((servingGateways gateways mcAddress).length % 256, sent) ∧
        (∀ j, j < (servingGateways gateways mcAddress).length →
          (sent.get? j).map (fun x => (x.1, x.2.headers, x.2.payload)) =
            ((servingGateways gateways mcAddress).get? j).map (fun gw =>
              (gw.address,
                (List.replicate (j + 1)
                  [PacketHeader.macHeader, PacketHeader.frameHeader mcAddress]).flatten ++
                  packet.headers,
                packet.payload))) ∧
        (∀ j x, 0 < j → sent.get? j = some x →
          x.2.headers ≠ singleFrame mcAddress packet)) := by
  refine ⟨fun hnone => multicastLoop_unregistered groups mcAddress hnone gateways packet 0 [],
    ?_⟩
  intro devStatus others hgroup
  have hrun := multicastLoop_registered groups mcAddress devStatus others hgroup gateways packet
    0 [] (by norm_num)
  rw [Nat.zero_add, List.nil_append] at hrun
  have hheaders := handedFrames_headers mcAddress devStatus.GetPingSlotReceiveWindowDataRate
    (servingGateways gateways mcAddress) packet
  have hlen : ∀ (serving : List GatewayStatus) (p : ServerPacket),
      (handedFrames mcAddress devStatus.GetPingSlotReceiveWindowDataRate serving p).length =
        serving.length := by
    intro serving
    induction serving with
    | nil => intro _; rfl
    | cons gw rest ih => intro p; simp [handedFrames, ih]
  refine ⟨_, hrun, hheaders, ?_⟩
  intro j x hj hx
  have hjlt : j < (servingGateways gateways mcAddress).length := by
    rw [← hlen _ packet]
    exact (List.get?_eq_some.mp hx).1
  have h1 := hheaders j hjlt
  rw [hx] at h1
  obtain ⟨gw, hgw⟩ : ∃ gw, (servingGateways gateways mcAddress).get? j = some gw :=
    ⟨_, List.get?_eq_get hjlt⟩
  rw [hgw] at h1
  simp only [Option.map_some', Option.some.injEq, Prod.mk.injEq] at h1
  intro hsingle
  have h2 := congrArg List.length (h1.2.1.symm.trans hsingle)
  simp [singleFrame] at h2
  omega

/-- Witness for C38: two gateways serve the sample group; the packet handed to
the second one carries two MAC headers and two frame headers. -/
theorem C38_multicast_frames_accumulate_headers_witness :
    NetworkStatus.MulticastPacket sampleGateways sampleGroups sampleDownlinkPacket 2864434397 =
      some (2,
        [(1, { sampleDownlinkPacket with
                headers := [PacketHeader.macHeader, PacketHeader.frameHeader 2864434397]
                tags := [PacketTag.hopCount 1, PacketTag.lora 3 false] }),
         (2, { sampleDownlinkPacket with
                headers := [PacketHeader.macHeader, PacketHeader.frameHeader 2864434397,
                  PacketHeader.macHeader, PacketHeader.frameHeader 2864434397]
                tags := [PacketTag.hopCount 1, PacketTag.lora 3 false,
                  PacketTag.lora 3 false] })]) ∧
    sampleGroups.lookup 2864434397 = some (sampleClassBDevice :: [sampleClassBDevice]) ∧
    ∃ sent : List (Nat × ServerPacket),
      NetworkStatus.MulticastPacket sampleGateways sampleGroups sampleDownlinkPacket 2864434397 =
        some ((servingGateways sampleGateways 2864434397).length % 256, sent) ∧
      (∀ j, j < (servingGateways sampleGateways 2864434397).length →
        (sent.get? j).map (fun x => (x.1, x.2.headers, x.2.payload)) =
          ((servingGateways sampleGateways 2864434397).get? j).map (fun gw =>
            (gw.address,
              (List.replicate (j + 1)
                [PacketHeader.macHeader, PacketHeader.frameHeader 2864434397]).flatten ++
                sampleDownlinkPacket.headers,
              sampleDownlinkPacket.payload))) ∧
      (∀ j x, 0 < j → sent.get? j = some x →
        x.2.headers ≠ singleFrame 2864434397 sampleDownlinkPacket) :=
  ⟨by decide, by decide,
    (C38_multicast_frames_accumulate_headers sampleGateways sampleGroups sampleDownlinkPacket
      2864434397).2 sampleClassBDevice [sampleClassBDevice] (by decide)⟩

end LoraClassB
